import Mathlib

/-!
# Verification of the marching-cubes voxel engine (engine.cpp)

A shallow embedding of `src/sketches/marching-cubes/src/engine.cpp`:
chunked voxel storage, dirty tracking, procedural generation (simplex/fbm
noise), marching-cubes meshing, and the empty-chunk-skipping DDA raycaster.

Machine integers of the C code (`int`, `size_t`, `uint8_t`) are embedded as
`Int`/`Nat`: every quantity in the program stays far below the 32-bit and
64-bit ranges, so overflow never bites on the claims verified here.
`float` arithmetic is embedded as exact rational (`ℚ`) arithmetic; the two
transcendental helpers of the code, the sRGB-decode `pow` of the color lookup
table and `sqrtf` in the mesher's normal computation, are taken as function
parameters (`lut`, `sqrtQ`) because their values are irrelevant to every
property proved below.
-/

/-! ## Constants (engine.cpp lines 10-13) -/

def CHUNK_BITS : Nat := 4

def CHUNK_SIZE : Int := 16

def CHUNK_MASK : Int := 15

def CHUNK_VOXELS : Nat := 4096

/-! ## Coordinate mapping (engine.cpp lines 15-75) -/

/-- `ChunkBounds`: inclusive chunk-coordinate bounds per axis. -/
structure ChunkBounds where
  xmin : Int
  xmax : Int
  ymin : Int
  ymax : Int
  zmin : Int
  zmax : Int
deriving DecidableEq

/-- `chunkCoordinateToIndex` (engine.cpp 25-39): row-major flat index over the
x,y,z spans, valid only inside the bounds.  The C function returns a `bool`
plus an out-parameter; we return `Option Nat`. -/
def chunkCoordinateToIndex (x y z : Int) (bounds : ChunkBounds) : Option Nat :=
  if x < bounds.xmin ∨ x > bounds.xmax ∨ y < bounds.ymin ∨ y > bounds.ymax ∨
      z < bounds.zmin ∨ z > bounds.zmax then
    none
  else
    let ys : Nat := (bounds.ymax - bounds.ymin + 1).toNat
    let zs : Nat := (bounds.zmax - bounds.zmin + 1).toNat
    let ox : Nat := (x - bounds.xmin).toNat
    let oy : Nat := (y - bounds.ymin).toNat
    let oz : Nat := (z - bounds.zmin).toNat
    some ((ox * ys + oy) * zs + oz)

/-- `chunkIndexToCoordinate` (engine.cpp 41-54): inverse of the flat index,
used once at world initialization to label chunks. -/
def chunkIndexToCoordinate (index : Nat) (bounds : ChunkBounds) : Int × Int × Int :=
  let ys : Nat := (bounds.ymax - bounds.ymin + 1).toNat
  let zs : Nat := (bounds.zmax - bounds.zmin + 1).toNat
  let plane : Nat := ys * zs
  let ox : Nat := index / plane
  let rem : Nat := index % plane
  let oy : Nat := rem / zs
  let oz : Nat := rem % zs
  ((ox : Int) + bounds.xmin, (oy : Int) + bounds.ymin, (oz : Int) + bounds.zmin)

/-- `worldPositionToChunkCoordinates` (engine.cpp 56-61): `wx >> CHUNK_BITS`,
an arithmetic shift, i.e. floor division by 16. -/
def worldPositionToChunkCoordinates (wx wy wz : Int) : Int × Int × Int :=
  (Int.fdiv wx 16, Int.fdiv wy 16, Int.fdiv wz 16)

/-- `worldPositionToChunkPosition` (engine.cpp 63-68): `wx & CHUNK_MASK`; on
two's-complement integers this is the nonnegative remainder mod 16. -/
def worldPositionToChunkPosition (wx wy wz : Int) : Int × Int × Int :=
  (wx % 16, wy % 16, wz % 16)

/-- `getVoxelIndex` (engine.cpp 70-75): flat index into a chunk's 16³ voxel
array; the local coordinates are always in `[0,16)` at call sites. -/
def getVoxelIndex (lx ly lz : Int) : Nat :=
  lx.toNat + lz.toNat * 16 + ly.toNat * 256

/-! ## VoxelChunk / Voxels world (engine.cpp lines 77-155) -/

/-- `VoxelChunk` (engine.cpp 77-87).  The C chunk owns `uint8_t value[4096]`
and a flat `uint8_t color[4096*3]` (r,g,b per voxel); we model the arrays as
total functions from the flat voxel index,with the color triple gathered per
voxel. -/
structure VoxelChunk where
  id : Nat
  x : Int
  y : Int
  z : Int
  value : Nat → Nat
  color : Nat → Nat × Nat × Nat
  sum : Int
  dirtyMesh : Bool

/-- `Voxels` (engine.cpp 89-93): bounds plus the dense chunk array.  The C
array holds exactly `totalChunks` entries and is only ever indexed through
`chunkCoordinateToIndex`, which yields indices below `totalChunks`; the model
makes the array a total function. -/
structure Voxels where
  bounds : ChunkBounds
  chunks : Nat → VoxelChunk

/-- Number of chunks allocated by `initVoxels` (engine.cpp 103-106). -/
def totalChunks (bounds : ChunkBounds) : Nat :=
  (bounds.xmax - bounds.xmin + 1).toNat * (bounds.ymax - bounds.ymin + 1).toNat *
    (bounds.zmax - bounds.zmin + 1).toNat

/-- `initVoxels` (engine.cpp 95-130): allocates a zero-filled chunk for every
index, labelling it with `chunkIndexToCoordinate`. -/
def initVoxels (chunkXMin chunkXMax chunkYMin chunkYMax chunkZMin chunkZMax : Int) : Voxels :=
  let bounds : ChunkBounds :=
    ⟨chunkXMin, chunkXMax, chunkYMin, chunkYMax, chunkZMin, chunkZMax⟩
  { bounds := bounds
    chunks := fun i =>
      let c := chunkIndexToCoordinate i bounds
      { id := i, x := c.1, y := c.2.1, z := c.2.2
        value := fun _ => 0
        color := fun _ => (0, 0, 0)
        sum := 0
        dirtyMesh := false } }

/-- `markChunkDirty` (engine.cpp 148-155): sets `dirtyMesh` of the chunk at
the given chunk coordinate, when it is inside the bounds. -/
def markChunkDirty (world : Voxels) (cx cy cz : Int) : Voxels :=
  match chunkCoordinateToIndex cx cy cz world.bounds with
  | none => world
  | some chunkIndex =>
    { world with
      chunks := fun j =>
        if j = chunkIndex then
          { world.chunks chunkIndex with dirtyMesh := true }
        else world.chunks j }

/-- One conditional neighbor-marking step of `setVoxel`.  The C function is a
linear sequence of `if (cond) markChunkDirty(...)` statements (its two
`if/else if` face pairs have mutually exclusive conditions, so they are the
same as two consecutive conditional marks); each step of that sequence is one
application of this helper. -/
def markChunkDirtyIf (cond : Prop) [Decidable cond] (world : Voxels) (cx cy cz : Int) :
    Voxels :=
  if cond then markChunkDirty world cx cy cz else world

/-- `setVoxel` (engine.cpp 157-307): writes density and color at the local
offset, adjusts `sum` by the signed delta, marks the chunk dirty, and marks
every face/edge/corner neighbor chunk adjacent to a boundary the voxel lies
on.  A no-op if the owning chunk is outside the bounds. -/
def setVoxel (world : Voxels) (wx wy wz : Int) (value r g b : Nat) : Voxels :=
  let c := worldPositionToChunkCoordinates wx wy wz
  let cx := c.1
  let cy := c.2.1
  let cz := c.2.2
  let l := worldPositionToChunkPosition wx wy wz
  let lx := l.1
  let ly := l.2.1
  let lz := l.2.2
  match chunkCoordinateToIndex cx cy cz world.bounds with
  | none => world
  | some chunkIndex =>
    let chunk := world.chunks chunkIndex
    let voxelIndex := getVoxelIndex lx ly lz
    let prevValue := chunk.value voxelIndex
    let chunk1 : VoxelChunk :=
      { chunk with
        value := fun j => if j = voxelIndex then value else chunk.value j
        color := fun j => if j = voxelIndex then (r, g, b) else chunk.color j
        sum := chunk.sum + (value : Int) - (prevValue : Int)
        dirtyMesh := true }
    let w0 : Voxels :=
      { world with chunks := fun j => if j = chunkIndex then chunk1 else world.chunks j }
    -- X boundaries
    let w1 := markChunkDirtyIf (lx = 0) w0 (cx - 1) cy cz
    let w2 := markChunkDirtyIf (lx = 15) w1 (cx + 1) cy cz
    -- Y boundaries
    let w3 := markChunkDirtyIf (ly = 0) w2 cx (cy - 1) cz
    let w4 := markChunkDirtyIf (ly = 15) w3 cx (cy + 1) cz
    -- Z boundaries
    let w5 := markChunkDirtyIf (lz = 0) w4 cx cy (cz - 1)
    let w6 := markChunkDirtyIf (lz = 15) w5 cx cy (cz + 1)
    -- XY edges
    let w7 := markChunkDirtyIf (lx = 0 ∧ ly = 0) w6 (cx - 1) (cy - 1) cz
    let w8 := markChunkDirtyIf (lx = 0 ∧ ly = 15) w7 (cx - 1) (cy + 1) cz
    let w9 := markChunkDirtyIf (lx = 15 ∧ ly = 0) w8 (cx + 1) (cy - 1) cz
    let w10 := markChunkDirtyIf (lx = 15 ∧ ly = 15) w9 (cx + 1) (cy + 1) cz
    -- XZ edges
    let w11 := markChunkDirtyIf (lx = 0 ∧ lz = 0) w10 (cx - 1) cy (cz - 1)
    let w12 := markChunkDirtyIf (lx = 0 ∧ lz = 15) w11 (cx - 1) cy (cz + 1)
    let w13 := markChunkDirtyIf (lx = 15 ∧ lz = 0) w12 (cx + 1) cy (cz - 1)
    let w14 := markChunkDirtyIf (lx = 15 ∧ lz = 15) w13 (cx + 1) cy (cz + 1)
    -- YZ edges
    let w15 := markChunkDirtyIf (ly = 0 ∧ lz = 0) w14 cx (cy - 1) (cz - 1)
    let w16 := markChunkDirtyIf (ly = 0 ∧ lz = 15) w15 cx (cy - 1) (cz + 1)
    let w17 := markChunkDirtyIf (ly = 15 ∧ lz = 0) w16 cx (cy + 1) (cz - 1)
    let w18 := markChunkDirtyIf (ly = 15 ∧ lz = 15) w17 cx (cy + 1) (cz + 1)
    -- corners
    let w19 := markChunkDirtyIf (lx = 0 ∧ ly = 0 ∧ lz = 0) w18 (cx - 1) (cy - 1) (cz - 1)
    let w20 := markChunkDirtyIf (lx = 0 ∧ ly = 0 ∧ lz = 15) w19 (cx - 1) (cy - 1) (cz + 1)
    let w21 := markChunkDirtyIf (lx = 0 ∧ ly = 15 ∧ lz = 0) w20 (cx - 1) (cy + 1) (cz - 1)
    let w22 := markChunkDirtyIf (lx = 0 ∧ ly = 15 ∧ lz = 15) w21 (cx - 1) (cy + 1) (cz + 1)
    let w23 := markChunkDirtyIf (lx = 15 ∧ ly = 0 ∧ lz = 0) w22 (cx + 1) (cy - 1) (cz - 1)
    let w24 := markChunkDirtyIf (lx = 15 ∧ ly = 0 ∧ lz = 15) w23 (cx + 1) (cy - 1) (cz + 1)
    let w25 := markChunkDirtyIf (lx = 15 ∧ ly = 15 ∧ lz = 0) w24 (cx + 1) (cy + 1) (cz - 1)
    markChunkDirtyIf (lx = 15 ∧ ly = 15 ∧ lz = 15) w25 (cx + 1) (cy + 1) (cz + 1)

/-- `getVoxel` (engine.cpp 309-333): returns `(density, (r,g,b))`, or the
default zero sample when the owning chunk is outside the bounds. -/
def getVoxel (voxels : Voxels) (x y z : Int) : Nat × (Nat × Nat × Nat) :=
  let c := worldPositionToChunkCoordinates x y z
  let l := worldPositionToChunkPosition x y z
  match chunkCoordinateToIndex c.1 c.2.1 c.2.2 voxels.bounds with
  | none => (0, (0, 0, 0))
  | some chunkIndex =>
    let chunk := voxels.chunks chunkIndex
    let voxelIndex := getVoxelIndex l.1 l.2.1 l.2.2
    (chunk.value voxelIndex, chunk.color voxelIndex)

/-- `getVoxelRelative` (engine.cpp 335-357): in-range local read from the
chunk, otherwise converts to world coordinates and delegates to `getVoxel`
(`chunk->x << CHUNK_BITS` is multiplication by 16). -/
def getVoxelRelative (voxels : Voxels) (chunk : VoxelChunk) (lx ly lz : Int) :
    Nat × (Nat × Nat × Nat) :=
  if 0 ≤ lx ∧ lx < 16 ∧ 0 ≤ ly ∧ ly < 16 ∧ 0 ≤ lz ∧ lz < 16 then
    (chunk.value (getVoxelIndex lx ly lz), chunk.color (getVoxelIndex lx ly lz))
  else
    getVoxel voxels (chunk.x * 16 + lx) (chunk.y * 16 + ly) (chunk.z * 16 + lz)

/-- `getChunkAt` (engine.cpp 359-367). -/
def getChunkAt (world : Voxels) (cx cy cz : Int) : Option VoxelChunk :=
  (chunkCoordinateToIndex cx cy cz world.bounds).map world.chunks

/-- `getChunkAtPos` (engine.cpp 369-374). -/
def getChunkAtPos (world : Voxels) (wx wy wz : Int) : Option VoxelChunk :=
  let c := worldPositionToChunkCoordinates wx wy wz
  getChunkAt world c.1 c.2.1 c.2.2

/-- `recomputeChunkSum` (engine.cpp 387-396): the value it computes (the C
function also stores it into `chunk->sum`; `generateChunk` below does that
store). -/
def recomputeChunkSum (chunk : VoxelChunk) : Int :=
  ∑ i ∈ Finset.range CHUNK_VOXELS, (chunk.value i : Int)

/-- `isChunkDirty` (engine.cpp 1036-1039). -/
def isChunkDirty (chunk : VoxelChunk) : Bool :=
  chunk.dirtyMesh

/-- `setChunkDirty` (engine.cpp 1041-1044). -/
def setChunkDirty (chunk : VoxelChunk) (dirty : Bool) : VoxelChunk :=
  { chunk with dirtyMesh := dirty }

/-- `clearChunkDirty` (engine.cpp 1046-1049). -/
def clearChunkDirty (chunk : VoxelChunk) : VoxelChunk :=
  { chunk with dirtyMesh := false }

/-! ## Simplex noise and fbm (engine.cpp lines 1051-1188) -/

/-- The 512-entry permutation table of the simplex noise (`perm` in engine.cpp):
256 values repeated twice. -/
def permTable : List Nat := [
  151, 160, 137, 91, 90, 15, 131, 13, 201, 95, 96, 53, 194, 233, 7, 225, 140, 36, 103, 30, 69, 142,
  8, 99, 37, 240, 21, 10, 23, 190, 6, 148, 247, 120, 234, 75, 0, 26, 197, 62, 94, 252, 219, 203,
  117, 35, 11, 32, 57, 177, 33, 88, 237, 149, 56, 87, 174, 20, 125, 136, 171, 168, 68, 175, 74, 165,
  71, 134, 139, 48, 27, 166, 77, 146, 158, 231, 83, 111, 229, 122, 60, 211, 133, 230, 220, 105, 92, 41,
  55, 46, 245, 40, 244, 102, 143, 54, 65, 25, 63, 161, 1, 216, 80, 73, 209, 76, 132, 187, 208, 89,
  18, 169, 200, 196, 135, 130, 116, 188, 159, 86, 164, 100, 109, 198, 173, 186, 3, 64, 52, 217, 226, 250,
  124, 123, 5, 202, 38, 147, 118, 126, 255, 82, 85, 212, 207, 206, 59, 227, 47, 16, 58, 17, 182, 189,
  28, 42, 223, 183, 170, 213, 119, 248, 152, 2, 44, 154, 163, 70, 221, 153, 101, 155, 167, 43, 172, 9,
  129, 22, 39, 253, 19, 98, 108, 110, 79, 113, 224, 232, 178, 185, 112, 104, 218, 246, 97, 228, 251, 34,
  242, 193, 238, 210, 144, 12, 191, 179, 162, 241, 81, 51, 145, 235, 249, 14, 239, 107, 49, 192, 214, 31,
  181, 199, 106, 157, 184, 84, 204, 176, 115, 121, 50, 45, 127, 4, 150, 254, 138, 236, 205, 93, 222, 114,
  67, 29, 24, 72, 243, 141, 128, 195, 78, 66, 215, 61, 156, 180, 151, 160, 137, 91, 90, 15, 131, 13,
  201, 95, 96, 53, 194, 233, 7, 225, 140, 36, 103, 30, 69, 142, 8, 99, 37, 240, 21, 10, 23, 190,
  6, 148, 247, 120, 234, 75, 0, 26, 197, 62, 94, 252, 219, 203, 117, 35, 11, 32, 57, 177, 33, 88,
  237, 149, 56, 87, 174, 20, 125, 136, 171, 168, 68, 175, 74, 165, 71, 134, 139, 48, 27, 166, 77, 146,
  158, 231, 83, 111, 229, 122, 60, 211, 133, 230, 220, 105, 92, 41, 55, 46, 245, 40, 244, 102, 143, 54,
  65, 25, 63, 161, 1, 216, 80, 73, 209, 76, 132, 187, 208, 89, 18, 169, 200, 196, 135, 130, 116, 188,
  159, 86, 164, 100, 109, 198, 173, 186, 3, 64, 52, 217, 226, 250, 124, 123, 5, 202, 38, 147, 118, 126,
  255, 82, 85, 212, 207, 206, 59, 227, 47, 16, 58, 17, 182, 189, 28, 42, 223, 183, 170, 213, 119, 248,
  152, 2, 44, 154, 163, 70, 221, 153, 101, 155, 167, 43, 172, 9, 129, 22, 39, 253, 19, 98, 108, 110,
  79, 113, 224, 232, 178, 185, 112, 104, 218, 246, 97, 228, 251, 34, 242, 193, 238, 210, 144, 12, 191, 179,
  162, 241, 81, 51, 145, 235, 249, 14, 239, 107, 49, 192, 214, 31, 181, 199, 106, 157, 184, 84, 204, 176,
  115, 121, 50, 45, 127, 4, 150, 254, 138, 236, 205, 93, 222, 114, 67, 29, 24, 72, 243, 141, 128, 195,
  78, 66, 215, 61, 156, 180]

/-- `perm[i]` table lookup (indices used by the noise stay below 512). -/
def perm (i : Nat) : Nat :=
  permTable.getD i 0

/-- The fixed 12-direction gradient set `grad3` (engine.cpp 1080-1084). -/
def grad3Table : List (ℚ × ℚ × ℚ) :=
  [(1, 1, 0), (-1, 1, 0), (1, -1, 0), (-1, -1, 0),
   (1, 0, 1), (-1, 0, 1), (1, 0, -1), (-1, 0, -1),
   (0, 1, 1), (0, -1, 1), (0, 1, -1), (0, -1, -1)]

/-- `grad3[i]` lookup (the index is always a value mod 12). -/
def grad3 (i : Nat) : ℚ × ℚ × ℚ :=
  grad3Table.getD i (0, 0, 0)

/-- `dot3` (engine.cpp 1086-1088). -/
def dot3 (g : ℚ × ℚ × ℚ) (x y z : ℚ) : ℚ :=
  g.1 * x + g.2.1 * y + g.2.2 * z

/-- `simplexNoise3D` (engine.cpp 1090-1172): Gustavson 3D simplex noise; the
seed is applied as a fixed per-axis coordinate offset. -/
def simplexNoise3D (xIn yIn zIn : ℚ) (seed : Int) : ℚ :=
  let x := xIn + (seed : ℚ) * (123 / 1000)
  let y := yIn + (seed : ℚ) * (456 / 1000)
  let z := zIn + (seed : ℚ) * (789 / 1000)
  let F3 : ℚ := 1 / 3
  let G3 : ℚ := 1 / 6
  let s := (x + y + z) * F3
  let i : Int := ⌊x + s⌋
  let j : Int := ⌊y + s⌋
  let k : Int := ⌊z + s⌋
  let t := ((i + j + k : Int) : ℚ) * G3
  let X0 := (i : ℚ) - t
  let Y0 := (j : ℚ) - t
  let Z0 := (k : ℚ) - t
  let x0 := x - X0
  let y0 := y - Y0
  let z0 := z - Z0
  let o : Nat × Nat × Nat × Nat × Nat × Nat :=
    if x0 ≥ y0 then
      if y0 ≥ z0 then (1, 0, 0, 1, 1, 0)
      else if x0 ≥ z0 then (1, 0, 0, 1, 0, 1)
      else (0, 0, 1, 1, 0, 1)
    else
      if y0 < z0 then (0, 0, 1, 0, 1, 1)
      else if x0 < z0 then (0, 1, 0, 0, 1, 1)
      else (0, 1, 0, 1, 1, 0)
  let i1 := o.1
  let j1 := o.2.1
  let k1 := o.2.2.1
  let i2 := o.2.2.2.1
  let j2 := o.2.2.2.2.1
  let k2 := o.2.2.2.2.2
  let x1 := x0 - (i1 : ℚ) + G3
  let y1 := y0 - (j1 : ℚ) + G3
  let z1 := z0 - (k1 : ℚ) + G3
  let x2 := x0 - (i2 : ℚ) + 2 * G3
  let y2 := y0 - (j2 : ℚ) + 2 * G3
  let z2 := z0 - (k2 : ℚ) + 2 * G3
  let x3 := x0 - 1 + 3 * G3
  let y3 := y0 - 1 + 3 * G3
  let z3 := z0 - 1 + 3 * G3
  let ii : Nat := (Int.emod i 256).toNat
  let jj : Nat := (Int.emod j 256).toNat
  let kk : Nat := (Int.emod k 256).toNat
  let gi0 := perm (ii + perm (jj + perm kk)) % 12
  let gi1 := perm (ii + i1 + perm (jj + j1 + perm (kk + k1))) % 12
  let gi2 := perm (ii + i2 + perm (jj + j2 + perm (kk + k2))) % 12
  let gi3 := perm (ii + 1 + perm (jj + 1 + perm (kk + 1))) % 12
  let t0 := 3 / 5 - x0 * x0 - y0 * y0 - z0 * z0
  let n0 := if t0 < 0 then 0 else (t0 * t0) * (t0 * t0) * dot3 (grad3 gi0) x0 y0 z0
  let t1 := 3 / 5 - x1 * x1 - y1 * y1 - z1 * z1
  let n1 := if t1 < 0 then 0 else (t1 * t1) * (t1 * t1) * dot3 (grad3 gi1) x1 y1 z1
  let t2 := 3 / 5 - x2 * x2 - y2 * y2 - z2 * z2
  let n2 := if t2 < 0 then 0 else (t2 * t2) * (t2 * t2) * dot3 (grad3 gi2) x2 y2 z2
  let t3 := 3 / 5 - x3 * x3 - y3 * y3 - z3 * z3
  let n3 := if t3 < 0 then 0 else (t3 * t3) * (t3 * t3) * dot3 (grad3 gi3) x3 y3 z3
  32 * (n0 + n1 + n2 + n3)

/-- The octave loop of `fbm3` (engine.cpp 1180-1185), threading the octave
counter `i`, `amplitude`, `frequency`, and the `sum`/`maxValue` accumulators;
returns the final `(sum, maxValue)`. -/
def fbm3Aux (x y z : ℚ) (seed : Int) (lacunarity gain : ℚ) :
    Nat → Nat → ℚ → ℚ → ℚ → ℚ → ℚ × ℚ
  | 0, _, _, _, s, m => (s, m)
  | Nat.succ n, i, amplitude, frequency, s, m =>
    fbm3Aux x y z seed lacunarity gain n (i + 1) (amplitude * gain)
      (frequency * lacunarity)
      (s + amplitude * simplexNoise3D (x * frequency) (y * frequency) (z * frequency)
        (seed + (i : Int)))
      (m + amplitude)

/-- `fbm3` (engine.cpp 1174-1188): octave sum normalized by total
amplitude. -/
def fbm3 (x y z : ℚ) (seed : Int) (octaves : Nat) (lacunarity gain : ℚ) : ℚ :=
  let p := fbm3Aux x y z seed lacunarity gain octaves 0 1 1 0 0
  p.1 / p.2

/-! ## Chunk generation (engine.cpp lines 1190-1250) -/

/-- The smoothstep-thresholded fbm solidity of `generateChunk` at one world
voxel coordinate (engine.cpp 1193-1209): fbm at spatial frequency
`isoScale = 0.0125`, then `t = clamp((n - (threshold - 0.2)) / 0.4, 0, 1)`
and `solidity = t²(3 - 2t)` with `threshold = 0.05`. -/
def generateSolidity (wx wy wz : Int) (seed : Int) : ℚ :=
  let isoScale : ℚ := 1 / 80
  let threshold : ℚ := 1 / 20
  let n := fbm3 ((wx : ℚ) * isoScale) ((wy : ℚ) * isoScale) ((wz : ℚ) * isoScale) seed 5 2
    (1 / 2)
  let t0 := (n - (threshold - 1 / 5)) / (2 / 5)
  let t := max 0 (min 1 t0)
  t * t * (3 - 2 * t)

/-- The HSV-derived color of `generateChunk` at one world voxel coordinate
(engine.cpp 1212-1230): hue from a second fbm channel (seed offset 1000,
frequency 0.004), saturation 0.8, value 1.0, converted to RGB.  The C `switch
(ih % 6)` uses truncating `%`, which is negative for negative `ih`; then no
case matches and r,g,b keep their initial 1.0. -/
def generateColorRGB (wx wy wz : Int) (seed : Int) : ℚ × ℚ × ℚ :=
  let h := (fbm3 ((wz : ℚ) * (1 / 250)) ((wx : ℚ) * (1 / 250)) ((wy : ℚ) * (1 / 250))
    (seed + 1000) 3 2 (3 / 5) + 1) * (1 / 2)
  let sCol : ℚ := 4 / 5
  let vCol : ℚ := 1
  let ih : Int := ⌊h * 6⌋
  let fh := h * 6 - (ih : ℚ)
  let p := vCol * (1 - sCol)
  let q := vCol * (1 - fh * sCol)
  let t := vCol * (1 - (1 - fh) * sCol)
  let m := Int.tmod ih 6
  if m = 0 then (vCol, t, p)
  else if m = 1 then (q, vCol, p)
  else if m = 2 then (p, vCol, t)
  else if m = 3 then (p, q, vCol)
  else if m = 4 then (t, p, vCol)
  else if m = 5 then (vCol, p, q)
  else (1, 1, 1)

/-- `generateChunk` (engine.cpp 1190-1250) as a function on the chunk.  The C
loop visits each local voxel once and writes index `lx + lz*16 + ly*256`
exactly when `solidity > 0.01`, leaving the previous contents otherwise; the
functional form decodes `(lx, ly, lz)` back from the flat index.  The cast
`(uint8_t)(f)` of the nonnegative sub-256 results is truncation, i.e. the
floor.  Finally the C code calls `recomputeChunkSum`, storing the recomputed
sum; `id`, the coordinate label, and `dirtyMesh` are untouched. -/
def generateChunk (chunk : VoxelChunk) (cx cy cz : Int) (seed : Int) : VoxelChunk :=
  let newValue : Nat → Nat := fun idx =>
    if idx < CHUNK_VOXELS then
      let lx : Int := (idx % 16 : Nat)
      let lz : Int := (idx / 16 % 16 : Nat)
      let ly : Int := (idx / 256 : Nat)
      let wx := cx * 16 + lx
      let wy := cy * 16 + ly
      let wz := cz * 16 + lz
      let solidity := generateSolidity wx wy wz seed
      if solidity > 1 / 100 then (⌊solidity * 255⌋).toNat
      else chunk.value idx
    else chunk.value idx
  let newColor : Nat → Nat × Nat × Nat := fun idx =>
    if idx < CHUNK_VOXELS then
      let lx : Int := (idx % 16 : Nat)
      let lz : Int := (idx / 16 % 16 : Nat)
      let ly : Int := (idx / 256 : Nat)
      let wx := cx * 16 + lx
      let wy := cy * 16 + ly
      let wz := cz * 16 + lz
      let solidity := generateSolidity wx wy wz seed
      if solidity > 1 / 100 then
        let rgb := generateColorRGB wx wy wz seed
        ((⌊rgb.1 * solidity * 255⌋).toNat, (⌊rgb.2.1 * solidity * 255⌋).toNat,
          (⌊rgb.2.2 * solidity * 255⌋).toNat)
      else chunk.color idx
    else chunk.color idx
  let chunk1 : VoxelChunk := { chunk with value := newValue, color := newColor }
  { chunk1 with sum := recomputeChunkSum chunk1 }

/-! ## Raycasting (engine.cpp lines 761-1033)

The C loop `while (distance < maxDistance)` is embedded with an explicit
fuel parameter: `none` means the fuel ran out before the loop finished,
`some result` is the result the C function returns.  IEEE `+inf` (produced
by the positive-over-zero divisions when a direction component is 0) and
`std::numeric_limits<float>::max()` both act as the same "beyond every
distance" sentinel in this algorithm; the embedding uses the single sentinel
`FLOAT_MAX` (2^128, the magnitude of the float maximum) for both. -/

/-- Sentinel for `std::numeric_limits<float>::max()` and `+inf`. -/
def FLOAT_MAX : ℚ := 2 ^ 128

def ISOLEVEL : Nat := 128

/-- `RaycastResult` (engine.cpp 762-779). -/
structure RaycastResult where
  hit : Bool
  positionX : ℚ
  positionY : ℚ
  positionZ : ℚ
  normalX : ℚ
  normalY : ℚ
  normalZ : ℚ
  value : Nat
  r : Nat
  g : Nat
  b : Nat
  distance : ℚ
  voxelX : Int
  voxelY : Int
  voxelZ : Int
deriving DecidableEq

/-- The result of the no-hit exits: the C function writes only `out->hit =
false` there; the remaining fields of this record stand for the unspecified
leftover contents of the caller's struct, fixed to zeros. -/
def missResult : RaycastResult :=
  { hit := false, positionX := 0, positionY := 0, positionZ := 0,
    normalX := 0, normalY := 0, normalZ := 0, value := 0, r := 0, g := 0, b := 0,
    distance := 0, voxelX := 0, voxelY := 0, voxelZ := 0 }

/-- The DDA loop of `raycastVoxels` (engine.cpp 848-1030).  Arguments after
the fuel: current voxel `x y z`, `tMaxX tMaxY tMaxZ`, the candidate hit
normal, and `distance`. -/
def raycastLoop (voxels : Voxels) (tOriginX tOriginY tOriginZ dirX dirY dirZ : ℚ)
    (maxDistance : ℚ) (stepX stepY stepZ : Int) (tDeltaX tDeltaY tDeltaZ : ℚ) :
    Nat → Int → Int → Int → ℚ → ℚ → ℚ → ℚ → ℚ → ℚ → ℚ → Option RaycastResult
  | 0, _, _, _, _, _, _, _, _, _, _ => none
  | Nat.succ fuel, x, y, z, tMaxX, tMaxY, tMaxZ, hitNormalX, hitNormalY, hitNormalZ,
      distance =>
    if ¬ distance < maxDistance then some missResult
    else
      let c := worldPositionToChunkCoordinates x y z
      let cx := c.1
      let cy := c.2.1
      let cz := c.2.2
      let emptyOrAbsent : Bool :=
        match chunkCoordinateToIndex cx cy cz voxels.bounds with
        | none => true
        | some chunkIndex => (voxels.chunks chunkIndex).sum == 0
      if emptyOrAbsent then
        -- skip to the chunk exit boundary
        let chunkMinX : Int := cx * 16
        let chunkMinY : Int := cy * 16
        let chunkMinZ : Int := cz * 16
        let chunkMaxX : Int := chunkMinX + 16
        let chunkMaxY : Int := chunkMinY + 16
        let chunkMaxZ : Int := chunkMinZ + 16
        let tExitX : ℚ :=
          if dirX > 0 then
            (if ((chunkMaxX : ℚ) - tOriginX) / dirX > distance then
              ((chunkMaxX : ℚ) - tOriginX) / dirX else FLOAT_MAX)
          else if dirX < 0 then
            (if ((chunkMinX : ℚ) - tOriginX) / dirX > distance then
              ((chunkMinX : ℚ) - tOriginX) / dirX else FLOAT_MAX)
          else FLOAT_MAX
        let tExitY : ℚ :=
          if dirY > 0 then
            (if ((chunkMaxY : ℚ) - tOriginY) / dirY > distance then
              ((chunkMaxY : ℚ) - tOriginY) / dirY else FLOAT_MAX)
          else if dirY < 0 then
            (if ((chunkMinY : ℚ) - tOriginY) / dirY > distance then
              ((chunkMinY : ℚ) - tOriginY) / dirY else FLOAT_MAX)
          else FLOAT_MAX
        let tExitZ : ℚ :=
          if dirZ > 0 then
            (if ((chunkMaxZ : ℚ) - tOriginZ) / dirZ > distance then
              ((chunkMaxZ : ℚ) - tOriginZ) / dirZ else FLOAT_MAX)
          else if dirZ < 0 then
            (if ((chunkMinZ : ℚ) - tOriginZ) / dirZ > distance then
              ((chunkMinZ : ℚ) - tOriginZ) / dirZ else FLOAT_MAX)
          else FLOAT_MAX
        let tExit := min (min tExitX tExitY) tExitZ
        if tExit ≥ maxDistance ∨ tExit = FLOAT_MAX then some missResult
        else
          let epsilon : ℚ := 1 / 10000
          let exitX := tOriginX + dirX * (tExit + epsilon)
          let exitY := tOriginY + dirY * (tExit + epsilon)
          let exitZ := tOriginZ + dirZ * (tExit + epsilon)
          let x1 : Int := ⌊exitX⌋
          let y1 : Int := ⌊exitY⌋
          let z1 : Int := ⌊exitZ⌋
          let tMaxX1 :=
            if dirX ≠ 0 then
              (if dirX ≥ 0 then ((x1 : ℚ) + 1 - tOriginX) / dirX
               else (tOriginX - (x1 : ℚ)) / -dirX)
            else tMaxX
          let tMaxY1 :=
            if dirY ≠ 0 then
              (if dirY ≥ 0 then ((y1 : ℚ) + 1 - tOriginY) / dirY
               else (tOriginY - (y1 : ℚ)) / -dirY)
            else tMaxY
          let tMaxZ1 :=
            if dirZ ≠ 0 then
              (if dirZ ≥ 0 then ((z1 : ℚ) + 1 - tOriginZ) / dirZ
               else (tOriginZ - (z1 : ℚ)) / -dirZ)
            else tMaxZ
          let n1 : ℚ × ℚ × ℚ :=
            if tExit = tExitX then (-(stepX : ℚ), 0, 0)
            else if tExit = tExitY then (0, -(stepY : ℚ), 0)
            else (0, 0, -(stepZ : ℚ))
          raycastLoop voxels tOriginX tOriginY tOriginZ dirX dirY dirZ maxDistance
            stepX stepY stepZ tDeltaX tDeltaY tDeltaZ fuel x1 y1 z1 tMaxX1 tMaxY1 tMaxZ1
            n1.1 n1.2.1 n1.2.2 tExit
      else
        let v := getVoxel voxels x y z
        if ISOLEVEL ≤ v.1 then
          some { hit := true
                 positionX := tOriginX + dirX * distance - 1 / 2
                 positionY := tOriginY + dirY * distance - 1 / 2
                 positionZ := tOriginZ + dirZ * distance - 1 / 2
                 normalX := hitNormalX, normalY := hitNormalY, normalZ := hitNormalZ
                 value := v.1, r := v.2.1, g := v.2.2.1, b := v.2.2.2
                 distance := distance, voxelX := x, voxelY := y, voxelZ := z }
        else
          if tMaxX < tMaxY ∧ tMaxX < tMaxZ then
            raycastLoop voxels tOriginX tOriginY tOriginZ dirX dirY dirZ maxDistance
              stepX stepY stepZ tDeltaX tDeltaY tDeltaZ fuel (x + stepX) y z
              (tMaxX + tDeltaX) tMaxY tMaxZ (-(stepX : ℚ)) 0 0 tMaxX
          else if tMaxY < tMaxZ then
            raycastLoop voxels tOriginX tOriginY tOriginZ dirX dirY dirZ maxDistance
              stepX stepY stepZ tDeltaX tDeltaY tDeltaZ fuel x (y + stepY) z
              tMaxX (tMaxY + tDeltaY) tMaxZ 0 (-(stepY : ℚ)) 0 tMaxY
          else
            raycastLoop voxels tOriginX tOriginY tOriginZ dirX dirY dirZ maxDistance
              stepX stepY stepZ tDeltaX tDeltaY tDeltaZ fuel x y (z + stepZ)
              tMaxX tMaxY (tMaxZ + tDeltaZ) 0 0 (-(stepZ : ℚ)) tMaxZ

/-- `raycastVoxels` (engine.cpp 785-1033): the initialization (0.5-shifted
coordinate space, per-axis step signs, `tDelta`, initial `tMax`) followed by
the DDA loop.  A zero direction component makes the C initial `tMax` a
positive value divided by zero, i.e. `+inf`, and `tDelta` is set to the float
maximum; both are the `FLOAT_MAX` sentinel here. -/
def raycastVoxels (fuel : Nat) (voxels : Voxels)
    (originX originY originZ dirX dirY dirZ maxDistance : ℚ) : Option RaycastResult :=
  let tOriginX := originX + 1 / 2
  let tOriginY := originY + 1 / 2
  let tOriginZ := originZ + 1 / 2
  let x : Int := ⌊tOriginX⌋
  let y : Int := ⌊tOriginY⌋
  let z : Int := ⌊tOriginZ⌋
  let stepX : Int := if dirX ≥ 0 then 1 else -1
  let stepY : Int := if dirY ≥ 0 then 1 else -1
  let stepZ : Int := if dirZ ≥ 0 then 1 else -1
  let tDeltaX : ℚ := if dirX ≠ 0 then |1 / dirX| else FLOAT_MAX
  let tDeltaY : ℚ := if dirY ≠ 0 then |1 / dirY| else FLOAT_MAX
  let tDeltaZ : ℚ := if dirZ ≠ 0 then |1 / dirZ| else FLOAT_MAX
  let tMaxX : ℚ :=
    if dirX = 0 then FLOAT_MAX
    else if dirX ≥ 0 then ((⌊tOriginX⌋ : ℚ) + 1 - tOriginX) / dirX
    else (tOriginX - (⌊tOriginX⌋ : ℚ)) / -dirX
  let tMaxY : ℚ :=
    if dirY = 0 then FLOAT_MAX
    else if dirY ≥ 0 then ((⌊tOriginY⌋ : ℚ) + 1 - tOriginY) / dirY
    else (tOriginY - (⌊tOriginY⌋ : ℚ)) / -dirY
  let tMaxZ : ℚ :=
    if dirZ = 0 then FLOAT_MAX
    else if dirZ ≥ 0 then ((⌊tOriginZ⌋ : ℚ) + 1 - tOriginZ) / dirZ
    else (tOriginZ - (⌊tOriginZ⌋ : ℚ)) / -dirZ
  raycastLoop voxels tOriginX tOriginY tOriginZ dirX dirY dirZ maxDistance
    stepX stepY stepZ tDeltaX tDeltaY tDeltaZ fuel x y z tMaxX tMaxY tMaxZ 0 0 0 0

/-- Modelled from the spec: the naive per-voxel DDA comparator of the
empty-chunk-skip correctness property ("a naive per-voxel DDA traversal that
tests every voxel").  Identical to `raycastLoop` with the empty/absent-chunk
fast path removed: every voxel along the ray is tested. -/
def naiveRaycastLoop (voxels : Voxels) (tOriginX tOriginY tOriginZ dirX dirY dirZ : ℚ)
    (maxDistance : ℚ) (stepX stepY stepZ : Int) (tDeltaX tDeltaY tDeltaZ : ℚ) :
    Nat → Int → Int → Int → ℚ → ℚ → ℚ → ℚ → ℚ → ℚ → ℚ → Option RaycastResult
  | 0, _, _, _, _, _, _, _, _, _, _ => none
  | Nat.succ fuel, x, y, z, tMaxX, tMaxY, tMaxZ, hitNormalX, hitNormalY, hitNormalZ,
      distance =>
    if ¬ distance < maxDistance then some missResult
    else
      let v := getVoxel voxels x y z
      if ISOLEVEL ≤ v.1 then
        some { hit := true
               positionX := tOriginX + dirX * distance - 1 / 2
               positionY := tOriginY + dirY * distance - 1 / 2
               positionZ := tOriginZ + dirZ * distance - 1 / 2
               normalX := hitNormalX, normalY := hitNormalY, normalZ := hitNormalZ
               value := v.1, r := v.2.1, g := v.2.2.1, b := v.2.2.2
               distance := distance, voxelX := x, voxelY := y, voxelZ := z }
      else
        if tMaxX < tMaxY ∧ tMaxX < tMaxZ then
          naiveRaycastLoop voxels tOriginX tOriginY tOriginZ dirX dirY dirZ maxDistance
            stepX stepY stepZ tDeltaX tDeltaY tDeltaZ fuel (x + stepX) y z
            (tMaxX + tDeltaX) tMaxY tMaxZ (-(stepX : ℚ)) 0 0 tMaxX
        else if tMaxY < tMaxZ then
          naiveRaycastLoop voxels tOriginX tOriginY tOriginZ dirX dirY dirZ maxDistance
            stepX stepY stepZ tDeltaX tDeltaY tDeltaZ fuel x (y + stepY) z
            tMaxX (tMaxY + tDeltaY) tMaxZ 0 (-(stepY : ℚ)) 0 tMaxY
        else
          naiveRaycastLoop voxels tOriginX tOriginY tOriginZ dirX dirY dirZ maxDistance
            stepX stepY stepZ tDeltaX tDeltaY tDeltaZ fuel x y (z + stepZ)
            tMaxX tMaxY (tMaxZ + tDeltaZ) 0 0 (-(stepZ : ℚ)) tMaxZ

/-- Modelled from the spec: the naive raycaster entry point, sharing the
initialization of `raycastVoxels`. -/
def naiveRaycastVoxels (fuel : Nat) (voxels : Voxels)
    (originX originY originZ dirX dirY dirZ maxDistance : ℚ) : Option RaycastResult :=
  let tOriginX := originX + 1 / 2
  let tOriginY := originY + 1 / 2
  let tOriginZ := originZ + 1 / 2
  let x : Int := ⌊tOriginX⌋
  let y : Int := ⌊tOriginY⌋
  let z : Int := ⌊tOriginZ⌋
  let stepX : Int := if dirX ≥ 0 then 1 else -1
  let stepY : Int := if dirY ≥ 0 then 1 else -1
  let stepZ : Int := if dirZ ≥ 0 then 1 else -1
  let tDeltaX : ℚ := if dirX ≠ 0 then |1 / dirX| else FLOAT_MAX
  let tDeltaY : ℚ := if dirY ≠ 0 then |1 / dirY| else FLOAT_MAX
  let tDeltaZ : ℚ := if dirZ ≠ 0 then |1 / dirZ| else FLOAT_MAX
  let tMaxX : ℚ :=
    if dirX = 0 then FLOAT_MAX
    else if dirX ≥ 0 then ((⌊tOriginX⌋ : ℚ) + 1 - tOriginX) / dirX
    else (tOriginX - (⌊tOriginX⌋ : ℚ)) / -dirX
  let tMaxY : ℚ :=
    if dirY = 0 then FLOAT_MAX
    else if dirY ≥ 0 then ((⌊tOriginY⌋ : ℚ) + 1 - tOriginY) / dirY
    else (tOriginY - (⌊tOriginY⌋ : ℚ)) / -dirY
  let tMaxZ : ℚ :=
    if dirZ = 0 then FLOAT_MAX
    else if dirZ ≥ 0 then ((⌊tOriginZ⌋ : ℚ) + 1 - tOriginZ) / dirZ
    else (tOriginZ - (⌊tOriginZ⌋ : ℚ)) / -dirZ
  naiveRaycastLoop voxels tOriginX tOriginY tOriginZ dirX dirY dirZ maxDistance
    stepX stepY stepZ tDeltaX tDeltaY tDeltaZ fuel x y z tMaxX tMaxY tMaxZ 0 0 0 0

/-! ## Marching-cubes mesher (engine.cpp lines 398-759) -/

/-- `Vec3` (engine.cpp 398-403), with `float` as `ℚ`. -/
structure Vec3 where
  x : ℚ
  y : ℚ
  z : ℚ
deriving DecidableEq

/-- `Sample` (engine.cpp 474-479): one cube-corner sample. -/
structure Sample where
  position : Vec3
  value : Nat
  r : Nat
  g : Nat
  b : Nat

/-- `EdgePoint` (engine.cpp 493-497): interpolated zero-crossing with
linear-space color. -/
structure EdgePoint where
  position : Vec3
  r : ℚ
  g : ℚ
  b : ℚ

/-- The interpolation parameter of `interpolate` (engine.cpp 514-525):
`0.5` for equal densities, otherwise `(ISOLEVEL - a) / (b - a)` clamped to
`[0, 1]` (the C code clamps below and then above; after the lower clamp the
upper clamp acts on an unchanged positive value, so two sequential clamps
equal the two-sided clamp written here). -/
def interpolateStep (a b : Sample) : ℚ :=
  if b.value = a.value then 1 / 2
  else
    let step := ((128 : ℚ) - (a.value : ℚ)) / ((b.value : ℚ) - (a.value : ℚ))
    let step1 := if step < 0 then 0 else step
    if step1 > 1 then 1 else step1

/-- `interpolate` (engine.cpp 514-549).  `lut` is the precomputed 256-entry
sRGB→linear table `srgbToLinearLUT` (engine.cpp 499-512), whose entries are
float `pow` results; it is passed as a parameter since no claim depends on
its values. -/
def interpolate (lut : Nat → ℚ) (a b : Sample) : EdgePoint :=
  let step := interpolateStep a b
  { position :=
      { x := a.position.x + step * (b.position.x - a.position.x)
        y := a.position.y + step * (b.position.y - a.position.y)
        z := a.position.z + step * (b.position.z - a.position.z) }
    r := lut a.r + step * (lut b.r - lut a.r)
    g := lut a.g + step * (lut b.g - lut a.g)
    b := lut a.b + step * (lut b.b - lut a.b) }

/-- `computeNormal` (engine.cpp 551-572): normalized cross product with the
fixed up-vector fallback for near-zero-area triangles.  `sqrtQ` stands for
`sqrtf`; `1 / sqrtQ lengthSq` is the `invLength` of the C code. -/
def computeNormal (sqrtQ : ℚ → ℚ) (a b c : Vec3) : Vec3 :=
  let cbx := c.x - b.x
  let cby := c.y - b.y
  let cbz := c.z - b.z
  let abx := a.x - b.x
  let aby := a.y - b.y
  let abz := a.z - b.z
  let nx := cby * abz - cbz * aby
  let ny := cbz * abx - cbx * abz
  let nz := cbx * aby - cby * abx
  let lengthSq := nx * nx + ny * ny + nz * nz
  if lengthSq < 1 / 100000000 then { x := 0, y := 1, z := 0 }
  else
    let invLength := 1 / sqrtQ lengthSq
    { x := nx * invLength, y := ny * invLength, z := nz * invLength }
/-- The 256-entry edge-activity bitmask table (`edgeTable` in engine.cpp). -/
def edgeTable : List Nat := [
  0, 265, 515, 778, 1030, 1295, 1541, 1804, 2060, 2309, 2575, 2822, 3082, 3331, 3593, 3840,
  400, 153, 915, 666, 1430, 1183, 1941, 1692, 2460, 2197, 2975, 2710, 3482, 3219, 3993, 3728,
  560, 825, 51, 314, 1590, 1855, 1077, 1340, 2620, 2869, 2111, 2358, 3642, 3891, 3129, 3376,
  928, 681, 419, 170, 1958, 1711, 1445, 1196, 2988, 2725, 2479, 2214, 4010, 3747, 3497, 3232,
  1120, 1385, 1635, 1898, 102, 367, 613, 876, 3180, 3429, 3695, 3942, 2154, 2403, 2665, 2912,
  1520, 1273, 2035, 1786, 502, 255, 1013, 764, 3580, 3317, 4095, 3830, 2554, 2291, 3065, 2800,
  1616, 1881, 1107, 1370, 598, 863, 85, 348, 3676, 3925, 3167, 3414, 2650, 2899, 2137, 2384,
  1984, 1737, 1475, 1226, 966, 719, 453, 204, 4044, 3781, 3535, 3270, 3018, 2755, 2505, 2240,
  2240, 2505, 2755, 3018, 3270, 3535, 3781, 4044, 204, 453, 719, 966, 1226, 1475, 1737, 1984,
  2384, 2137, 2899, 2650, 3414, 3167, 3925, 3676, 348, 85, 863, 598, 1370, 1107, 1881, 1616,
  2800, 3065, 2291, 2554, 3830, 4095, 3317, 3580, 764, 1013, 255, 502, 1786, 2035, 1273, 1520,
  2912, 2665, 2403, 2154, 3942, 3695, 3429, 3180, 876, 613, 367, 102, 1898, 1635, 1385, 1120,
  3232, 3497, 3747, 4010, 2214, 2479, 2725, 2988, 1196, 1445, 1711, 1958, 170, 419, 681, 928,
  3376, 3129, 3891, 3642, 2358, 2111, 2869, 2620, 1340, 1077, 1855, 1590, 314, 51, 825, 560,
  3728, 3993, 3219, 3482, 2710, 2975, 2197, 2460, 1692, 1941, 1183, 1430, 666, 915, 153, 400,
  3840, 3593, 3331, 3082, 2822, 2575, 2309, 2060, 1804, 1541, 1295, 1030, 778, 515, 265, 0]

/-- The `-1` end-of-list marker of the triangle table, named once so that
the 4096-entry table below elaborates quickly. -/
def negOne : Int := -1

/-- Rows 0 to 31 of the 256 by 16 triangle table, flattened. -/
def triTablePart0 : List Int := [
  negOne, negOne, negOne, negOne, negOne, negOne, negOne, negOne, negOne, negOne, negOne, negOne, negOne, negOne, negOne, negOne,
  0, 8, 3, negOne, negOne, negOne, negOne, negOne, negOne, negOne, negOne, negOne, negOne, negOne, negOne, negOne,
  0, 1, 9, negOne, negOne, negOne, negOne, negOne, negOne, negOne, negOne, negOne, negOne, negOne, negOne, negOne,
  1, 8, 3, 9, 8, 1, negOne, negOne, negOne, negOne, negOne, negOne, negOne, negOne, negOne, negOne,
  1, 2, 10, negOne, negOne, negOne, negOne, negOne, negOne, negOne, negOne, negOne, negOne, negOne, negOne, negOne,
  0, 8, 3, 1, 2, 10, negOne, negOne, negOne, negOne, negOne, negOne, negOne, negOne, negOne, negOne,
  9, 2, 10, 0, 2, 9, negOne, negOne, negOne, negOne, negOne, negOne, negOne, negOne, negOne, negOne,
  2, 8, 3, 2, 10, 8, 10, 9, 8, negOne, negOne, negOne, negOne, negOne, negOne, negOne,
  3, 11, 2, negOne, negOne, negOne, negOne, negOne, negOne, negOne, negOne, negOne, negOne, negOne, negOne, negOne,
  0, 11, 2, 8, 11, 0, negOne, negOne, negOne, negOne, negOne, negOne, negOne, negOne, negOne, negOne,
  1, 9, 0, 2, 3, 11, negOne, negOne, negOne, negOne, negOne, negOne, negOne, negOne, negOne, negOne,
  1, 11, 2, 1, 9, 11, 9, 8, 11, negOne, negOne, negOne, negOne, negOne, negOne, negOne,
  3, 10, 1, 11, 10, 3, negOne, negOne, negOne, negOne, negOne, negOne, negOne, negOne, negOne, negOne,
  0, 10, 1, 0, 8, 10, 8, 11, 10, negOne, negOne, negOne, negOne, negOne, negOne, negOne,
  3, 9, 0, 3, 11, 9, 11, 10, 9, negOne, negOne, negOne, negOne, negOne, negOne, negOne,
  9, 8, 10, 10, 8, 11, negOne, negOne, negOne, negOne, negOne, negOne, negOne, negOne, negOne, negOne,
  4, 7, 8, negOne, negOne, negOne, negOne, negOne, negOne, negOne, negOne, negOne, negOne, negOne, negOne, negOne,
  4, 3, 0, 7, 3, 4, negOne, negOne, negOne, negOne, negOne, negOne, negOne, negOne, negOne, negOne,
  0, 1, 9, 8, 4, 7, negOne, negOne, negOne, negOne, negOne, negOne, negOne, negOne, negOne, negOne,
  4, 1, 9, 4, 7, 1, 7, 3, 1, negOne, negOne, negOne, negOne, negOne, negOne, negOne,
  1, 2, 10, 8, 4, 7, negOne, negOne, negOne, negOne, negOne, negOne, negOne, negOne, negOne, negOne,
  3, 4, 7, 3, 0, 4, 1, 2, 10, negOne, negOne, negOne, negOne, negOne, negOne, negOne,
  9, 2, 10, 9, 0, 2, 8, 4, 7, negOne, negOne, negOne, negOne, negOne, negOne, negOne,
  2, 10, 9, 2, 9, 7, 2, 7, 3, 7, 9, 4, negOne, negOne, negOne, negOne,
  8, 4, 7, 3, 11, 2, negOne, negOne, negOne, negOne, negOne, negOne, negOne, negOne, negOne, negOne,
  11, 4, 7, 11, 2, 4, 2, 0, 4, negOne, negOne, negOne, negOne, negOne, negOne, negOne,
  9, 0, 1, 8, 4, 7, 2, 3, 11, negOne, negOne, negOne, negOne, negOne, negOne, negOne,
  4, 7, 11, 9, 4, 11, 9, 11, 2, 9, 2, 1, negOne, negOne, negOne, negOne,
  3, 10, 1, 3, 11, 10, 7, 8, 4, negOne, negOne, negOne, negOne, negOne, negOne, negOne,
  1, 11, 10, 1, 4, 11, 1, 0, 4, 7, 11, 4, negOne, negOne, negOne, negOne,
  4, 7, 8, 9, 0, 11, 9, 11, 10, 11, 0, 3, negOne, negOne, negOne, negOne,
  4, 7, 11, 4, 11, 9, 9, 11, 10, negOne, negOne, negOne, negOne, negOne, negOne, negOne]

/-- Rows 32 to 63 of the 256 by 16 triangle table, flattened. -/
def triTablePart1 : List Int := [
  9, 5, 4, negOne, negOne, negOne, negOne, negOne, negOne, negOne, negOne, negOne, negOne, negOne, negOne, negOne,
  9, 5, 4, 0, 8, 3, negOne, negOne, negOne, negOne, negOne, negOne, negOne, negOne, negOne, negOne,
  0, 5, 4, 1, 5, 0, negOne, negOne, negOne, negOne, negOne, negOne, negOne, negOne, negOne, negOne,
  8, 5, 4, 8, 3, 5, 3, 1, 5, negOne, negOne, negOne, negOne, negOne, negOne, negOne,
  1, 2, 10, 9, 5, 4, negOne, negOne, negOne, negOne, negOne, negOne, negOne, negOne, negOne, negOne,
  3, 0, 8, 1, 2, 10, 4, 9, 5, negOne, negOne, negOne, negOne, negOne, negOne, negOne,
  5, 2, 10, 5, 4, 2, 4, 0, 2, negOne, negOne, negOne, negOne, negOne, negOne, negOne,
  2, 10, 5, 3, 2, 5, 3, 5, 4, 3, 4, 8, negOne, negOne, negOne, negOne,
  9, 5, 4, 2, 3, 11, negOne, negOne, negOne, negOne, negOne, negOne, negOne, negOne, negOne, negOne,
  0, 11, 2, 0, 8, 11, 4, 9, 5, negOne, negOne, negOne, negOne, negOne, negOne, negOne,
  0, 5, 4, 0, 1, 5, 2, 3, 11, negOne, negOne, negOne, negOne, negOne, negOne, negOne,
  2, 1, 5, 2, 5, 8, 2, 8, 11, 4, 8, 5, negOne, negOne, negOne, negOne,
  10, 3, 11, 10, 1, 3, 9, 5, 4, negOne, negOne, negOne, negOne, negOne, negOne, negOne,
  4, 9, 5, 0, 8, 1, 8, 10, 1, 8, 11, 10, negOne, negOne, negOne, negOne,
  5, 4, 0, 5, 0, 11, 5, 11, 10, 11, 0, 3, negOne, negOne, negOne, negOne,
  5, 4, 8, 5, 8, 10, 10, 8, 11, negOne, negOne, negOne, negOne, negOne, negOne, negOne,
  9, 7, 8, 5, 7, 9, negOne, negOne, negOne, negOne, negOne, negOne, negOne, negOne, negOne, negOne,
  9, 3, 0, 9, 5, 3, 5, 7, 3, negOne, negOne, negOne, negOne, negOne, negOne, negOne,
  0, 7, 8, 0, 1, 7, 1, 5, 7, negOne, negOne, negOne, negOne, negOne, negOne, negOne,
  1, 5, 3, 3, 5, 7, negOne, negOne, negOne, negOne, negOne, negOne, negOne, negOne, negOne, negOne,
  9, 7, 8, 9, 5, 7, 10, 1, 2, negOne, negOne, negOne, negOne, negOne, negOne, negOne,
  10, 1, 2, 9, 5, 0, 5, 3, 0, 5, 7, 3, negOne, negOne, negOne, negOne,
  8, 0, 2, 8, 2, 5, 8, 5, 7, 10, 5, 2, negOne, negOne, negOne, negOne,
  2, 10, 5, 2, 5, 3, 3, 5, 7, negOne, negOne, negOne, negOne, negOne, negOne, negOne,
  7, 9, 5, 7, 8, 9, 3, 11, 2, negOne, negOne, negOne, negOne, negOne, negOne, negOne,
  9, 5, 7, 9, 7, 2, 9, 2, 0, 2, 7, 11, negOne, negOne, negOne, negOne,
  2, 3, 11, 0, 1, 8, 1, 7, 8, 1, 5, 7, negOne, negOne, negOne, negOne,
  11, 2, 1, 11, 1, 7, 7, 1, 5, negOne, negOne, negOne, negOne, negOne, negOne, negOne,
  9, 5, 8, 8, 5, 7, 10, 1, 3, 10, 3, 11, negOne, negOne, negOne, negOne,
  5, 7, 0, 5, 0, 9, 7, 11, 0, 1, 0, 10, 11, 10, 0, negOne,
  11, 10, 0, 11, 0, 3, 10, 5, 0, 8, 0, 7, 5, 7, 0, negOne,
  11, 10, 5, 7, 11, 5, negOne, negOne, negOne, negOne, negOne, negOne, negOne, negOne, negOne, negOne]

/-- Rows 64 to 95 of the 256 by 16 triangle table, flattened. -/
def triTablePart2 : List Int := [
  10, 6, 5, negOne, negOne, negOne, negOne, negOne, negOne, negOne, negOne, negOne, negOne, negOne, negOne, negOne,
  0, 8, 3, 5, 10, 6, negOne, negOne, negOne, negOne, negOne, negOne, negOne, negOne, negOne, negOne,
  9, 0, 1, 5, 10, 6, negOne, negOne, negOne, negOne, negOne, negOne, negOne, negOne, negOne, negOne,
  1, 8, 3, 1, 9, 8, 5, 10, 6, negOne, negOne, negOne, negOne, negOne, negOne, negOne,
  1, 6, 5, 2, 6, 1, negOne, negOne, negOne, negOne, negOne, negOne, negOne, negOne, negOne, negOne,
  1, 6, 5, 1, 2, 6, 3, 0, 8, negOne, negOne, negOne, negOne, negOne, negOne, negOne,
  9, 6, 5, 9, 0, 6, 0, 2, 6, negOne, negOne, negOne, negOne, negOne, negOne, negOne,
  5, 9, 8, 5, 8, 2, 5, 2, 6, 3, 2, 8, negOne, negOne, negOne, negOne,
  2, 3, 11, 10, 6, 5, negOne, negOne, negOne, negOne, negOne, negOne, negOne, negOne, negOne, negOne,
  11, 0, 8, 11, 2, 0, 10, 6, 5, negOne, negOne, negOne, negOne, negOne, negOne, negOne,
  0, 1, 9, 2, 3, 11, 5, 10, 6, negOne, negOne, negOne, negOne, negOne, negOne, negOne,
  5, 10, 6, 1, 9, 2, 9, 11, 2, 9, 8, 11, negOne, negOne, negOne, negOne,
  6, 3, 11, 6, 5, 3, 5, 1, 3, negOne, negOne, negOne, negOne, negOne, negOne, negOne,
  0, 8, 11, 0, 11, 5, 0, 5, 1, 5, 11, 6, negOne, negOne, negOne, negOne,
  3, 11, 6, 0, 3, 6, 0, 6, 5, 0, 5, 9, negOne, negOne, negOne, negOne,
  6, 5, 9, 6, 9, 11, 11, 9, 8, negOne, negOne, negOne, negOne, negOne, negOne, negOne,
  5, 10, 6, 4, 7, 8, negOne, negOne, negOne, negOne, negOne, negOne, negOne, negOne, negOne, negOne,
  4, 3, 0, 4, 7, 3, 6, 5, 10, negOne, negOne, negOne, negOne, negOne, negOne, negOne,
  1, 9, 0, 5, 10, 6, 8, 4, 7, negOne, negOne, negOne, negOne, negOne, negOne, negOne,
  10, 6, 5, 1, 9, 7, 1, 7, 3, 7, 9, 4, negOne, negOne, negOne, negOne,
  6, 1, 2, 6, 5, 1, 4, 7, 8, negOne, negOne, negOne, negOne, negOne, negOne, negOne,
  1, 2, 5, 5, 2, 6, 3, 0, 4, 3, 4, 7, negOne, negOne, negOne, negOne,
  8, 4, 7, 9, 0, 5, 0, 6, 5, 0, 2, 6, negOne, negOne, negOne, negOne,
  7, 3, 9, 7, 9, 4, 3, 2, 9, 5, 9, 6, 2, 6, 9, negOne,
  3, 11, 2, 7, 8, 4, 10, 6, 5, negOne, negOne, negOne, negOne, negOne, negOne, negOne,
  5, 10, 6, 4, 7, 2, 4, 2, 0, 2, 7, 11, negOne, negOne, negOne, negOne,
  0, 1, 9, 4, 7, 8, 2, 3, 11, 5, 10, 6, negOne, negOne, negOne, negOne,
  9, 2, 1, 9, 11, 2, 9, 4, 11, 7, 11, 4, 5, 10, 6, negOne,
  8, 4, 7, 3, 11, 5, 3, 5, 1, 5, 11, 6, negOne, negOne, negOne, negOne,
  5, 1, 11, 5, 11, 6, 1, 0, 11, 7, 11, 4, 0, 4, 11, negOne,
  0, 5, 9, 0, 6, 5, 0, 3, 6, 11, 6, 3, 8, 4, 7, negOne,
  6, 5, 9, 6, 9, 11, 4, 7, 9, 7, 11, 9, negOne, negOne, negOne, negOne]

/-- Rows 96 to 127 of the 256 by 16 triangle table, flattened. -/
def triTablePart3 : List Int := [
  10, 4, 9, 6, 4, 10, negOne, negOne, negOne, negOne, negOne, negOne, negOne, negOne, negOne, negOne,
  4, 10, 6, 4, 9, 10, 0, 8, 3, negOne, negOne, negOne, negOne, negOne, negOne, negOne,
  10, 0, 1, 10, 6, 0, 6, 4, 0, negOne, negOne, negOne, negOne, negOne, negOne, negOne,
  8, 3, 1, 8, 1, 6, 8, 6, 4, 6, 1, 10, negOne, negOne, negOne, negOne,
  1, 4, 9, 1, 2, 4, 2, 6, 4, negOne, negOne, negOne, negOne, negOne, negOne, negOne,
  3, 0, 8, 1, 2, 9, 2, 4, 9, 2, 6, 4, negOne, negOne, negOne, negOne,
  0, 2, 4, 4, 2, 6, negOne, negOne, negOne, negOne, negOne, negOne, negOne, negOne, negOne, negOne,
  8, 3, 2, 8, 2, 4, 4, 2, 6, negOne, negOne, negOne, negOne, negOne, negOne, negOne,
  10, 4, 9, 10, 6, 4, 11, 2, 3, negOne, negOne, negOne, negOne, negOne, negOne, negOne,
  0, 8, 2, 2, 8, 11, 4, 9, 10, 4, 10, 6, negOne, negOne, negOne, negOne,
  3, 11, 2, 0, 1, 6, 0, 6, 4, 6, 1, 10, negOne, negOne, negOne, negOne,
  6, 4, 1, 6, 1, 10, 4, 8, 1, 2, 1, 11, 8, 11, 1, negOne,
  9, 6, 4, 9, 3, 6, 9, 1, 3, 11, 6, 3, negOne, negOne, negOne, negOne,
  8, 11, 1, 8, 1, 0, 11, 6, 1, 9, 1, 4, 6, 4, 1, negOne,
  3, 11, 6, 3, 6, 0, 0, 6, 4, negOne, negOne, negOne, negOne, negOne, negOne, negOne,
  6, 4, 8, 11, 6, 8, negOne, negOne, negOne, negOne, negOne, negOne, negOne, negOne, negOne, negOne,
  7, 10, 6, 7, 8, 10, 8, 9, 10, negOne, negOne, negOne, negOne, negOne, negOne, negOne,
  0, 7, 3, 0, 10, 7, 0, 9, 10, 6, 7, 10, negOne, negOne, negOne, negOne,
  10, 6, 7, 1, 10, 7, 1, 7, 8, 1, 8, 0, negOne, negOne, negOne, negOne,
  10, 6, 7, 10, 7, 1, 1, 7, 3, negOne, negOne, negOne, negOne, negOne, negOne, negOne,
  1, 2, 6, 1, 6, 8, 1, 8, 9, 8, 6, 7, negOne, negOne, negOne, negOne,
  2, 6, 9, 2, 9, 1, 6, 7, 9, 0, 9, 3, 7, 3, 9, negOne,
  7, 8, 0, 7, 0, 6, 6, 0, 2, negOne, negOne, negOne, negOne, negOne, negOne, negOne,
  7, 3, 2, 6, 7, 2, negOne, negOne, negOne, negOne, negOne, negOne, negOne, negOne, negOne, negOne,
  2, 3, 11, 10, 6, 8, 10, 8, 9, 8, 6, 7, negOne, negOne, negOne, negOne,
  2, 0, 7, 2, 7, 11, 0, 9, 7, 6, 7, 10, 9, 10, 7, negOne,
  1, 8, 0, 1, 7, 8, 1, 10, 7, 6, 7, 10, 2, 3, 11, negOne,
  11, 2, 1, 11, 1, 7, 10, 6, 1, 6, 7, 1, negOne, negOne, negOne, negOne,
  8, 9, 6, 8, 6, 7, 9, 1, 6, 11, 6, 3, 1, 3, 6, negOne,
  0, 9, 1, 11, 6, 7, negOne, negOne, negOne, negOne, negOne, negOne, negOne, negOne, negOne, negOne,
  7, 8, 0, 7, 0, 6, 3, 11, 0, 11, 6, 0, negOne, negOne, negOne, negOne,
  7, 11, 6, negOne, negOne, negOne, negOne, negOne, negOne, negOne, negOne, negOne, negOne, negOne, negOne, negOne]

/-- Rows 128 to 159 of the 256 by 16 triangle table, flattened. -/
def triTablePart4 : List Int := [
  7, 6, 11, negOne, negOne, negOne, negOne, negOne, negOne, negOne, negOne, negOne, negOne, negOne, negOne, negOne,
  3, 0, 8, 11, 7, 6, negOne, negOne, negOne, negOne, negOne, negOne, negOne, negOne, negOne, negOne,
  0, 1, 9, 11, 7, 6, negOne, negOne, negOne, negOne, negOne, negOne, negOne, negOne, negOne, negOne,
  8, 1, 9, 8, 3, 1, 11, 7, 6, negOne, negOne, negOne, negOne, negOne, negOne, negOne,
  10, 1, 2, 6, 11, 7, negOne, negOne, negOne, negOne, negOne, negOne, negOne, negOne, negOne, negOne,
  1, 2, 10, 3, 0, 8, 6, 11, 7, negOne, negOne, negOne, negOne, negOne, negOne, negOne,
  2, 9, 0, 2, 10, 9, 6, 11, 7, negOne, negOne, negOne, negOne, negOne, negOne, negOne,
  6, 11, 7, 2, 10, 3, 10, 8, 3, 10, 9, 8, negOne, negOne, negOne, negOne,
  7, 2, 3, 6, 2, 7, negOne, negOne, negOne, negOne, negOne, negOne, negOne, negOne, negOne, negOne,
  7, 0, 8, 7, 6, 0, 6, 2, 0, negOne, negOne, negOne, negOne, negOne, negOne, negOne,
  2, 7, 6, 2, 3, 7, 0, 1, 9, negOne, negOne, negOne, negOne, negOne, negOne, negOne,
  1, 6, 2, 1, 8, 6, 1, 9, 8, 8, 7, 6, negOne, negOne, negOne, negOne,
  10, 7, 6, 10, 1, 7, 1, 3, 7, negOne, negOne, negOne, negOne, negOne, negOne, negOne,
  10, 7, 6, 1, 7, 10, 1, 8, 7, 1, 0, 8, negOne, negOne, negOne, negOne,
  0, 3, 7, 0, 7, 10, 0, 10, 9, 6, 10, 7, negOne, negOne, negOne, negOne,
  7, 6, 10, 7, 10, 8, 8, 10, 9, negOne, negOne, negOne, negOne, negOne, negOne, negOne,
  6, 8, 4, 11, 8, 6, negOne, negOne, negOne, negOne, negOne, negOne, negOne, negOne, negOne, negOne,
  3, 6, 11, 3, 0, 6, 0, 4, 6, negOne, negOne, negOne, negOne, negOne, negOne, negOne,
  8, 6, 11, 8, 4, 6, 9, 0, 1, negOne, negOne, negOne, negOne, negOne, negOne, negOne,
  9, 4, 6, 9, 6, 3, 9, 3, 1, 11, 3, 6, negOne, negOne, negOne, negOne,
  6, 8, 4, 6, 11, 8, 2, 10, 1, negOne, negOne, negOne, negOne, negOne, negOne, negOne,
  1, 2, 10, 3, 0, 11, 0, 6, 11, 0, 4, 6, negOne, negOne, negOne, negOne,
  4, 11, 8, 4, 6, 11, 0, 2, 9, 2, 10, 9, negOne, negOne, negOne, negOne,
  10, 9, 3, 10, 3, 2, 9, 4, 3, 11, 3, 6, 4, 6, 3, negOne,
  8, 2, 3, 8, 4, 2, 4, 6, 2, negOne, negOne, negOne, negOne, negOne, negOne, negOne,
  0, 4, 2, 4, 6, 2, negOne, negOne, negOne, negOne, negOne, negOne, negOne, negOne, negOne, negOne,
  1, 9, 0, 2, 3, 4, 2, 4, 6, 4, 3, 8, negOne, negOne, negOne, negOne,
  1, 9, 4, 1, 4, 2, 2, 4, 6, negOne, negOne, negOne, negOne, negOne, negOne, negOne,
  8, 1, 3, 8, 6, 1, 8, 4, 6, 6, 10, 1, negOne, negOne, negOne, negOne,
  10, 1, 0, 10, 0, 6, 6, 0, 4, negOne, negOne, negOne, negOne, negOne, negOne, negOne,
  4, 6, 3, 4, 3, 8, 6, 10, 3, 0, 3, 9, 10, 9, 3, negOne,
  10, 9, 4, 6, 10, 4, negOne, negOne, negOne, negOne, negOne, negOne, negOne, negOne, negOne, negOne]

/-- Rows 160 to 191 of the 256 by 16 triangle table, flattened. -/
def triTablePart5 : List Int := [
  4, 9, 5, 7, 6, 11, negOne, negOne, negOne, negOne, negOne, negOne, negOne, negOne, negOne, negOne,
  0, 8, 3, 4, 9, 5, 11, 7, 6, negOne, negOne, negOne, negOne, negOne, negOne, negOne,
  5, 0, 1, 5, 4, 0, 7, 6, 11, negOne, negOne, negOne, negOne, negOne, negOne, negOne,
  11, 7, 6, 8, 3, 4, 3, 5, 4, 3, 1, 5, negOne, negOne, negOne, negOne,
  9, 5, 4, 10, 1, 2, 7, 6, 11, negOne, negOne, negOne, negOne, negOne, negOne, negOne,
  6, 11, 7, 1, 2, 10, 0, 8, 3, 4, 9, 5, negOne, negOne, negOne, negOne,
  7, 6, 11, 5, 4, 10, 4, 2, 10, 4, 0, 2, negOne, negOne, negOne, negOne,
  3, 4, 8, 3, 5, 4, 3, 2, 5, 10, 5, 2, 11, 7, 6, negOne,
  7, 2, 3, 7, 6, 2, 5, 4, 9, negOne, negOne, negOne, negOne, negOne, negOne, negOne,
  9, 5, 4, 0, 8, 6, 0, 6, 2, 6, 8, 7, negOne, negOne, negOne, negOne,
  3, 6, 2, 3, 7, 6, 1, 5, 0, 5, 4, 0, negOne, negOne, negOne, negOne,
  6, 2, 8, 6, 8, 7, 2, 1, 8, 4, 8, 5, 1, 5, 8, negOne,
  9, 5, 4, 10, 1, 6, 1, 7, 6, 1, 3, 7, negOne, negOne, negOne, negOne,
  1, 6, 10, 1, 7, 6, 1, 0, 7, 8, 7, 0, 9, 5, 4, negOne,
  4, 0, 10, 4, 10, 5, 0, 3, 10, 6, 10, 7, 3, 7, 10, negOne,
  7, 6, 10, 7, 10, 8, 5, 4, 10, 4, 8, 10, negOne, negOne, negOne, negOne,
  6, 9, 5, 6, 11, 9, 11, 8, 9, negOne, negOne, negOne, negOne, negOne, negOne, negOne,
  3, 6, 11, 0, 6, 3, 0, 5, 6, 0, 9, 5, negOne, negOne, negOne, negOne,
  0, 11, 8, 0, 5, 11, 0, 1, 5, 5, 6, 11, negOne, negOne, negOne, negOne,
  6, 11, 3, 6, 3, 5, 5, 3, 1, negOne, negOne, negOne, negOne, negOne, negOne, negOne,
  1, 2, 10, 9, 5, 11, 9, 11, 8, 11, 5, 6, negOne, negOne, negOne, negOne,
  0, 11, 3, 0, 6, 11, 0, 9, 6, 5, 6, 9, 1, 2, 10, negOne,
  11, 8, 5, 11, 5, 6, 8, 0, 5, 10, 5, 2, 0, 2, 5, negOne,
  6, 11, 3, 6, 3, 5, 2, 10, 3, 10, 5, 3, negOne, negOne, negOne, negOne,
  5, 8, 9, 5, 2, 8, 5, 6, 2, 3, 8, 2, negOne, negOne, negOne, negOne,
  9, 5, 6, 9, 6, 0, 0, 6, 2, negOne, negOne, negOne, negOne, negOne, negOne, negOne,
  1, 5, 8, 1, 8, 0, 5, 6, 8, 3, 8, 2, 6, 2, 8, negOne,
  1, 5, 6, 2, 1, 6, negOne, negOne, negOne, negOne, negOne, negOne, negOne, negOne, negOne, negOne,
  1, 3, 6, 1, 6, 10, 3, 8, 6, 5, 6, 9, 8, 9, 6, negOne,
  10, 1, 0, 10, 0, 6, 9, 5, 0, 5, 6, 0, negOne, negOne, negOne, negOne,
  0, 3, 8, 5, 6, 10, negOne, negOne, negOne, negOne, negOne, negOne, negOne, negOne, negOne, negOne,
  10, 5, 6, negOne, negOne, negOne, negOne, negOne, negOne, negOne, negOne, negOne, negOne, negOne, negOne, negOne]

/-- Rows 192 to 223 of the 256 by 16 triangle table, flattened. -/
def triTablePart6 : List Int := [
  11, 5, 10, 7, 5, 11, negOne, negOne, negOne, negOne, negOne, negOne, negOne, negOne, negOne, negOne,
  11, 5, 10, 11, 7, 5, 8, 3, 0, negOne, negOne, negOne, negOne, negOne, negOne, negOne,
  5, 11, 7, 5, 10, 11, 1, 9, 0, negOne, negOne, negOne, negOne, negOne, negOne, negOne,
  10, 7, 5, 10, 11, 7, 9, 8, 1, 8, 3, 1, negOne, negOne, negOne, negOne,
  11, 1, 2, 11, 7, 1, 7, 5, 1, negOne, negOne, negOne, negOne, negOne, negOne, negOne,
  0, 8, 3, 1, 2, 7, 1, 7, 5, 7, 2, 11, negOne, negOne, negOne, negOne,
  9, 7, 5, 9, 2, 7, 9, 0, 2, 2, 11, 7, negOne, negOne, negOne, negOne,
  7, 5, 2, 7, 2, 11, 5, 9, 2, 3, 2, 8, 9, 8, 2, negOne,
  2, 5, 10, 2, 3, 5, 3, 7, 5, negOne, negOne, negOne, negOne, negOne, negOne, negOne,
  8, 2, 0, 8, 5, 2, 8, 7, 5, 10, 2, 5, negOne, negOne, negOne, negOne,
  9, 0, 1, 5, 10, 3, 5, 3, 7, 3, 10, 2, negOne, negOne, negOne, negOne,
  9, 8, 2, 9, 2, 1, 8, 7, 2, 10, 2, 5, 7, 5, 2, negOne,
  1, 3, 5, 3, 7, 5, negOne, negOne, negOne, negOne, negOne, negOne, negOne, negOne, negOne, negOne,
  0, 8, 7, 0, 7, 1, 1, 7, 5, negOne, negOne, negOne, negOne, negOne, negOne, negOne,
  9, 0, 3, 9, 3, 5, 5, 3, 7, negOne, negOne, negOne, negOne, negOne, negOne, negOne,
  9, 8, 7, 5, 9, 7, negOne, negOne, negOne, negOne, negOne, negOne, negOne, negOne, negOne, negOne,
  5, 8, 4, 5, 10, 8, 10, 11, 8, negOne, negOne, negOne, negOne, negOne, negOne, negOne,
  5, 0, 4, 5, 11, 0, 5, 10, 11, 11, 3, 0, negOne, negOne, negOne, negOne,
  0, 1, 9, 8, 4, 10, 8, 10, 11, 10, 4, 5, negOne, negOne, negOne, negOne,
  10, 11, 4, 10, 4, 5, 11, 3, 4, 9, 4, 1, 3, 1, 4, negOne,
  2, 5, 1, 2, 8, 5, 2, 11, 8, 4, 5, 8, negOne, negOne, negOne, negOne,
  0, 4, 11, 0, 11, 3, 4, 5, 11, 2, 11, 1, 5, 1, 11, negOne,
  0, 2, 5, 0, 5, 9, 2, 11, 5, 4, 5, 8, 11, 8, 5, negOne,
  9, 4, 5, 2, 11, 3, negOne, negOne, negOne, negOne, negOne, negOne, negOne, negOne, negOne, negOne,
  2, 5, 10, 3, 5, 2, 3, 4, 5, 3, 8, 4, negOne, negOne, negOne, negOne,
  5, 10, 2, 5, 2, 4, 4, 2, 0, negOne, negOne, negOne, negOne, negOne, negOne, negOne,
  3, 10, 2, 3, 5, 10, 3, 8, 5, 4, 5, 8, 0, 1, 9, negOne,
  5, 10, 2, 5, 2, 4, 1, 9, 2, 9, 4, 2, negOne, negOne, negOne, negOne,
  8, 4, 5, 8, 5, 3, 3, 5, 1, negOne, negOne, negOne, negOne, negOne, negOne, negOne,
  0, 4, 5, 1, 0, 5, negOne, negOne, negOne, negOne, negOne, negOne, negOne, negOne, negOne, negOne,
  8, 4, 5, 8, 5, 3, 9, 0, 5, 0, 3, 5, negOne, negOne, negOne, negOne,
  9, 4, 5, negOne, negOne, negOne, negOne, negOne, negOne, negOne, negOne, negOne, negOne, negOne, negOne, negOne]

/-- Rows 224 to 255 of the 256 by 16 triangle table, flattened. -/
def triTablePart7 : List Int := [
  4, 11, 7, 4, 9, 11, 9, 10, 11, negOne, negOne, negOne, negOne, negOne, negOne, negOne,
  0, 8, 3, 4, 9, 7, 9, 11, 7, 9, 10, 11, negOne, negOne, negOne, negOne,
  1, 10, 11, 1, 11, 4, 1, 4, 0, 7, 4, 11, negOne, negOne, negOne, negOne,
  3, 1, 4, 3, 4, 8, 1, 10, 4, 7, 4, 11, 10, 11, 4, negOne,
  4, 11, 7, 9, 11, 4, 9, 2, 11, 9, 1, 2, negOne, negOne, negOne, negOne,
  9, 7, 4, 9, 11, 7, 9, 1, 11, 2, 11, 1, 0, 8, 3, negOne,
  11, 7, 4, 11, 4, 2, 2, 4, 0, negOne, negOne, negOne, negOne, negOne, negOne, negOne,
  11, 7, 4, 11, 4, 2, 8, 3, 4, 3, 2, 4, negOne, negOne, negOne, negOne,
  2, 9, 10, 2, 7, 9, 2, 3, 7, 7, 4, 9, negOne, negOne, negOne, negOne,
  9, 10, 7, 9, 7, 4, 10, 2, 7, 8, 7, 0, 2, 0, 7, negOne,
  3, 7, 10, 3, 10, 2, 7, 4, 10, 1, 10, 0, 4, 0, 10, negOne,
  1, 10, 2, 8, 7, 4, negOne, negOne, negOne, negOne, negOne, negOne, negOne, negOne, negOne, negOne,
  4, 9, 1, 4, 1, 7, 7, 1, 3, negOne, negOne, negOne, negOne, negOne, negOne, negOne,
  4, 9, 1, 4, 1, 7, 0, 8, 1, 8, 7, 1, negOne, negOne, negOne, negOne,
  4, 0, 3, 7, 4, 3, negOne, negOne, negOne, negOne, negOne, negOne, negOne, negOne, negOne, negOne,
  4, 8, 7, negOne, negOne, negOne, negOne, negOne, negOne, negOne, negOne, negOne, negOne, negOne, negOne, negOne,
  9, 10, 8, 10, 11, 8, negOne, negOne, negOne, negOne, negOne, negOne, negOne, negOne, negOne, negOne,
  3, 0, 9, 3, 9, 11, 11, 9, 10, negOne, negOne, negOne, negOne, negOne, negOne, negOne,
  0, 1, 10, 0, 10, 8, 8, 10, 11, negOne, negOne, negOne, negOne, negOne, negOne, negOne,
  3, 1, 10, 11, 3, 10, negOne, negOne, negOne, negOne, negOne, negOne, negOne, negOne, negOne, negOne,
  1, 2, 11, 1, 11, 9, 9, 11, 8, negOne, negOne, negOne, negOne, negOne, negOne, negOne,
  3, 0, 9, 3, 9, 11, 1, 2, 9, 2, 11, 9, negOne, negOne, negOne, negOne,
  0, 2, 11, 8, 0, 11, negOne, negOne, negOne, negOne, negOne, negOne, negOne, negOne, negOne, negOne,
  3, 2, 11, negOne, negOne, negOne, negOne, negOne, negOne, negOne, negOne, negOne, negOne, negOne, negOne, negOne,
  2, 3, 8, 2, 8, 10, 10, 8, 9, negOne, negOne, negOne, negOne, negOne, negOne, negOne,
  9, 10, 2, 0, 9, 2, negOne, negOne, negOne, negOne, negOne, negOne, negOne, negOne, negOne, negOne,
  2, 3, 8, 2, 8, 10, 0, 1, 8, 1, 10, 8, negOne, negOne, negOne, negOne,
  1, 10, 2, negOne, negOne, negOne, negOne, negOne, negOne, negOne, negOne, negOne, negOne, negOne, negOne, negOne,
  1, 3, 8, 9, 1, 8, negOne, negOne, negOne, negOne, negOne, negOne, negOne, negOne, negOne, negOne,
  0, 9, 1, negOne, negOne, negOne, negOne, negOne, negOne, negOne, negOne, negOne, negOne, negOne, negOne, negOne,
  0, 3, 8, negOne, negOne, negOne, negOne, negOne, negOne, negOne, negOne, negOne, negOne, negOne, negOne, negOne,
  negOne, negOne, negOne, negOne, negOne, negOne, negOne, negOne, negOne, negOne, negOne, negOne, negOne, negOne, negOne, negOne]

/-- The 256 by 16 triangle table `triTable` of engine.cpp (standard
Lorensen-Cline table), flattened row by row: entries `16*c` to `16*c+15` are
row `c`, listing up to 5 triangles as triples of edge indices, with `-1`
terminators.  Assembled from eight part lists to keep elaboration cheap. -/
def triTable : List Int :=
  triTablePart0 ++ triTablePart1 ++ triTablePart2 ++ triTablePart3 ++
    triTablePart4 ++ triTablePart5 ++ triTablePart6 ++ triTablePart7

/-- Row `c` of the triangle table: `triTable[c][0..15]`. -/
def triTableRow (c : Nat) : List Int :=
  (triTable.drop (16 * c)).take 16

/-- The `sample` helper (engine.cpp 481-491) at a local offset: the mesher
pre-samples the 17×17×17 corner grid through `getVoxelRelative` once per
call (engine.cpp 598-612) and then reads cube corners from that grid
(engine.cpp 622-668); since sampling is pure, reading the grid at
`(lx, ly, lz)` equals sampling on demand, which is how it is embedded. -/
def mcSample (voxels : Voxels) (chunk : VoxelChunk) (lx ly lz : Int) : Sample :=
  let v := getVoxelRelative voxels chunk lx ly lz
  { position := { x := (lx : ℚ), y := (ly : ℚ), z := (lz : ℚ) }
    value := v.1, r := v.2.1, g := v.2.2.1, b := v.2.2.2 }

/-- The eight cube-corner samples of one cell, in the fixed winding order of
engine.cpp 622-668. -/
def cellSample (voxels : Voxels) (chunk : VoxelChunk) (lx ly lz : Int) : Nat → Sample
  | 0 => mcSample voxels chunk lx ly lz
  | 1 => mcSample voxels chunk lx (ly + 1) lz
  | 2 => mcSample voxels chunk (lx + 1) (ly + 1) lz
  | 3 => mcSample voxels chunk (lx + 1) ly lz
  | 4 => mcSample voxels chunk lx ly (lz + 1)
  | 5 => mcSample voxels chunk lx (ly + 1) (lz + 1)
  | 6 => mcSample voxels chunk (lx + 1) (ly + 1) (lz + 1)
  | _ => mcSample voxels chunk (lx + 1) ly (lz + 1)

/-- The 8-bit cube index (engine.cpp 670-678): bit i set iff corner i's
density is at least ISOLEVEL. -/
def cellCubeIndex (voxels : Voxels) (chunk : VoxelChunk) (lx ly lz : Int) : Nat :=
  let bit : Nat → Nat := fun i =>
    if ISOLEVEL ≤ (cellSample voxels chunk lx ly lz i).value then 1 else 0
  bit 0 + 2 * bit 1 + 4 * bit 2 + 8 * bit 3 + 16 * bit 4 + 32 * bit 5 + 64 * bit 6 +
    128 * bit 7

/-- The two corner samples of each of the 12 cube edges, per the fixed edge
bit order of the `interpolate` calls (engine.cpp 687-698). -/
def edgeEndpoints : Nat → Nat × Nat
  | 0 => (0, 1)
  | 1 => (1, 2)
  | 2 => (2, 3)
  | 3 => (3, 0)
  | 4 => (4, 5)
  | 5 => (5, 6)
  | 6 => (6, 7)
  | 7 => (7, 4)
  | 8 => (0, 4)
  | 9 => (1, 5)
  | 10 => (2, 6)
  | _ => (3, 7)

/-- The interpolated point of one cube edge (engine.cpp 687-698).  The C code
fills the shared `edgePoints` scratch array only at the active edge bits and
the triangle table references exactly those edges, so computing the point on
demand is the same function. -/
def cellEdgePoint (lut : Nat → ℚ) (voxels : Voxels) (chunk : VoxelChunk) (lx ly lz : Int)
    (e : Nat) : EdgePoint :=
  let ends := edgeEndpoints e
  interpolate lut (cellSample voxels chunk lx ly lz ends.1)
    (cellSample voxels chunk lx ly lz ends.2)

/-- Reading triangles off one triangle-table row three entries at a time,
stopping at the -1 terminator (engine.cpp 701-712). -/
def triangleTriples : List Int → List (Int × Int × Int)
  | a :: b :: c :: rest => if a = -1 then [] else (a, b, c) :: triangleTriples rest
  | _ => []

/-- The flat position/normal/color components one cell appends (engine.cpp
670-755): nothing when the cell's edge mask is zero, otherwise 9 position, 9
normal, and 9 color components per triangle, the flat-shaded normal repeated
three times. -/
def cellGeometry (lut : Nat → ℚ) (sqrtQ : ℚ → ℚ) (voxels : Voxels) (chunk : VoxelChunk)
    (lx ly lz : Int) : List ℚ × List ℚ × List ℚ :=
  let cubeIndex := cellCubeIndex voxels chunk lx ly lz
  let edges := edgeTable.getD cubeIndex 0
  if edges = 0 then ([], [], [])
  else
    let tris := triangleTriples (triTableRow cubeIndex)
    let pieces := tris.map (fun t =>
      let p0 := cellEdgePoint lut voxels chunk lx ly lz t.1.toNat
      let p1 := cellEdgePoint lut voxels chunk lx ly lz t.2.1.toNat
      let p2 := cellEdgePoint lut voxels chunk lx ly lz t.2.2.toNat
      let n := computeNormal sqrtQ p0.position p1.position p2.position
      ([p0.position.x, p0.position.y, p0.position.z,
        p1.position.x, p1.position.y, p1.position.z,
        p2.position.x, p2.position.y, p2.position.z],
       [n.x, n.y, n.z, n.x, n.y, n.z, n.x, n.y, n.z],
       [p0.r, p0.g, p0.b, p1.r, p1.g, p1.b, p2.r, p2.g, p2.b]))
    (pieces.flatMap (fun p => p.1), pieces.flatMap (fun p => p.2.1),
      pieces.flatMap (fun p => p.2.2))

/-- `ChunkGeometry` (engine.cpp 415-428): the caller-owned output buffer.
The component arrays are modelled as total functions (the C buffers have
fixed worst-case capacity and `mesh` performs no bounds checks; no claim
involves overflowing them), with the append cursor as the count. -/
structure ChunkGeometry where
  positions : Nat → ℚ
  positionsCount : Nat
  normals : Nat → ℚ
  normalsCount : Nat
  colors : Nat → ℚ
  colorsCount : Nat

/-- All components emitted by one `mesh` call, concatenated in the fixed cell
iteration order of engine.cpp 615-619 (ly outer, lz middle, lx inner). -/
def meshComponents (lut : Nat → ℚ) (sqrtQ : ℚ → ℚ) (voxels : Voxels)
    (chunk : VoxelChunk) : List ℚ × List ℚ × List ℚ :=
  let cells := (List.range 16).flatMap (fun ly =>
    (List.range 16).flatMap (fun lz =>
      (List.range 16).map (fun lx =>
        cellGeometry lut sqrtQ voxels chunk (lx : Int) (ly : Int) (lz : Int))))
  (cells.flatMap (fun p => p.1), cells.flatMap (fun p => p.2.1),
    cells.flatMap (fun p => p.2.2))

/-- `mesh` (engine.cpp 591-759): resets the output counts to zero and appends
the chunk's triangle soup.  Buffer entries beyond the new counts keep
whatever the caller's buffer held before, exactly as in C. -/
def mesh (lut : Nat → ℚ) (sqrtQ : ℚ → ℚ) (voxels : Voxels) (chunk : VoxelChunk)
    (out : ChunkGeometry) : ChunkGeometry :=
  let comps := meshComponents lut sqrtQ voxels chunk
  { positions := fun i => if h : i < comps.1.length then comps.1.get ⟨i, h⟩
      else out.positions i
    positionsCount := comps.1.length
    normals := fun i => if h : i < comps.2.1.length then comps.2.1.get ⟨i, h⟩
      else out.normals i
    normalsCount := comps.2.1.length
    colors := fun i => if h : i < comps.2.2.length then comps.2.2.get ⟨i, h⟩
      else out.colors i
    colorsCount := comps.2.2.length }

/-- The machine state a `mesh` call can reach through its pointer arguments:
`const Voxels *`, `const VoxelChunk *`, and the mutable `ChunkGeometry *`.
The C function writes through the geometry pointer only; this wrapper is the
whole call as a state transformer, so that the frame property is a statement
rather than a typing convention. -/
def meshCall (lut : Nat → ℚ) (sqrtQ : ℚ → ℚ) (voxels : Voxels) (chunk : VoxelChunk)
    (out : ChunkGeometry) : Voxels × VoxelChunk × ChunkGeometry :=
  (voxels, chunk, mesh lut sqrtQ voxels chunk out)

/-! ## Edit sequences and concrete scenario worlds used by the claims -/

/-- One mutating operation on a world: a `setVoxel` edit, or `generateChunk`
applied to the chunk at a chunk coordinate (the caller obtains the chunk
pointer via `getChunkAt`; a null pointer makes `generateChunk` return
immediately, so an out-of-bounds coordinate is a no-op). -/
inductive VoxelOp where
  | set (wx wy wz : Int) (value r g b : Nat)
  | gen (cx cy cz seed : Int)

/-- Apply one operation to the world. -/
def applyOp (world : Voxels) : VoxelOp → Voxels
  | .set wx wy wz value r g b => setVoxel world wx wy wz value r g b
  | .gen cx cy cz seed =>
    match chunkCoordinateToIndex cx cy cz world.bounds with
    | none => world
    | some chunkIndex =>
      { world with
        chunks := fun j =>
          if j = chunkIndex then generateChunk (world.chunks chunkIndex) cx cy cz seed
          else world.chunks j }

/-- Apply a finite sequence of operations, first to last. -/
def applyOps (world : Voxels) (ops : List VoxelOp) : Voxels :=
  ops.foldl applyOp world

/-- The sum invariant: every chunk's `sum` field equals what
`recomputeChunkSum` would return for its current densities. -/
def sumInvariant (world : Voxels) : Prop :=
  ∀ i : Nat, (world.chunks i).sum = recomputeChunkSum (world.chunks i)

/-- The dirty flag of the chunk at a chunk coordinate: `none` when the chunk
is absent. -/
def dirtyAt (world : Voxels) (cx cy cz : Int) : Option Bool :=
  (getChunkAt world cx cy cz).map isChunkDirty

/-- The spec's concrete raycast scenario world: one chunk, all densities zero
except world voxel (5,5,5) with density 255 (so the chunk's sum is 255 > 0);
every other chunk along the ray is absent. -/
def worldC7 : Voxels :=
  setVoxel (initVoxels 0 0 0 0 0 0) 5 5 5 255 0 0 0

/-- The N-chunk skip scenario: chunk coordinates (0,0,0) .. (0,0,N), all
empty except the last, which holds a single solid voxel at world coordinate
(5, 5, 16N+5); the ray below starts at z = -10 inside an absent chunk. -/
def worldSkip (N : Nat) : Voxels :=
  setVoxel (initVoxels 0 0 0 0 0 (N : Int)) 5 5 (16 * (N : Int) + 5) 255 0 0 0

/-- The hit that both raycasters report on `worldSkip N` for the ray from
(5,5,-10) along (0,0,1): voxel (5,5,16N+5), entered through its -z face at
parameter 16N+14.5. -/
def expectedSkipHit (N : Nat) : RaycastResult :=
  { hit := true
    positionX := 5, positionY := 5, positionZ := 16 * (N : ℚ) + 9 / 2
    normalX := 0, normalY := 0, normalZ := -1
    value := 255, r := 0, g := 0, b := 0
    distance := 16 * (N : ℚ) + 29 / 2
    voxelX := 5, voxelY := 5, voxelZ := 16 * (N : Int) + 5 }

/-- One-chunk world whose only solid voxel is world voxel (2,5,0); the
near-tie counterexample ray below exits the absent chunk z < 0 a hair before
crossing x = 3, so the chunk-skip's epsilon jump lands past that crossing
and the traversal never tests voxel (2,5,0). -/
def worldCex : Voxels :=
  setVoxel (initVoxels 0 0 0 0 0 0) 2 5 0 255 0 0 0

/-- A chunk holding stale nonzero data everywhere, used to exhibit that
`generateChunk` does not clear voxels below the solidity threshold. -/
def staleChunk : VoxelChunk :=
  { id := 0, x := 2, y := 13, z := 1
    value := fun _ => 255
    color := fun _ => (7, 7, 7)
    sum := 255 * 4096
    dirtyMesh := false }

/-! ## Helper lemmas -/

/-- A successful `chunkCoordinateToIndex` means the coordinate is in
bounds and the index is the row-major formula. -/
lemma chunkCoordinateToIndex_eq_some {b : ChunkBounds} {x y z : Int} {i : Nat}
    (h : chunkCoordinateToIndex x y z b = some i) :
    b.xmin ≤ x ∧ x ≤ b.xmax ∧ b.ymin ≤ y ∧ y ≤ b.ymax ∧ b.zmin ≤ z ∧ z ≤ b.zmax ∧
      i = ((x - b.xmin).toNat * (b.ymax - b.ymin + 1).toNat + (y - b.ymin).toNat) *
            (b.zmax - b.zmin + 1).toNat + (z - b.zmin).toNat := by
  unfold chunkCoordinateToIndex at h
  split at h
  · exact absurd h (by simp)
  · rename_i hguard
    push_neg at hguard
    obtain ⟨h1, h2, h3, h4, h5, h6⟩ := hguard
    exact ⟨h1, h2, h3, h4, h5, h6, (Option.some.inj h).symm⟩

/-- Conversely, an in-bounds coordinate yields that index. -/
lemma chunkCoordinateToIndex_of_mem {b : ChunkBounds} {x y z : Int}
    (hx0 : b.xmin ≤ x) (hx1 : x ≤ b.xmax) (hy0 : b.ymin ≤ y) (hy1 : y ≤ b.ymax)
    (hz0 : b.zmin ≤ z) (hz1 : z ≤ b.zmax) :
    chunkCoordinateToIndex x y z b =
      some (((x - b.xmin).toNat * (b.ymax - b.ymin + 1).toNat + (y - b.ymin).toNat) *
        (b.zmax - b.zmin + 1).toNat + (z - b.zmin).toNat) := by
  simp only [chunkCoordinateToIndex]
  rw [if_neg]
  push_neg
  exact ⟨hx0, hx1, hy0, hy1, hz0, hz1⟩

/-- Row-major pairing decode: div and mod recover the three digits. -/
lemma rowMajorDecode (ox oy oz ys zs : Nat) (hy : oy < ys) (hz : oz < zs) :
    ((ox * ys + oy) * zs + oz) / (ys * zs) = ox ∧
      (((ox * ys + oy) * zs + oz) % (ys * zs)) / zs = oy ∧
      (((ox * ys + oy) * zs + oz) % (ys * zs)) % zs = oz := by
  have hzs : 0 < zs := by omega
  have hys : 0 < ys := by omega
  have hrem : oy * zs + oz < ys * zs := by
    calc oy * zs + oz < oy * zs + zs := by omega
      _ = (oy + 1) * zs := by ring
      _ ≤ ys * zs := Nat.mul_le_mul_right _ (by omega)
  have hsplit : (ox * ys + oy) * zs + oz = (oy * zs + oz) + ox * (ys * zs) := by ring
  have hmod : ((ox * ys + oy) * zs + oz) % (ys * zs) = oy * zs + oz := by
    rw [hsplit, Nat.add_mul_mod_self_right, Nat.mod_eq_of_lt hrem]
  refine ⟨?_, ?_, ?_⟩
  · rw [hsplit, Nat.add_mul_div_right _ _ (Nat.mul_pos hys hzs), Nat.div_eq_of_lt hrem,
      Nat.zero_add]
  · rw [hmod, Nat.add_comm, Nat.add_mul_div_right _ _ hzs, Nat.div_eq_of_lt hz,
      Nat.zero_add]
  · rw [hmod, Nat.add_comm, Nat.add_mul_mod_self_right, Nat.mod_eq_of_lt hz]

/-- Decoding the row-major index recovers the coordinate. -/
lemma chunkIndexToCoordinate_roundtrip {b : ChunkBounds} {x y z : Int} {i : Nat}
    (h : chunkCoordinateToIndex x y z b = some i) :
    chunkIndexToCoordinate i b = (x, y, z) := by
  obtain ⟨hx0, hx1, hy0, hy1, hz0, hz1, hi⟩ := chunkCoordinateToIndex_eq_some h
  obtain ⟨d1, d2, d3⟩ :=
    rowMajorDecode (x - b.xmin).toNat (y - b.ymin).toNat (z - b.zmin).toNat
      (b.ymax - b.ymin + 1).toNat (b.zmax - b.zmin + 1).toNat (by omega) (by omega)
  subst hi
  simp only [chunkIndexToCoordinate]
  rw [d1, d2, d3, Prod.mk.injEq, Prod.mk.injEq]
  refine ⟨by omega, by omega, by omega⟩

/-- Two in-bounds chunk coordinates with the same flat index coincide. -/
lemma chunkCoordinateToIndex_inj {b : ChunkBounds} {x y z u v w : Int} {i : Nat}
    (h1 : chunkCoordinateToIndex x y z b = some i)
    (h2 : chunkCoordinateToIndex u v w b = some i) :
    x = u ∧ y = v ∧ z = w := by
  have e1 := chunkIndexToCoordinate_roundtrip h1
  have e2 := chunkIndexToCoordinate_roundtrip h2
  rw [e1, Prod.mk.injEq, Prod.mk.injEq] at e2
  exact ⟨e2.1, e2.2.1, e2.2.2⟩

/-- `markChunkDirty` leaves the bounds untouched. -/
lemma markChunkDirty_bounds (w : Voxels) (a b c : Int) :
    (markChunkDirty w a b c).bounds = w.bounds := by
  unfold markChunkDirty
  split <;> rfl

/-- `markChunkDirty` touches only the dirty flag: densities, colors, sums,
ids and coordinate labels of every chunk are unchanged. -/
lemma markChunkDirty_frame (w : Voxels) (a b c : Int) (j : Nat) :
    ((markChunkDirty w a b c).chunks j).value = (w.chunks j).value ∧
      ((markChunkDirty w a b c).chunks j).color = (w.chunks j).color ∧
      ((markChunkDirty w a b c).chunks j).sum = (w.chunks j).sum := by
  unfold markChunkDirty
  split
  · exact ⟨rfl, rfl, rfl⟩
  · rename_i k hk
    by_cases hj : j = k
    · subst hj
      simp
    · simp [hj]

/-- `markChunkDirtyIf` version of the bounds lemma. -/
lemma markChunkDirtyIf_bounds (cond : Prop) [Decidable cond] (w : Voxels) (a b c : Int) :
    (markChunkDirtyIf cond w a b c).bounds = w.bounds := by
  unfold markChunkDirtyIf
  split
  · exact markChunkDirty_bounds w a b c
  · rfl

/-- `markChunkDirtyIf` version of the frame lemma. -/
lemma markChunkDirtyIf_frame (cond : Prop) [Decidable cond] (w : Voxels) (a b c : Int)
    (j : Nat) :
    ((markChunkDirtyIf cond w a b c).chunks j).value = (w.chunks j).value ∧
      ((markChunkDirtyIf cond w a b c).chunks j).color = (w.chunks j).color ∧
      ((markChunkDirtyIf cond w a b c).chunks j).sum = (w.chunks j).sum := by
  unfold markChunkDirtyIf
  split
  · exact markChunkDirty_frame w a b c j
  · exact ⟨rfl, rfl, rfl⟩

/-- `markChunkDirty` at an absent coordinate is a no-op. -/
lemma markChunkDirty_absent {w : Voxels} {a b c : Int}
    (h : chunkCoordinateToIndex a b c w.bounds = none) :
    markChunkDirty w a b c = w := by
  unfold markChunkDirty
  rw [h]

/-- `markChunkDirty` at a present coordinate sets that chunk's flag. -/
lemma markChunkDirty_present {w : Voxels} {a b c : Int} {k : Nat}
    (h : chunkCoordinateToIndex a b c w.bounds = some k) :
    markChunkDirty w a b c =
      { w with
        chunks := fun j =>
          if j = k then { w.chunks k with dirtyMesh := true } else w.chunks j } := by
  unfold markChunkDirty
  rw [h]

/-- The dirty flag after `markChunkDirty`: the marked coordinate becomes
true when present, every other coordinate keeps its flag. -/
lemma dirtyAt_markChunkDirty (w : Voxels) (a b c x y z : Int) :
    dirtyAt (markChunkDirty w a b c) x y z =
      if a = x ∧ b = y ∧ c = z then (dirtyAt w x y z).map (fun _ => true)
      else dirtyAt w x y z := by
  cases habc : chunkCoordinateToIndex a b c w.bounds with
  | none =>
    rw [markChunkDirty_absent habc]
    split
    · rename_i heq
      obtain ⟨rfl, rfl, rfl⟩ := heq
      unfold dirtyAt getChunkAt
      rw [habc]
      rfl
    · rfl
  | some k =>
    rw [markChunkDirty_present habc]
    unfold dirtyAt getChunkAt
    simp only
    cases hxyz : chunkCoordinateToIndex x y z w.bounds with
    | none => split <;> simp
    | some j =>
      by_cases hjk : j = k
      · subst hjk
        obtain ⟨rfl, rfl, rfl⟩ := chunkCoordinateToIndex_inj habc hxyz
        rw [if_pos ⟨rfl, rfl, rfl⟩]
        simp [isChunkDirty]
      · rw [if_neg]
        · simp [hjk]
        · intro heq
          obtain ⟨rfl, rfl, rfl⟩ := heq
          rw [habc] at hxyz
          exact hjk (Option.some.inj hxyz).symm

/-- The dirty flag after `markChunkDirtyIf`. -/
lemma dirtyAt_markChunkDirtyIf (cond : Prop) [Decidable cond] (w : Voxels)
    (a b c x y z : Int) :
    dirtyAt (markChunkDirtyIf cond w a b c) x y z =
      if cond ∧ a = x ∧ b = y ∧ c = z then (dirtyAt w x y z).map (fun _ => true)
      else dirtyAt w x y z := by
  unfold markChunkDirtyIf
  by_cases hc : cond
  · rw [if_pos hc, dirtyAt_markChunkDirty]
    by_cases heq : a = x ∧ b = y ∧ c = z
    · rw [if_pos heq, if_pos ⟨hc, heq⟩]
    · rw [if_neg heq, if_neg (by tauto)]
  · rw [if_neg hc, if_neg (by tauto)]

/-- Projection form of the frame lemma, for rewriting chains. -/
lemma markChunkDirtyIf_value (cond : Prop) [Decidable cond] (w : Voxels) (a b c : Int)
    (j : Nat) :
    ((markChunkDirtyIf cond w a b c).chunks j).value = (w.chunks j).value :=
  (markChunkDirtyIf_frame cond w a b c j).1

/-- Projection form of the frame lemma, for rewriting chains. -/
lemma markChunkDirtyIf_color (cond : Prop) [Decidable cond] (w : Voxels) (a b c : Int)
    (j : Nat) :
    ((markChunkDirtyIf cond w a b c).chunks j).color = (w.chunks j).color :=
  (markChunkDirtyIf_frame cond w a b c j).2.1

/-- Projection form of the frame lemma, for rewriting chains. -/
lemma markChunkDirtyIf_sum (cond : Prop) [Decidable cond] (w : Voxels) (a b c : Int)
    (j : Nat) :
    ((markChunkDirtyIf cond w a b c).chunks j).sum = (w.chunks j).sum :=
  (markChunkDirtyIf_frame cond w a b c j).2.2

/-- `setVoxel` outside the allocated bounds returns the world unchanged. -/
lemma setVoxel_absent {w : Voxels} {wx wy wz : Int} {v r g b : Nat}
    (h : chunkCoordinateToIndex (worldPositionToChunkCoordinates wx wy wz).1
      (worldPositionToChunkCoordinates wx wy wz).2.1
      (worldPositionToChunkCoordinates wx wy wz).2.2 w.bounds = none) :
    setVoxel w wx wy wz v r g b = w := by
  simp only [setVoxel]
  rw [h]

/-- The fields of the world after an in-bounds `setVoxel`: bounds unchanged;
every chunk other than the edited one keeps its densities, colors and sum;
the edited chunk gets the written density and color at the voxel index and
the signed-delta sum update. -/
lemma setVoxel_present_fields {w : Voxels} {wx wy wz : Int} {v r g b : Nat} {i : Nat}
    (h : chunkCoordinateToIndex (worldPositionToChunkCoordinates wx wy wz).1
      (worldPositionToChunkCoordinates wx wy wz).2.1
      (worldPositionToChunkCoordinates wx wy wz).2.2 w.bounds = some i) :
    (setVoxel w wx wy wz v r g b).bounds = w.bounds ∧
      (∀ j, j ≠ i → ((setVoxel w wx wy wz v r g b).chunks j).value = (w.chunks j).value ∧
        ((setVoxel w wx wy wz v r g b).chunks j).color = (w.chunks j).color ∧
        ((setVoxel w wx wy wz v r g b).chunks j).sum = (w.chunks j).sum) ∧
      (((setVoxel w wx wy wz v r g b).chunks i).value = fun k =>
        if k = getVoxelIndex (worldPositionToChunkPosition wx wy wz).1
            (worldPositionToChunkPosition wx wy wz).2.1
            (worldPositionToChunkPosition wx wy wz).2.2 then v
        else (w.chunks i).value k) ∧
      (((setVoxel w wx wy wz v r g b).chunks i).color = fun k =>
        if k = getVoxelIndex (worldPositionToChunkPosition wx wy wz).1
            (worldPositionToChunkPosition wx wy wz).2.1
            (worldPositionToChunkPosition wx wy wz).2.2 then (r, g, b)
        else (w.chunks i).color k) ∧
      ((setVoxel w wx wy wz v r g b).chunks i).sum =
        (w.chunks i).sum + (v : Int) -
          ((w.chunks i).value (getVoxelIndex (worldPositionToChunkPosition wx wy wz).1
            (worldPositionToChunkPosition wx wy wz).2.1
            (worldPositionToChunkPosition wx wy wz).2.2) : Int) := by
  simp only [setVoxel]
  rw [h]
  refine ⟨?_, ?_, ?_, ?_, ?_⟩
  · simp only [markChunkDirtyIf_bounds]
  · intro j hj
    refine ⟨?_, ?_, ?_⟩
    · simp only [markChunkDirtyIf_value]
      simp [hj]
    · simp only [markChunkDirtyIf_color]
      simp [hj]
    · simp only [markChunkDirtyIf_sum]
      simp [hj]
  · simp only [markChunkDirtyIf_value]
    simp
  · simp only [markChunkDirtyIf_color]
    simp
  · simp only [markChunkDirtyIf_sum]
    simp

/-- An index below `totalChunks` decodes to an in-bounds coordinate that
encodes back to the same index. -/
lemma chunkIndexToCoordinate_mem_roundtrip {b : ChunkBounds} {i : Nat}
    (h : i < totalChunks b) :
    chunkCoordinateToIndex (chunkIndexToCoordinate i b).1 (chunkIndexToCoordinate i b).2.1
      (chunkIndexToCoordinate i b).2.2 b = some i := by
  have hxs := h
  unfold totalChunks at hxs
  set xs := (b.xmax - b.xmin + 1).toNat with hxsdef
  set ys := (b.ymax - b.ymin + 1).toNat with hysdef
  set zs := (b.zmax - b.zmin + 1).toNat with hzsdef
  have hzs0 : 0 < zs := by
    rcases Nat.eq_zero_or_pos zs with h0 | h1
    · rw [h0, Nat.mul_zero] at hxs
      omega
    · exact h1
  have hys0 : 0 < ys := by
    rcases Nat.eq_zero_or_pos ys with h0 | h1
    · rw [h0, Nat.mul_zero, Nat.zero_mul] at hxs
      omega
    · exact h1
  have hplane0 : 0 < ys * zs := Nat.mul_pos hys0 hzs0
  obtain ⟨A, hA⟩ : ∃ A, i / (ys * zs) = A := ⟨_, rfl⟩
  obtain ⟨R, hR⟩ : ∃ R, i % (ys * zs) = R := ⟨_, rfl⟩
  obtain ⟨B, hB⟩ : ∃ B, R / zs = B := ⟨_, rfl⟩
  obtain ⟨C, hC⟩ : ∃ C, R % zs = C := ⟨_, rfl⟩
  have e1 : ys * zs * A + R = i := by rw [← hA, ← hR]; exact Nat.div_add_mod _ _
  have e2 : zs * B + C = R := by rw [← hB, ← hC]; exact Nat.div_add_mod _ _
  have hox : A < xs := by
    rw [← hA, Nat.div_lt_iff_lt_mul hplane0]
    calc i < xs * ys * zs := hxs
      _ = xs * (ys * zs) := by ring
  have hoy : B < ys := by
    rw [← hB, Nat.div_lt_iff_lt_mul hzs0, ← hR]
    exact Nat.mod_lt _ hplane0
  have hoz : C < zs := by
    rw [← hC]
    exact Nat.mod_lt _ hzs0
  have hcoord : chunkIndexToCoordinate i b =
      ((A : Int) + b.xmin, (B : Int) + b.ymin, (C : Int) + b.zmin) := by
    simp only [chunkIndexToCoordinate, hA, hR, hB, hC]
  rw [hcoord]
  simp only
  rw [chunkCoordinateToIndex_of_mem (by omega) (by omega) (by omega) (by omega)
    (by omega) (by omega)]
  congr 1
  have ex : ((A : Int) + b.xmin - b.xmin).toNat = A := by omega
  have ey : ((B : Int) + b.ymin - b.ymin).toNat = B := by omega
  have ez : ((C : Int) + b.zmin - b.zmin).toNat = C := by omega
  rw [ex, ey, ez]
  calc (A * ys + B) * zs + C = ys * zs * A + (zs * B + C) := by ring
    _ = ys * zs * A + R := by rw [e2]
    _ = i := e1

/-! ## Claim theorems -/

/-- C8: for every world and world coordinate whose owning chunk lies outside
`ChunkBounds`, `setVoxel` returns without failing and changes no observable
state: the world, hence every chunk's densities, colors, sum, and dirty flag,
is exactly what it was before the call. -/
theorem setVoxel_out_of_bounds_noop (w : Voxels) (wx wy wz : Int) (v r g b : Nat)
    (h : chunkCoordinateToIndex (worldPositionToChunkCoordinates wx wy wz).1
      (worldPositionToChunkCoordinates wx wy wz).2.1
      (worldPositionToChunkCoordinates wx wy wz).2.2 w.bounds = none) :
    setVoxel w wx wy wz v r g b = w :=
  setVoxel_absent h

/-- Witness for C8: editing world voxel (100, 0, 0) of the one-chunk world
over chunk bounds [0,0]³ (its chunk coordinate 6 is out of bounds) leaves the
world untouched. -/
theorem setVoxel_out_of_bounds_noop_witness :
    chunkCoordinateToIndex (worldPositionToChunkCoordinates 100 0 0).1
        (worldPositionToChunkCoordinates 100 0 0).2.1
        (worldPositionToChunkCoordinates 100 0 0).2.2
        (initVoxels 0 0 0 0 0 0).bounds = none ∧
      setVoxel (initVoxels 0 0 0 0 0 0) 100 0 0 9 1 2 3 = initVoxels 0 0 0 0 0 0 :=
  ⟨by decide, setVoxel_out_of_bounds_noop (initVoxels 0 0 0 0 0 0) 100 0 0 9 1 2 3
    (by decide)⟩

/-- C4: for every world and every world voxel coordinate whose owning chunk
lies within `ChunkBounds`, `getVoxel` right after
`setVoxel(world, x, y, z, d, r, g, b)` returns exactly (d, r, g, b). -/
theorem getVoxel_after_setVoxel (w : Voxels) (wx wy wz : Int) (d r g b : Nat)
    (h : (chunkCoordinateToIndex (worldPositionToChunkCoordinates wx wy wz).1
      (worldPositionToChunkCoordinates wx wy wz).2.1
      (worldPositionToChunkCoordinates wx wy wz).2.2 w.bounds).isSome) :
    getVoxel (setVoxel w wx wy wz d r g b) wx wy wz = (d, (r, g, b)) := by
  obtain ⟨i, hi⟩ := Option.isSome_iff_exists.mp h
  obtain ⟨hb, _, hval, hcol, _⟩ := setVoxel_present_fields (v := d) (r := r) (g := g)
    (b := b) hi
  simp only [getVoxel]
  rw [hb, hi]
  simp only
  rw [hval, hcol]
  simp

/-- Witness for C4: writing (255, 1, 2, 3) at world voxel (5, 5, 5) of the
one-chunk world and reading it back. -/
theorem getVoxel_after_setVoxel_witness :
    (chunkCoordinateToIndex (worldPositionToChunkCoordinates 5 5 5).1
        (worldPositionToChunkCoordinates 5 5 5).2.1
        (worldPositionToChunkCoordinates 5 5 5).2.2
        (initVoxels 0 0 0 0 0 0).bounds).isSome ∧
      getVoxel (setVoxel (initVoxels 0 0 0 0 0 0) 5 5 5 255 1 2 3) 5 5 5 =
        (255, (1, 2, 3)) :=
  ⟨by decide, getVoxel_after_setVoxel (initVoxels 0 0 0 0 0 0) 5 5 5 255 1 2 3
    (by decide)⟩

/-- C10: for bounds containing the chunk coordinate (x, y, z), the flat index
of `chunkCoordinateToIndex` decodes back to (x, y, z) via
`chunkIndexToCoordinate`; consequently every chunk allocated by `initVoxels`
stores a coordinate label that maps back to its own position in the chunk
array. -/
theorem chunkIndex_roundtrip (bounds : ChunkBounds) (x y z : Int) (j : Nat)
    (hx0 : bounds.xmin ≤ x) (hx1 : x ≤ bounds.xmax) (hy0 : bounds.ymin ≤ y)
    (hy1 : y ≤ bounds.ymax) (hz0 : bounds.zmin ≤ z) (hz1 : z ≤ bounds.zmax)
    (hj : j < totalChunks bounds) :
    (∃ i : Nat, chunkCoordinateToIndex x y z bounds = some i ∧
      chunkIndexToCoordinate i bounds = (x, y, z)) ∧
      chunkCoordinateToIndex
        ((initVoxels bounds.xmin bounds.xmax bounds.ymin bounds.ymax bounds.zmin
          bounds.zmax).chunks j).x
        ((initVoxels bounds.xmin bounds.xmax bounds.ymin bounds.ymax bounds.zmin
          bounds.zmax).chunks j).y
        ((initVoxels bounds.xmin bounds.xmax bounds.ymin bounds.ymax bounds.zmin
          bounds.zmax).chunks j).z bounds = some j := by
  constructor
  · refine ⟨_, chunkCoordinateToIndex_of_mem hx0 hx1 hy0 hy1 hz0 hz1, ?_⟩
    exact chunkIndexToCoordinate_roundtrip
      (chunkCoordinateToIndex_of_mem hx0 hx1 hy0 hy1 hz0 hz1)
  · have hb : (⟨bounds.xmin, bounds.xmax, bounds.ymin, bounds.ymax, bounds.zmin,
        bounds.zmax⟩ : ChunkBounds) = bounds := rfl
    simp only [initVoxels, hb]
    exact chunkIndexToCoordinate_mem_roundtrip hj

/-- Witness for C10: bounds [-1,1]×[0,2]×[3,5], coordinate (0, 1, 4), array
position 3 (of 27). -/
theorem chunkIndex_roundtrip_witness :
    ((ChunkBounds.mk (-1) 1 0 2 3 5).xmin ≤ 0 ∧ (0 : Int) ≤ (ChunkBounds.mk (-1) 1 0 2 3 5).xmax ∧
      (ChunkBounds.mk (-1) 1 0 2 3 5).ymin ≤ 1 ∧ (1 : Int) ≤ (ChunkBounds.mk (-1) 1 0 2 3 5).ymax ∧
      (ChunkBounds.mk (-1) 1 0 2 3 5).zmin ≤ 4 ∧ (4 : Int) ≤ (ChunkBounds.mk (-1) 1 0 2 3 5).zmax ∧
      3 < totalChunks (ChunkBounds.mk (-1) 1 0 2 3 5)) ∧
      (∃ i : Nat, chunkCoordinateToIndex 0 1 4 (ChunkBounds.mk (-1) 1 0 2 3 5) = some i ∧
        chunkIndexToCoordinate i (ChunkBounds.mk (-1) 1 0 2 3 5) = (0, 1, 4)) ∧
      chunkCoordinateToIndex
        ((initVoxels (-1) 1 0 2 3 5).chunks 3).x
        ((initVoxels (-1) 1 0 2 3 5).chunks 3).y
        ((initVoxels (-1) 1 0 2 3 5).chunks 3).z (ChunkBounds.mk (-1) 1 0 2 3 5) =
        some 3 :=
  ⟨⟨by decide, by decide, by decide, by decide, by decide, by decide, by decide⟩,
    chunkIndex_roundtrip (ChunkBounds.mk (-1) 1 0 2 3 5) 0 1 4 3 (by decide) (by decide)
      (by decide) (by decide) (by decide) (by decide) (by decide)⟩

/-- C6: for corner samples with densities on opposite sides of ISOLEVEL the
interpolation parameter is the exact ratio (ISOLEVEL − a)/(b − a), already in
[0, 1], so the clamps are no-ops and the edge point is the convex combination
of the two corner positions; for equal densities the parameter is exactly
1/2; and for every pair of samples whatsoever the parameter stays in [0, 1]
(the rational embedding is total — the division-by-zero guard means no NaN
can arise). -/
theorem interpolate_step_bounds (a b : Sample)
    (h : (a.value < ISOLEVEL ∧ ISOLEVEL ≤ b.value) ∨
      (b.value < ISOLEVEL ∧ ISOLEVEL ≤ a.value)) :
    (interpolateStep a b =
        ((128 : ℚ) - (a.value : ℚ)) / ((b.value : ℚ) - (a.value : ℚ)) ∧
      0 ≤ interpolateStep a b ∧ interpolateStep a b ≤ 1) ∧
      (∀ a2 b2 : Sample, a2.value = b2.value → interpolateStep a2 b2 = 1 / 2) ∧
      (∀ a2 b2 : Sample, 0 ≤ interpolateStep a2 b2 ∧ interpolateStep a2 b2 ≤ 1) ∧
      (∀ lut : Nat → ℚ,
        (interpolate lut a b).position.x =
          a.position.x + interpolateStep a b * (b.position.x - a.position.x) ∧
        (interpolate lut a b).position.y =
          a.position.y + interpolateStep a b * (b.position.y - a.position.y) ∧
        (interpolate lut a b).position.z =
          a.position.z + interpolateStep a b * (b.position.z - a.position.z)) := by
  have hne : b.value ≠ a.value := by
    rcases h with ⟨h1, h2⟩ | ⟨h1, h2⟩ <;> unfold ISOLEVEL at h1 h2 <;> omega
  have hraw : 0 ≤ ((128 : ℚ) - (a.value : ℚ)) / ((b.value : ℚ) - (a.value : ℚ)) ∧
      ((128 : ℚ) - (a.value : ℚ)) / ((b.value : ℚ) - (a.value : ℚ)) ≤ 1 := by
    rcases h with ⟨h1, h2⟩ | ⟨h1, h2⟩
    · have ha : (a.value : ℚ) < 128 := by exact_mod_cast h1
      have hb : (128 : ℚ) ≤ (b.value : ℚ) := by exact_mod_cast h2
      have hden : (0 : ℚ) < (b.value : ℚ) - (a.value : ℚ) := by linarith
      constructor
      · exact div_nonneg (by linarith) (le_of_lt hden)
      · rw [div_le_one hden]
        linarith
    · have hb : (b.value : ℚ) < 128 := by exact_mod_cast h1
      have ha : (128 : ℚ) ≤ (a.value : ℚ) := by exact_mod_cast h2
      have hflip : ((128 : ℚ) - (a.value : ℚ)) / ((b.value : ℚ) - (a.value : ℚ)) =
          ((a.value : ℚ) - 128) / ((a.value : ℚ) - (b.value : ℚ)) := by
        rw [← neg_div_neg_eq]
        ring_nf
      rw [hflip]
      have hden2 : (0 : ℚ) < (a.value : ℚ) - (b.value : ℚ) := by linarith
      constructor
      · exact div_nonneg (by linarith) (le_of_lt hden2)
      · rw [div_le_one hden2]
        linarith
  have hstep : interpolateStep a b =
      ((128 : ℚ) - (a.value : ℚ)) / ((b.value : ℚ) - (a.value : ℚ)) := by
    simp only [interpolateStep]
    rw [if_neg hne, if_neg (not_lt.mpr hraw.1), if_neg (not_lt.mpr hraw.2)]
  refine ⟨⟨hstep, by rw [hstep]; exact hraw.1, by rw [hstep]; exact hraw.2⟩, ?_, ?_, ?_⟩
  · intro a2 b2 heq
    simp only [interpolateStep]
    rw [if_pos heq.symm]
  · intro a2 b2
    simp only [interpolateStep]
    by_cases he : b2.value = a2.value
    · rw [if_pos he]
      norm_num
    · rw [if_neg he]
      set q := ((128 : ℚ) - (a2.value : ℚ)) / ((b2.value : ℚ) - (a2.value : ℚ)) with hq
      by_cases h1 : q < 0
      · rw [if_pos h1]
        norm_num
      · rw [if_neg h1]
        by_cases h2 : q > 1
        · rw [if_pos h2]
          norm_num
        · rw [if_neg h2]
          exact ⟨not_lt.mp h1, not_lt.mp h2⟩
  · intro lut
    exact ⟨rfl, rfl, rfl⟩

/-- Witness for C6: samples with densities 100 and 200 on opposite sides of
ISOLEVEL = 128. -/
theorem interpolate_step_bounds_witness :
    ((100 < ISOLEVEL ∧ ISOLEVEL ≤ 200) ∨ (200 < ISOLEVEL ∧ ISOLEVEL ≤ 100)) ∧
      (interpolateStep ⟨⟨0, 0, 0⟩, 100, 0, 0, 0⟩ ⟨⟨1, 0, 0⟩, 200, 0, 0, 0⟩ =
          ((128 : ℚ) - (100 : ℚ)) / ((200 : ℚ) - (100 : ℚ)) ∧
        0 ≤ interpolateStep ⟨⟨0, 0, 0⟩, 100, 0, 0, 0⟩ ⟨⟨1, 0, 0⟩, 200, 0, 0, 0⟩ ∧
        interpolateStep ⟨⟨0, 0, 0⟩, 100, 0, 0, 0⟩ ⟨⟨1, 0, 0⟩, 200, 0, 0, 0⟩ ≤ 1) := by
  constructor
  · left
    constructor <;> decide
  · have h := interpolate_step_bounds ⟨⟨0, 0, 0⟩, 100, 0, 0, 0⟩ ⟨⟨1, 0, 0⟩, 200, 0, 0, 0⟩
      (Or.inl ⟨by decide, by decide⟩)
    exact h.1

set_option maxRecDepth 10000 in
/-- C7: in the spec's concrete scenario — the only solid voxel is (5,5,5)
with density 255, its chunk has sum 255 > 0, all other chunks along the ray
absent — the raycast from (5,5,-10) along (0,0,1) with maxDistance 100
reports a hit at voxel (5,5,5) with face normal (0,0,-1) and distance
14.5 (≈ 15, hit position z = 4.5, the -z face of the voxel). -/
theorem raycast_single_voxel_scenario :
    raycastVoxels 100 worldC7 5 5 (-10) 0 0 1 100 =
      some { hit := true, positionX := 5, positionY := 5, positionZ := 9 / 2,
             normalX := 0, normalY := 0, normalZ := -1, value := 255,
             r := 0, g := 0, b := 0, distance := 29 / 2,
             voxelX := 5, voxelY := 5, voxelZ := 5 } ∧
      |(29 : ℚ) / 2 - 15| ≤ 1 / 2 :=
  ⟨by with_unfolding_all rfl, by norm_num [abs_le]⟩

set_option maxRecDepth 40000 in
/-- Counterexample to C5 as stated: at chunk (2,13,1) with seed 0, the fbm
value at world voxel (40, 208, 24) (local offset (8,0,8), flat index 136)
lies below the lower band — the smoothstep solidity is exactly 0, so the
claimed density is 0 and the claimed color black — yet `generateChunk` on a
chunk holding stale data leaves density 255 and color (7,7,7) there: the
result is not independent of what the chunk contained before the call. -/
theorem generateChunk_stale_cex :
    generateSolidity 40 208 24 0 = 0 ∧
      (generateChunk staleChunk 2 13 1 0).value 136 = 255 ∧
      (generateChunk staleChunk 2 13 1 0).color 136 = (7, 7, 7) ∧
      staleChunk.value 136 = 255 :=
  ⟨by with_unfolding_all rfl, by with_unfolding_all rfl, by with_unfolding_all rfl, rfl⟩

/-- C5 (amended): after `generateChunk`, a local voxel whose smoothstep
solidity exceeds 0.01 holds density ⌊solidity·255⌋ and the HSV-derived
color scaled by solidity; every other voxel retains exactly its previous
density and color — so densities equal the smoothstep-thresholded fbm value
(with the sub-0.01 cutoff mapping to zero) only when the chunk was zero
there beforehand, as at world initialization. -/
theorem generateChunk_density (chunk : VoxelChunk) (cx cy cz seed : Int) (lx ly lz : Nat)
    (hx : lx < 16) (hy : ly < 16) (hz : lz < 16) :
    ((generateChunk chunk cx cy cz seed).value (lx + lz * 16 + ly * 256) =
      if generateSolidity (cx * 16 + (lx : Int)) (cy * 16 + (ly : Int))
          (cz * 16 + (lz : Int)) seed > 1 / 100 then
        (⌊generateSolidity (cx * 16 + (lx : Int)) (cy * 16 + (ly : Int))
          (cz * 16 + (lz : Int)) seed * 255⌋).toNat
      else chunk.value (lx + lz * 16 + ly * 256)) ∧
      ((generateChunk chunk cx cy cz seed).color (lx + lz * 16 + ly * 256) =
        if generateSolidity (cx * 16 + (lx : Int)) (cy * 16 + (ly : Int))
            (cz * 16 + (lz : Int)) seed > 1 / 100 then
          ((⌊(generateColorRGB (cx * 16 + (lx : Int)) (cy * 16 + (ly : Int))
              (cz * 16 + (lz : Int)) seed).1 *
            generateSolidity (cx * 16 + (lx : Int)) (cy * 16 + (ly : Int))
              (cz * 16 + (lz : Int)) seed * 255⌋).toNat,
            (⌊(generateColorRGB (cx * 16 + (lx : Int)) (cy * 16 + (ly : Int))
              (cz * 16 + (lz : Int)) seed).2.1 *
            generateSolidity (cx * 16 + (lx : Int)) (cy * 16 + (ly : Int))
              (cz * 16 + (lz : Int)) seed * 255⌋).toNat,
            (⌊(generateColorRGB (cx * 16 + (lx : Int)) (cy * 16 + (ly : Int))
              (cz * 16 + (lz : Int)) seed).2.2 *
            generateSolidity (cx * 16 + (lx : Int)) (cy * 16 + (ly : Int))
              (cz * 16 + (lz : Int)) seed * 255⌋).toNat)
        else chunk.color (lx + lz * 16 + ly * 256)) ∧
      ((∀ j, chunk.value j = 0) →
        (generateChunk chunk cx cy cz seed).value (lx + lz * 16 + ly * 256) =
          if generateSolidity (cx * 16 + (lx : Int)) (cy * 16 + (ly : Int))
              (cz * 16 + (lz : Int)) seed > 1 / 100 then
            (⌊generateSolidity (cx * 16 + (lx : Int)) (cy * 16 + (ly : Int))
              (cz * 16 + (lz : Int)) seed * 255⌋).toNat
          else 0) := by
  have hlt : lx + lz * 16 + ly * 256 < CHUNK_VOXELS := by
    unfold CHUNK_VOXELS
    omega
  have d1 : ((lx + lz * 16 + ly * 256) % 16 : Nat) = lx := by omega
  have d2 : ((lx + lz * 16 + ly * 256) / 16 % 16 : Nat) = lz := by omega
  have d3 : ((lx + lz * 16 + ly * 256) / 256 : Nat) = ly := by omega
  have hval : (generateChunk chunk cx cy cz seed).value (lx + lz * 16 + ly * 256) =
      if generateSolidity (cx * 16 + (lx : Int)) (cy * 16 + (ly : Int))
          (cz * 16 + (lz : Int)) seed > 1 / 100 then
        (⌊generateSolidity (cx * 16 + (lx : Int)) (cy * 16 + (ly : Int))
          (cz * 16 + (lz : Int)) seed * 255⌋).toNat
      else chunk.value (lx + lz * 16 + ly * 256) := by
    simp only [generateChunk]
    rw [if_pos hlt, d1, d2, d3]
  refine ⟨hval, ?_, ?_⟩
  · simp only [generateChunk]
    rw [if_pos hlt, d1, d2, d3]
  · intro h0
    rw [hval]
    split
    · rfl
    · exact h0 _

/-- The voxel index of a local offset is inside the chunk's 4096 voxels. -/
lemma getVoxelIndex_lt (wx wy wz : Int) :
    getVoxelIndex (worldPositionToChunkPosition wx wy wz).1
      (worldPositionToChunkPosition wx wy wz).2.1
      (worldPositionToChunkPosition wx wy wz).2.2 < CHUNK_VOXELS := by
  unfold getVoxelIndex worldPositionToChunkPosition CHUNK_VOXELS
  simp only
  omega

/-- Updating one entry shifts the density sum by the signed delta. -/
lemma sum_range_update (f : Nat → Nat) (k : Nat) (hk : k < CHUNK_VOXELS) (v : Nat) :
    ∑ j ∈ Finset.range CHUNK_VOXELS, (((if j = k then v else f j) : Nat) : Int) =
      (∑ j ∈ Finset.range CHUNK_VOXELS, (f j : Int)) + (v : Int) - (f k : Int) := by
  have hcong : ∀ j ∈ Finset.range CHUNK_VOXELS,
      (((if j = k then v else f j) : Nat) : Int) =
        (f j : Int) + (if j = k then (v : Int) - (f j : Int) else 0) := by
    intro j _
    by_cases hj : j = k
    · subst hj
      simp
    · simp [hj]
  rw [Finset.sum_congr rfl hcong, Finset.sum_add_distrib]
  rw [Finset.sum_ite_eq' (Finset.range CHUNK_VOXELS) k (fun j => (v : Int) - (f j : Int))]
  rw [if_pos (Finset.mem_range.mpr hk)]
  ring

/-- `setVoxel` preserves the sum invariant. -/
lemma sumInvariant_setVoxel {w : Voxels} (wx wy wz : Int) (v r g b : Nat)
    (hw : sumInvariant w) : sumInvariant (setVoxel w wx wy wz v r g b) := by
  intro j
  cases h : chunkCoordinateToIndex (worldPositionToChunkCoordinates wx wy wz).1
      (worldPositionToChunkCoordinates wx wy wz).2.1
      (worldPositionToChunkCoordinates wx wy wz).2.2 w.bounds with
  | none =>
    rw [setVoxel_absent h]
    exact hw j
  | some i =>
    obtain ⟨hb, hother, hval, hcol, hsum⟩ := setVoxel_present_fields (v := v) (r := r)
      (g := g) (b := b) h
    by_cases hj : j = i
    · subst hj
      unfold recomputeChunkSum
      rw [hsum]
      simp only [hval]
      rw [sum_range_update _ _ (getVoxelIndex_lt wx wy wz)]
      have hw2 : (w.chunks j).sum =
          ∑ k ∈ Finset.range CHUNK_VOXELS, ((w.chunks j).value k : Int) := hw j
      rw [hw2]
    · obtain ⟨hv, _, hs⟩ := hother j hj
      unfold recomputeChunkSum
      rw [hs]
      simp only [hv]
      exact hw j

/-- `recomputeChunkSum` depends only on the density array. -/
lemma recomputeChunkSum_value_congr {c1 c2 : VoxelChunk} (h : c1.value = c2.value) :
    recomputeChunkSum c1 = recomputeChunkSum c2 := by
  unfold recomputeChunkSum
  rw [h]

/-- `generateChunk` re-establishes the sum invariant on its result by
construction: the final store is `recomputeChunkSum` of the generated
densities. -/
lemma generateChunk_sum_eq (c : VoxelChunk) (cx cy cz seed : Int) :
    (generateChunk c cx cy cz seed).sum =
      recomputeChunkSum (generateChunk c cx cy cz seed) := by
  simp only [generateChunk]
  exact recomputeChunkSum_value_congr rfl

/-- Every operation preserves the sum invariant. -/
lemma sumInvariant_applyOp {w : Voxels} (op : VoxelOp) (hw : sumInvariant w) :
    sumInvariant (applyOp w op) := by
  cases op with
  | set wx wy wz v r g b => exact sumInvariant_setVoxel wx wy wz v r g b hw
  | gen cx cy cz seed =>
    intro j
    simp only [applyOp]
    cases h : chunkCoordinateToIndex cx cy cz w.bounds with
    | none => exact hw j
    | some i =>
      simp only
      by_cases hj : j = i
      · subst hj
        rw [if_pos rfl]
        exact generateChunk_sum_eq _ _ _ _ _
      · rw [if_neg hj]
        exact hw j

/-- C3: in every world built by `initVoxels` and mutated by any finite
sequence of `setVoxel` edits and `generateChunk` calls, every chunk's `sum`
field equals the recomputed density sum (`recomputeChunkSum`): `setVoxel`
maintains it incrementally by the signed delta and `generateChunk`
re-establishes it by recomputation. -/
theorem sum_invariant_after_ops (x0 x1 y0 y1 z0 z1 : Int) (ops : List VoxelOp) :
    sumInvariant (applyOps (initVoxels x0 x1 y0 y1 z0 z1) ops) := by
  have hinit : sumInvariant (initVoxels x0 x1 y0 y1 z0 z1) := by
    intro j
    simp [initVoxels, recomputeChunkSum]
  have hstep : ∀ (w : Voxels) (l : List VoxelOp), sumInvariant w →
      sumInvariant (applyOps w l) := by
    intro w l
    induction l generalizing w with
    | nil => exact fun hw => hw
    | cons op rest ih =>
      intro hw
      exact ih (applyOp w op) (sumInvariant_applyOp op hw)
  exact hstep _ ops hinit

/-- C9: a `mesh` call writes only the caller's `ChunkGeometry` — the world
and the chunk, in particular the chunk's `dirtyMesh` flag, densities, colors
and sum, are untouched — and it resets the output counters to zero before
appending: the emitted counts and components are independent of whatever the
buffer held before (entries beyond the new counts keep the caller's old
contents, exactly as the C code leaves them). -/
theorem mesh_writes_only_geometry (lut : Nat → ℚ) (sqrtQ : ℚ → ℚ) (w : Voxels)
    (c : VoxelChunk) (g g2 : ChunkGeometry) :
    (meshCall lut sqrtQ w c g).1 = w ∧
      (meshCall lut sqrtQ w c g).2.1 = c ∧
      isChunkDirty (meshCall lut sqrtQ w c g).2.1 = isChunkDirty c ∧
      (mesh lut sqrtQ w c g).positionsCount = (mesh lut sqrtQ w c g2).positionsCount ∧
      (mesh lut sqrtQ w c g).normalsCount = (mesh lut sqrtQ w c g2).normalsCount ∧
      (mesh lut sqrtQ w c g).colorsCount = (mesh lut sqrtQ w c g2).colorsCount ∧
      (∀ i, (mesh lut sqrtQ w c g).positions i =
        if i < (mesh lut sqrtQ w c g).positionsCount then
          (mesh lut sqrtQ w c g2).positions i
        else g.positions i) ∧
      (∀ i, (mesh lut sqrtQ w c g).normals i =
        if i < (mesh lut sqrtQ w c g).normalsCount then
          (mesh lut sqrtQ w c g2).normals i
        else g.normals i) ∧
      (∀ i, (mesh lut sqrtQ w c g).colors i =
        if i < (mesh lut sqrtQ w c g).colorsCount then
          (mesh lut sqrtQ w c g2).colors i
        else g.colors i) := by
  refine ⟨rfl, rfl, rfl, rfl, rfl, rfl, ?_, ?_, ?_⟩
  · intro i
    simp only [mesh]
    by_cases h : i < (meshComponents lut sqrtQ w c).1.length
    · rw [dif_pos h, if_pos h, dif_pos h]
    · rw [dif_neg h, if_neg h]
  · intro i
    simp only [mesh]
    by_cases h : i < (meshComponents lut sqrtQ w c).2.1.length
    · rw [dif_pos h, if_pos h, dif_pos h]
    · rw [dif_neg h, if_neg h]
  · intro i
    simp only [mesh]
    by_cases h : i < (meshComponents lut sqrtQ w c).2.2.length
    · rw [dif_pos h, if_pos h, dif_pos h]
    · rw [dif_neg h, if_neg h]

/-- The dirty flag after replacing the chunk at an in-bounds coordinate's
index with a chunk whose flag is set. -/
lemma dirtyAt_update_self {w : Voxels} {cx cy cz : Int} {i : Nat}
    (hi : chunkCoordinateToIndex cx cy cz w.bounds = some i) (ch : VoxelChunk)
    (hch : ch.dirtyMesh = true) (x y z : Int) :
    dirtyAt { w with chunks := fun j => if j = i then ch else w.chunks j } x y z =
      if cx = x ∧ cy = y ∧ cz = z then some true else dirtyAt w x y z := by
  unfold dirtyAt getChunkAt
  simp only
  cases hxyz : chunkCoordinateToIndex x y z w.bounds with
  | none =>
    split
    · rename_i heq
      obtain ⟨rfl, rfl, rfl⟩ := heq
      rw [hi] at hxyz
      exact absurd hxyz (by simp)
    · simp
  | some j =>
    by_cases hjk : j = i
    · subst hjk
      obtain ⟨rfl, rfl, rfl⟩ := chunkCoordinateToIndex_inj hi hxyz
      rw [if_pos ⟨rfl, rfl, rfl⟩]
      simp [isChunkDirty, hch]
    · rw [if_neg]
      · simp [hjk]
      · intro heq
        obtain ⟨rfl, rfl, rfl⟩ := heq
        rw [hi] at hxyz
        exact hjk (Option.some.inj hxyz).symm

/-- Marking steps never change which chunks are present, so forcing the flag
to true afterwards erases them. -/
lemma dirtyAt_map_true_markChunkDirtyIf (cond : Prop) [Decidable cond] (X : Voxels)
    (a b c x y z : Int) :
    (dirtyAt (markChunkDirtyIf cond X a b c) x y z).map (fun _ => true) =
      (dirtyAt X x y z).map (fun _ => true) := by
  rw [dirtyAt_markChunkDirtyIf]
  split
  · simp [Option.map_map, Function.comp]
  · rfl

/-- The base edit never changes which chunks are present either. -/
lemma dirtyAt_map_true_update {w : Voxels} {cx cy cz : Int} {i : Nat}
    (hi : chunkCoordinateToIndex cx cy cz w.bounds = some i) (ch : VoxelChunk)
    (hch : ch.dirtyMesh = true) (x y z : Int) :
    (dirtyAt { w with chunks := fun j => if j = i then ch else w.chunks j } x y z).map
        (fun _ => true) =
      (dirtyAt w x y z).map (fun _ => true) := by
  rw [dirtyAt_update_self hi ch hch]
  split
  · rename_i heq
    obtain ⟨rfl, rfl, rfl⟩ := heq
    unfold dirtyAt getChunkAt
    rw [hi]
    rfl
  · rfl

/-- Unconditional-mark version of the absorption lemma. -/
lemma dirtyAt_map_true_markChunkDirty (X : Voxels) (a b c x y z : Int) :
    (dirtyAt (markChunkDirty X a b c) x y z).map (fun _ => true) =
      (dirtyAt X x y z).map (fun _ => true) := by
  rw [dirtyAt_markChunkDirty]
  split
  · simp [Option.map_map, Function.comp]
  · rfl

/-- Hypothesis form of the mark-step rewrite: a step that does not target
this coordinate leaves its dirty flag alone. -/
lemma dirtyAt_markChunkDirtyIf_skip {cond : Prop} [Decidable cond] {w : Voxels}
    {a b c x y z : Int} (h : ¬(cond ∧ a = x ∧ b = y ∧ c = z)) :
    dirtyAt (markChunkDirtyIf cond w a b c) x y z = dirtyAt w x y z := by
  rw [dirtyAt_markChunkDirtyIf, if_neg h]

/-- Hypothesis form of the mark-step rewrite: a step that targets this
coordinate forces its flag to true (when the chunk is present at all). -/
lemma dirtyAt_markChunkDirtyIf_hit {cond : Prop} [Decidable cond] {w : Voxels}
    {a b c x y z : Int} (h : cond ∧ a = x ∧ b = y ∧ c = z) :
    dirtyAt (markChunkDirtyIf cond w a b c) x y z =
      (dirtyAt w x y z).map (fun _ => true) := by
  rw [dirtyAt_markChunkDirtyIf, if_pos h]

/-- Hypothesis form for the base edit, edited-chunk case. -/
lemma dirtyAt_update_self_hit {w : Voxels} {cx cy cz : Int} {i : Nat}
    (hi : chunkCoordinateToIndex cx cy cz w.bounds = some i) (ch : VoxelChunk)
    (hch : ch.dirtyMesh = true) {x y z : Int} (h : cx = x ∧ cy = y ∧ cz = z) :
    dirtyAt { w with chunks := fun j => if j = i then ch else w.chunks j } x y z =
      some true := by
  rw [dirtyAt_update_self hi ch hch, if_pos h]

/-- Hypothesis form for the base edit, other-chunk case. -/
lemma dirtyAt_update_self_skip {w : Voxels} {cx cy cz : Int} {i : Nat}
    (hi : chunkCoordinateToIndex cx cy cz w.bounds = some i) (ch : VoxelChunk)
    (hch : ch.dirtyMesh = true) {x y z : Int} (h : ¬(cx = x ∧ cy = y ∧ cz = z)) :
    dirtyAt { w with chunks := fun j => if j = i then ch else w.chunks j } x y z =
      dirtyAt w x y z := by
  rw [dirtyAt_update_self hi ch hch, if_neg h]

set_option maxHeartbeats 2000000 in
/-- C2: dirty propagation of `setVoxel` for an in-bounds edit.  Editing local
offset (0,0,0) of chunk C marks C plus its 3 face-adjacent, 3 edge-adjacent
and 1 corner-adjacent neighbors on the negative side (each neighbor only if
present — the `Option.map` form is `none` exactly for absent chunks), and no
other chunk's dirty flag changes.  Editing a pure face offset (exactly one
local coordinate on a boundary plane, stated for all six faces) marks only C
and the corresponding face neighbor. -/
theorem setVoxel_dirty_propagation (w : Voxels) (wx wy wz : Int) (v r g b : Nat)
    (cx cy cz lx ly lz : Int) (i : Nat)
    (hc : worldPositionToChunkCoordinates wx wy wz = (cx, cy, cz))
    (hl : worldPositionToChunkPosition wx wy wz = (lx, ly, lz))
    (hi : chunkCoordinateToIndex cx cy cz w.bounds = some i) :
    ((lx = 0 ∧ ly = 0 ∧ lz = 0) →
      (dirtyAt (setVoxel w wx wy wz v r g b) cx cy cz = some true ∧
        dirtyAt (setVoxel w wx wy wz v r g b) (cx - 1) cy cz =
          (dirtyAt w (cx - 1) cy cz).map (fun _ => true) ∧
        dirtyAt (setVoxel w wx wy wz v r g b) cx (cy - 1) cz =
          (dirtyAt w cx (cy - 1) cz).map (fun _ => true) ∧
        dirtyAt (setVoxel w wx wy wz v r g b) cx cy (cz - 1) =
          (dirtyAt w cx cy (cz - 1)).map (fun _ => true) ∧
        dirtyAt (setVoxel w wx wy wz v r g b) (cx - 1) (cy - 1) cz =
          (dirtyAt w (cx - 1) (cy - 1) cz).map (fun _ => true) ∧
        dirtyAt (setVoxel w wx wy wz v r g b) (cx - 1) cy (cz - 1) =
          (dirtyAt w (cx - 1) cy (cz - 1)).map (fun _ => true) ∧
        dirtyAt (setVoxel w wx wy wz v r g b) cx (cy - 1) (cz - 1) =
          (dirtyAt w cx (cy - 1) (cz - 1)).map (fun _ => true) ∧
        dirtyAt (setVoxel w wx wy wz v r g b) (cx - 1) (cy - 1) (cz - 1) =
          (dirtyAt w (cx - 1) (cy - 1) (cz - 1)).map (fun _ => true)) ∧
      (∀ x y z : Int, ¬(x = cx ∧ y = cy ∧ z = cz) →
        ¬(x = cx - 1 ∧ y = cy ∧ z = cz) → ¬(x = cx ∧ y = cy - 1 ∧ z = cz) →
        ¬(x = cx ∧ y = cy ∧ z = cz - 1) → ¬(x = cx - 1 ∧ y = cy - 1 ∧ z = cz) →
        ¬(x = cx - 1 ∧ y = cy ∧ z = cz - 1) → ¬(x = cx ∧ y = cy - 1 ∧ z = cz - 1) →
        ¬(x = cx - 1 ∧ y = cy - 1 ∧ z = cz - 1) →
        dirtyAt (setVoxel w wx wy wz v r g b) x y z = dirtyAt w x y z)) ∧
    ((ly ≠ 0 ∧ ly ≠ 15 ∧ lz ≠ 0 ∧ lz ≠ 15) →
      (lx = 0 →
        dirtyAt (setVoxel w wx wy wz v r g b) cx cy cz = some true ∧
        dirtyAt (setVoxel w wx wy wz v r g b) (cx - 1) cy cz =
          (dirtyAt w (cx - 1) cy cz).map (fun _ => true) ∧
        (∀ x y z : Int, ¬(x = cx ∧ y = cy ∧ z = cz) →
          ¬(x = cx - 1 ∧ y = cy ∧ z = cz) →
          dirtyAt (setVoxel w wx wy wz v r g b) x y z = dirtyAt w x y z)) ∧
      (lx = 15 →
        dirtyAt (setVoxel w wx wy wz v r g b) cx cy cz = some true ∧
        dirtyAt (setVoxel w wx wy wz v r g b) (cx + 1) cy cz =
          (dirtyAt w (cx + 1) cy cz).map (fun _ => true) ∧
        (∀ x y z : Int, ¬(x = cx ∧ y = cy ∧ z = cz) →
          ¬(x = cx + 1 ∧ y = cy ∧ z = cz) →
          dirtyAt (setVoxel w wx wy wz v r g b) x y z = dirtyAt w x y z))) ∧
    ((lx ≠ 0 ∧ lx ≠ 15 ∧ lz ≠ 0 ∧ lz ≠ 15) →
      (ly = 0 →
        dirtyAt (setVoxel w wx wy wz v r g b) cx cy cz = some true ∧
        dirtyAt (setVoxel w wx wy wz v r g b) cx (cy - 1) cz =
          (dirtyAt w cx (cy - 1) cz).map (fun _ => true) ∧
        (∀ x y z : Int, ¬(x = cx ∧ y = cy ∧ z = cz) →
          ¬(x = cx ∧ y = cy - 1 ∧ z = cz) →
          dirtyAt (setVoxel w wx wy wz v r g b) x y z = dirtyAt w x y z)) ∧
      (ly = 15 →
        dirtyAt (setVoxel w wx wy wz v r g b) cx cy cz = some true ∧
        dirtyAt (setVoxel w wx wy wz v r g b) cx (cy + 1) cz =
          (dirtyAt w cx (cy + 1) cz).map (fun _ => true) ∧
        (∀ x y z : Int, ¬(x = cx ∧ y = cy ∧ z = cz) →
          ¬(x = cx ∧ y = cy + 1 ∧ z = cz) →
          dirtyAt (setVoxel w wx wy wz v r g b) x y z = dirtyAt w x y z))) ∧
    ((lx ≠ 0 ∧ lx ≠ 15 ∧ ly ≠ 0 ∧ ly ≠ 15) →
      (lz = 0 →
        dirtyAt (setVoxel w wx wy wz v r g b) cx cy cz = some true ∧
        dirtyAt (setVoxel w wx wy wz v r g b) cx cy (cz - 1) =
          (dirtyAt w cx cy (cz - 1)).map (fun _ => true) ∧
        (∀ x y z : Int, ¬(x = cx ∧ y = cy ∧ z = cz) →
          ¬(x = cx ∧ y = cy ∧ z = cz - 1) →
          dirtyAt (setVoxel w wx wy wz v r g b) x y z = dirtyAt w x y z)) ∧
      (lz = 15 →
        dirtyAt (setVoxel w wx wy wz v r g b) cx cy cz = some true ∧
        dirtyAt (setVoxel w wx wy wz v r g b) cx cy (cz + 1) =
          (dirtyAt w cx cy (cz + 1)).map (fun _ => true) ∧
        (∀ x y z : Int, ¬(x = cx ∧ y = cy ∧ z = cz) →
          ¬(x = cx ∧ y = cy ∧ z = cz + 1) →
          dirtyAt (setVoxel w wx wy wz v r g b) x y z = dirtyAt w x y z))) := by
  refine ⟨?_, ?_, ?_, ?_⟩
  · rintro ⟨hlx, hly, hlz⟩
    subst hlx hly hlz
    refine ⟨⟨?_, ?_, ?_, ?_, ?_, ?_, ?_, ?_⟩, ?_⟩
    · simp only [setVoxel, hc, hl, hi]
      refine (dirtyAt_markChunkDirtyIf_skip ?_).trans ?_
      · try simp only [true_and, and_true, false_and, and_false]
        try omega
        try decide
      refine (dirtyAt_markChunkDirtyIf_skip ?_).trans ?_
      · try simp only [true_and, and_true, false_and, and_false]
        try omega
        try decide
      refine (dirtyAt_markChunkDirtyIf_skip ?_).trans ?_
      · try simp only [true_and, and_true, false_and, and_false]
        try omega
        try decide
      refine (dirtyAt_markChunkDirtyIf_skip ?_).trans ?_
      · try simp only [true_and, and_true, false_and, and_false]
        try omega
        try decide
      refine (dirtyAt_markChunkDirtyIf_skip ?_).trans ?_
      · try simp only [true_and, and_true, false_and, and_false]
        try omega
        try decide
      refine (dirtyAt_markChunkDirtyIf_skip ?_).trans ?_
      · try simp only [true_and, and_true, false_and, and_false]
        try omega
        try decide
      refine (dirtyAt_markChunkDirtyIf_skip ?_).trans ?_
      · try simp only [true_and, and_true, false_and, and_false]
        try omega
        try decide
      refine (dirtyAt_markChunkDirtyIf_skip ?_).trans ?_
      · try simp only [true_and, and_true, false_and, and_false]
        try omega
        try decide
      refine (dirtyAt_markChunkDirtyIf_skip ?_).trans ?_
      · try simp only [true_and, and_true, false_and, and_false]
        try omega
        try decide
      refine (dirtyAt_markChunkDirtyIf_skip ?_).trans ?_
      · try simp only [true_and, and_true, false_and, and_false]
        try omega
        try decide
      refine (dirtyAt_markChunkDirtyIf_skip ?_).trans ?_
      · try simp only [true_and, and_true, false_and, and_false]
        try omega
        try decide
      refine (dirtyAt_markChunkDirtyIf_skip ?_).trans ?_
      · try simp only [true_and, and_true, false_and, and_false]
        try omega
        try decide
      refine (dirtyAt_markChunkDirtyIf_skip ?_).trans ?_
      · try simp only [true_and, and_true, false_and, and_false]
        try omega
        try decide
      refine (dirtyAt_markChunkDirtyIf_skip ?_).trans ?_
      · try simp only [true_and, and_true, false_and, and_false]
        try omega
        try decide
      refine (dirtyAt_markChunkDirtyIf_skip ?_).trans ?_
      · try simp only [true_and, and_true, false_and, and_false]
        try omega
        try decide
      refine (dirtyAt_markChunkDirtyIf_skip ?_).trans ?_
      · try simp only [true_and, and_true, false_and, and_false]
        try omega
        try decide
      refine (dirtyAt_markChunkDirtyIf_skip ?_).trans ?_
      · try simp only [true_and, and_true, false_and, and_false]
        try omega
        try decide
      refine (dirtyAt_markChunkDirtyIf_skip ?_).trans ?_
      · try simp only [true_and, and_true, false_and, and_false]
        try omega
        try decide
      refine (dirtyAt_markChunkDirtyIf_skip ?_).trans ?_
      · try simp only [true_and, and_true, false_and, and_false]
        try omega
        try decide
      refine (dirtyAt_markChunkDirtyIf_skip ?_).trans ?_
      · try simp only [true_and, and_true, false_and, and_false]
        try omega
        try decide
      refine (dirtyAt_markChunkDirtyIf_skip ?_).trans ?_
      · try simp only [true_and, and_true, false_and, and_false]
        try omega
        try decide
      refine (dirtyAt_markChunkDirtyIf_skip ?_).trans ?_
      · try simp only [true_and, and_true, false_and, and_false]
        try omega
        try decide
      refine (dirtyAt_markChunkDirtyIf_skip ?_).trans ?_
      · try simp only [true_and, and_true, false_and, and_false]
        try omega
        try decide
      refine (dirtyAt_markChunkDirtyIf_skip ?_).trans ?_
      · try simp only [true_and, and_true, false_and, and_false]
        try omega
        try decide
      refine (dirtyAt_markChunkDirtyIf_skip ?_).trans ?_
      · try simp only [true_and, and_true, false_and, and_false]
        try omega
        try decide
      refine (dirtyAt_markChunkDirtyIf_skip ?_).trans ?_
      · try simp only [true_and, and_true, false_and, and_false]
        try omega
        try decide
      refine dirtyAt_update_self_hit hi _ rfl ?_
      exact ⟨rfl, rfl, rfl⟩
    · simp only [setVoxel, hc, hl, hi]
      refine (dirtyAt_markChunkDirtyIf_skip ?_).trans ?_
      · try simp only [true_and, and_true, false_and, and_false]
        try omega
        try decide
      refine (dirtyAt_markChunkDirtyIf_skip ?_).trans ?_
      · try simp only [true_and, and_true, false_and, and_false]
        try omega
        try decide
      refine (dirtyAt_markChunkDirtyIf_skip ?_).trans ?_
      · try simp only [true_and, and_true, false_and, and_false]
        try omega
        try decide
      refine (dirtyAt_markChunkDirtyIf_skip ?_).trans ?_
      · try simp only [true_and, and_true, false_and, and_false]
        try omega
        try decide
      refine (dirtyAt_markChunkDirtyIf_skip ?_).trans ?_
      · try simp only [true_and, and_true, false_and, and_false]
        try omega
        try decide
      refine (dirtyAt_markChunkDirtyIf_skip ?_).trans ?_
      · try simp only [true_and, and_true, false_and, and_false]
        try omega
        try decide
      refine (dirtyAt_markChunkDirtyIf_skip ?_).trans ?_
      · try simp only [true_and, and_true, false_and, and_false]
        try omega
        try decide
      refine (dirtyAt_markChunkDirtyIf_skip ?_).trans ?_
      · try simp only [true_and, and_true, false_and, and_false]
        try omega
        try decide
      refine (dirtyAt_markChunkDirtyIf_skip ?_).trans ?_
      · try simp only [true_and, and_true, false_and, and_false]
        try omega
        try decide
      refine (dirtyAt_markChunkDirtyIf_skip ?_).trans ?_
      · try simp only [true_and, and_true, false_and, and_false]
        try omega
        try decide
      refine (dirtyAt_markChunkDirtyIf_skip ?_).trans ?_
      · try simp only [true_and, and_true, false_and, and_false]
        try omega
        try decide
      refine (dirtyAt_markChunkDirtyIf_skip ?_).trans ?_
      · try simp only [true_and, and_true, false_and, and_false]
        try omega
        try decide
      refine (dirtyAt_markChunkDirtyIf_skip ?_).trans ?_
      · try simp only [true_and, and_true, false_and, and_false]
        try omega
        try decide
      refine (dirtyAt_markChunkDirtyIf_skip ?_).trans ?_
      · try simp only [true_and, and_true, false_and, and_false]
        try omega
        try decide
      refine (dirtyAt_markChunkDirtyIf_skip ?_).trans ?_
      · try simp only [true_and, and_true, false_and, and_false]
        try omega
        try decide
      refine (dirtyAt_markChunkDirtyIf_skip ?_).trans ?_
      · try simp only [true_and, and_true, false_and, and_false]
        try omega
        try decide
      refine (dirtyAt_markChunkDirtyIf_skip ?_).trans ?_
      · try simp only [true_and, and_true, false_and, and_false]
        try omega
        try decide
      refine (dirtyAt_markChunkDirtyIf_skip ?_).trans ?_
      · try simp only [true_and, and_true, false_and, and_false]
        try omega
        try decide
      refine (dirtyAt_markChunkDirtyIf_skip ?_).trans ?_
      · try simp only [true_and, and_true, false_and, and_false]
        try omega
        try decide
      refine (dirtyAt_markChunkDirtyIf_skip ?_).trans ?_
      · try simp only [true_and, and_true, false_and, and_false]
        try omega
        try decide
      refine (dirtyAt_markChunkDirtyIf_skip ?_).trans ?_
      · try simp only [true_and, and_true, false_and, and_false]
        try omega
        try decide
      refine (dirtyAt_markChunkDirtyIf_skip ?_).trans ?_
      · try simp only [true_and, and_true, false_and, and_false]
        try omega
        try decide
      refine (dirtyAt_markChunkDirtyIf_skip ?_).trans ?_
      · try simp only [true_and, and_true, false_and, and_false]
        try omega
        try decide
      refine (dirtyAt_markChunkDirtyIf_skip ?_).trans ?_
      · try simp only [true_and, and_true, false_and, and_false]
        try omega
        try decide
      refine (dirtyAt_markChunkDirtyIf_skip ?_).trans ?_
      · try simp only [true_and, and_true, false_and, and_false]
        try omega
        try decide
      refine (dirtyAt_markChunkDirtyIf_hit ?_).trans ?_
      · try simp only [true_and, and_true, false_and, and_false]
        try omega
        try decide
      rw [dirtyAt_map_true_update hi _ rfl]
    · simp only [setVoxel, hc, hl, hi]
      refine (dirtyAt_markChunkDirtyIf_skip ?_).trans ?_
      · try simp only [true_and, and_true, false_and, and_false]
        try omega
        try decide
      refine (dirtyAt_markChunkDirtyIf_skip ?_).trans ?_
      · try simp only [true_and, and_true, false_and, and_false]
        try omega
        try decide
      refine (dirtyAt_markChunkDirtyIf_skip ?_).trans ?_
      · try simp only [true_and, and_true, false_and, and_false]
        try omega
        try decide
      refine (dirtyAt_markChunkDirtyIf_skip ?_).trans ?_
      · try simp only [true_and, and_true, false_and, and_false]
        try omega
        try decide
      refine (dirtyAt_markChunkDirtyIf_skip ?_).trans ?_
      · try simp only [true_and, and_true, false_and, and_false]
        try omega
        try decide
      refine (dirtyAt_markChunkDirtyIf_skip ?_).trans ?_
      · try simp only [true_and, and_true, false_and, and_false]
        try omega
        try decide
      refine (dirtyAt_markChunkDirtyIf_skip ?_).trans ?_
      · try simp only [true_and, and_true, false_and, and_false]
        try omega
        try decide
      refine (dirtyAt_markChunkDirtyIf_skip ?_).trans ?_
      · try simp only [true_and, and_true, false_and, and_false]
        try omega
        try decide
      refine (dirtyAt_markChunkDirtyIf_skip ?_).trans ?_
      · try simp only [true_and, and_true, false_and, and_false]
        try omega
        try decide
      refine (dirtyAt_markChunkDirtyIf_skip ?_).trans ?_
      · try simp only [true_and, and_true, false_and, and_false]
        try omega
        try decide
      refine (dirtyAt_markChunkDirtyIf_skip ?_).trans ?_
      · try simp only [true_and, and_true, false_and, and_false]
        try omega
        try decide
      refine (dirtyAt_markChunkDirtyIf_skip ?_).trans ?_
      · try simp only [true_and, and_true, false_and, and_false]
        try omega
        try decide
      refine (dirtyAt_markChunkDirtyIf_skip ?_).trans ?_
      · try simp only [true_and, and_true, false_and, and_false]
        try omega
        try decide
      refine (dirtyAt_markChunkDirtyIf_skip ?_).trans ?_
      · try simp only [true_and, and_true, false_and, and_false]
        try omega
        try decide
      refine (dirtyAt_markChunkDirtyIf_skip ?_).trans ?_
      · try simp only [true_and, and_true, false_and, and_false]
        try omega
        try decide
      refine (dirtyAt_markChunkDirtyIf_skip ?_).trans ?_
      · try simp only [true_and, and_true, false_and, and_false]
        try omega
        try decide
      refine (dirtyAt_markChunkDirtyIf_skip ?_).trans ?_
      · try simp only [true_and, and_true, false_and, and_false]
        try omega
        try decide
      refine (dirtyAt_markChunkDirtyIf_skip ?_).trans ?_
      · try simp only [true_and, and_true, false_and, and_false]
        try omega
        try decide
      refine (dirtyAt_markChunkDirtyIf_skip ?_).trans ?_
      · try simp only [true_and, and_true, false_and, and_false]
        try omega
        try decide
      refine (dirtyAt_markChunkDirtyIf_skip ?_).trans ?_
      · try simp only [true_and, and_true, false_and, and_false]
        try omega
        try decide
      refine (dirtyAt_markChunkDirtyIf_skip ?_).trans ?_
      · try simp only [true_and, and_true, false_and, and_false]
        try omega
        try decide
      refine (dirtyAt_markChunkDirtyIf_skip ?_).trans ?_
      · try simp only [true_and, and_true, false_and, and_false]
        try omega
        try decide
      refine (dirtyAt_markChunkDirtyIf_skip ?_).trans ?_
      · try simp only [true_and, and_true, false_and, and_false]
        try omega
        try decide
      refine (dirtyAt_markChunkDirtyIf_hit ?_).trans ?_
      · try simp only [true_and, and_true, false_and, and_false]
        try omega
        try decide
      repeat rw [dirtyAt_map_true_markChunkDirtyIf]
      rw [dirtyAt_map_true_update hi _ rfl]
    · simp only [setVoxel, hc, hl, hi]
      refine (dirtyAt_markChunkDirtyIf_skip ?_).trans ?_
      · try simp only [true_and, and_true, false_and, and_false]
        try omega
        try decide
      refine (dirtyAt_markChunkDirtyIf_skip ?_).trans ?_
      · try simp only [true_and, and_true, false_and, and_false]
        try omega
        try decide
      refine (dirtyAt_markChunkDirtyIf_skip ?_).trans ?_
      · try simp only [true_and, and_true, false_and, and_false]
        try omega
        try decide
      refine (dirtyAt_markChunkDirtyIf_skip ?_).trans ?_
      · try simp only [true_and, and_true, false_and, and_false]
        try omega
        try decide
      refine (dirtyAt_markChunkDirtyIf_skip ?_).trans ?_
      · try simp only [true_and, and_true, false_and, and_false]
        try omega
        try decide
      refine (dirtyAt_markChunkDirtyIf_skip ?_).trans ?_
      · try simp only [true_and, and_true, false_and, and_false]
        try omega
        try decide
      refine (dirtyAt_markChunkDirtyIf_skip ?_).trans ?_
      · try simp only [true_and, and_true, false_and, and_false]
        try omega
        try decide
      refine (dirtyAt_markChunkDirtyIf_skip ?_).trans ?_
      · try simp only [true_and, and_true, false_and, and_false]
        try omega
        try decide
      refine (dirtyAt_markChunkDirtyIf_skip ?_).trans ?_
      · try simp only [true_and, and_true, false_and, and_false]
        try omega
        try decide
      refine (dirtyAt_markChunkDirtyIf_skip ?_).trans ?_
      · try simp only [true_and, and_true, false_and, and_false]
        try omega
        try decide
      refine (dirtyAt_markChunkDirtyIf_skip ?_).trans ?_
      · try simp only [true_and, and_true, false_and, and_false]
        try omega
        try decide
      refine (dirtyAt_markChunkDirtyIf_skip ?_).trans ?_
      · try simp only [true_and, and_true, false_and, and_false]
        try omega
        try decide
      refine (dirtyAt_markChunkDirtyIf_skip ?_).trans ?_
      · try simp only [true_and, and_true, false_and, and_false]
        try omega
        try decide
      refine (dirtyAt_markChunkDirtyIf_skip ?_).trans ?_
      · try simp only [true_and, and_true, false_and, and_false]
        try omega
        try decide
      refine (dirtyAt_markChunkDirtyIf_skip ?_).trans ?_
      · try simp only [true_and, and_true, false_and, and_false]
        try omega
        try decide
      refine (dirtyAt_markChunkDirtyIf_skip ?_).trans ?_
      · try simp only [true_and, and_true, false_and, and_false]
        try omega
        try decide
      refine (dirtyAt_markChunkDirtyIf_skip ?_).trans ?_
      · try simp only [true_and, and_true, false_and, and_false]
        try omega
        try decide
      refine (dirtyAt_markChunkDirtyIf_skip ?_).trans ?_
      · try simp only [true_and, and_true, false_and, and_false]
        try omega
        try decide
      refine (dirtyAt_markChunkDirtyIf_skip ?_).trans ?_
      · try simp only [true_and, and_true, false_and, and_false]
        try omega
        try decide
      refine (dirtyAt_markChunkDirtyIf_skip ?_).trans ?_
      · try simp only [true_and, and_true, false_and, and_false]
        try omega
        try decide
      refine (dirtyAt_markChunkDirtyIf_skip ?_).trans ?_
      · try simp only [true_and, and_true, false_and, and_false]
        try omega
        try decide
      refine (dirtyAt_markChunkDirtyIf_hit ?_).trans ?_
      · try simp only [true_and, and_true, false_and, and_false]
        try omega
        try decide
      repeat rw [dirtyAt_map_true_markChunkDirtyIf]
      rw [dirtyAt_map_true_update hi _ rfl]
    · simp only [setVoxel, hc, hl, hi]
      refine (dirtyAt_markChunkDirtyIf_skip ?_).trans ?_
      · try simp only [true_and, and_true, false_and, and_false]
        try omega
        try decide
      refine (dirtyAt_markChunkDirtyIf_skip ?_).trans ?_
      · try simp only [true_and, and_true, false_and, and_false]
        try omega
        try decide
      refine (dirtyAt_markChunkDirtyIf_skip ?_).trans ?_
      · try simp only [true_and, and_true, false_and, and_false]
        try omega
        try decide
      refine (dirtyAt_markChunkDirtyIf_skip ?_).trans ?_
      · try simp only [true_and, and_true, false_and, and_false]
        try omega
        try decide
      refine (dirtyAt_markChunkDirtyIf_skip ?_).trans ?_
      · try simp only [true_and, and_true, false_and, and_false]
        try omega
        try decide
      refine (dirtyAt_markChunkDirtyIf_skip ?_).trans ?_
      · try simp only [true_and, and_true, false_and, and_false]
        try omega
        try decide
      refine (dirtyAt_markChunkDirtyIf_skip ?_).trans ?_
      · try simp only [true_and, and_true, false_and, and_false]
        try omega
        try decide
      refine (dirtyAt_markChunkDirtyIf_skip ?_).trans ?_
      · try simp only [true_and, and_true, false_and, and_false]
        try omega
        try decide
      refine (dirtyAt_markChunkDirtyIf_skip ?_).trans ?_
      · try simp only [true_and, and_true, false_and, and_false]
        try omega
        try decide
      refine (dirtyAt_markChunkDirtyIf_skip ?_).trans ?_
      · try simp only [true_and, and_true, false_and, and_false]
        try omega
        try decide
      refine (dirtyAt_markChunkDirtyIf_skip ?_).trans ?_
      · try simp only [true_and, and_true, false_and, and_false]
        try omega
        try decide
      refine (dirtyAt_markChunkDirtyIf_skip ?_).trans ?_
      · try simp only [true_and, and_true, false_and, and_false]
        try omega
        try decide
      refine (dirtyAt_markChunkDirtyIf_skip ?_).trans ?_
      · try simp only [true_and, and_true, false_and, and_false]
        try omega
        try decide
      refine (dirtyAt_markChunkDirtyIf_skip ?_).trans ?_
      · try simp only [true_and, and_true, false_and, and_false]
        try omega
        try decide
      refine (dirtyAt_markChunkDirtyIf_skip ?_).trans ?_
      · try simp only [true_and, and_true, false_and, and_false]
        try omega
        try decide
      refine (dirtyAt_markChunkDirtyIf_skip ?_).trans ?_
      · try simp only [true_and, and_true, false_and, and_false]
        try omega
        try decide
      refine (dirtyAt_markChunkDirtyIf_skip ?_).trans ?_
      · try simp only [true_and, and_true, false_and, and_false]
        try omega
        try decide
      refine (dirtyAt_markChunkDirtyIf_skip ?_).trans ?_
      · try simp only [true_and, and_true, false_and, and_false]
        try omega
        try decide
      refine (dirtyAt_markChunkDirtyIf_skip ?_).trans ?_
      · try simp only [true_and, and_true, false_and, and_false]
        try omega
        try decide
      refine (dirtyAt_markChunkDirtyIf_hit ?_).trans ?_
      · try simp only [true_and, and_true, false_and, and_false]
        try omega
        try decide
      repeat rw [dirtyAt_map_true_markChunkDirtyIf]
      rw [dirtyAt_map_true_update hi _ rfl]
    · simp only [setVoxel, hc, hl, hi]
      refine (dirtyAt_markChunkDirtyIf_skip ?_).trans ?_
      · try simp only [true_and, and_true, false_and, and_false]
        try omega
        try decide
      refine (dirtyAt_markChunkDirtyIf_skip ?_).trans ?_
      · try simp only [true_and, and_true, false_and, and_false]
        try omega
        try decide
      refine (dirtyAt_markChunkDirtyIf_skip ?_).trans ?_
      · try simp only [true_and, and_true, false_and, and_false]
        try omega
        try decide
      refine (dirtyAt_markChunkDirtyIf_skip ?_).trans ?_
      · try simp only [true_and, and_true, false_and, and_false]
        try omega
        try decide
      refine (dirtyAt_markChunkDirtyIf_skip ?_).trans ?_
      · try simp only [true_and, and_true, false_and, and_false]
        try omega
        try decide
      refine (dirtyAt_markChunkDirtyIf_skip ?_).trans ?_
      · try simp only [true_and, and_true, false_and, and_false]
        try omega
        try decide
      refine (dirtyAt_markChunkDirtyIf_skip ?_).trans ?_
      · try simp only [true_and, and_true, false_and, and_false]
        try omega
        try decide
      refine (dirtyAt_markChunkDirtyIf_skip ?_).trans ?_
      · try simp only [true_and, and_true, false_and, and_false]
        try omega
        try decide
      refine (dirtyAt_markChunkDirtyIf_skip ?_).trans ?_
      · try simp only [true_and, and_true, false_and, and_false]
        try omega
        try decide
      refine (dirtyAt_markChunkDirtyIf_skip ?_).trans ?_
      · try simp only [true_and, and_true, false_and, and_false]
        try omega
        try decide
      refine (dirtyAt_markChunkDirtyIf_skip ?_).trans ?_
      · try simp only [true_and, and_true, false_and, and_false]
        try omega
        try decide
      refine (dirtyAt_markChunkDirtyIf_skip ?_).trans ?_
      · try simp only [true_and, and_true, false_and, and_false]
        try omega
        try decide
      refine (dirtyAt_markChunkDirtyIf_skip ?_).trans ?_
      · try simp only [true_and, and_true, false_and, and_false]
        try omega
        try decide
      refine (dirtyAt_markChunkDirtyIf_skip ?_).trans ?_
      · try simp only [true_and, and_true, false_and, and_false]
        try omega
        try decide
      refine (dirtyAt_markChunkDirtyIf_skip ?_).trans ?_
      · try simp only [true_and, and_true, false_and, and_false]
        try omega
        try decide
      refine (dirtyAt_markChunkDirtyIf_hit ?_).trans ?_
      · try simp only [true_and, and_true, false_and, and_false]
        try omega
        try decide
      repeat rw [dirtyAt_map_true_markChunkDirtyIf]
      rw [dirtyAt_map_true_update hi _ rfl]
    · simp only [setVoxel, hc, hl, hi]
      refine (dirtyAt_markChunkDirtyIf_skip ?_).trans ?_
      · try simp only [true_and, and_true, false_and, and_false]
        try omega
        try decide
      refine (dirtyAt_markChunkDirtyIf_skip ?_).trans ?_
      · try simp only [true_and, and_true, false_and, and_false]
        try omega
        try decide
      refine (dirtyAt_markChunkDirtyIf_skip ?_).trans ?_
      · try simp only [true_and, and_true, false_and, and_false]
        try omega
        try decide
      refine (dirtyAt_markChunkDirtyIf_skip ?_).trans ?_
      · try simp only [true_and, and_true, false_and, and_false]
        try omega
        try decide
      refine (dirtyAt_markChunkDirtyIf_skip ?_).trans ?_
      · try simp only [true_and, and_true, false_and, and_false]
        try omega
        try decide
      refine (dirtyAt_markChunkDirtyIf_skip ?_).trans ?_
      · try simp only [true_and, and_true, false_and, and_false]
        try omega
        try decide
      refine (dirtyAt_markChunkDirtyIf_skip ?_).trans ?_
      · try simp only [true_and, and_true, false_and, and_false]
        try omega
        try decide
      refine (dirtyAt_markChunkDirtyIf_skip ?_).trans ?_
      · try simp only [true_and, and_true, false_and, and_false]
        try omega
        try decide
      refine (dirtyAt_markChunkDirtyIf_skip ?_).trans ?_
      · try simp only [true_and, and_true, false_and, and_false]
        try omega
        try decide
      refine (dirtyAt_markChunkDirtyIf_skip ?_).trans ?_
      · try simp only [true_and, and_true, false_and, and_false]
        try omega
        try decide
      refine (dirtyAt_markChunkDirtyIf_skip ?_).trans ?_
      · try simp only [true_and, and_true, false_and, and_false]
        try omega
        try decide
      refine (dirtyAt_markChunkDirtyIf_hit ?_).trans ?_
      · try simp only [true_and, and_true, false_and, and_false]
        try omega
        try decide
      repeat rw [dirtyAt_map_true_markChunkDirtyIf]
      rw [dirtyAt_map_true_update hi _ rfl]
    · simp only [setVoxel, hc, hl, hi]
      refine (dirtyAt_markChunkDirtyIf_skip ?_).trans ?_
      · try simp only [true_and, and_true, false_and, and_false]
        try omega
        try decide
      refine (dirtyAt_markChunkDirtyIf_skip ?_).trans ?_
      · try simp only [true_and, and_true, false_and, and_false]
        try omega
        try decide
      refine (dirtyAt_markChunkDirtyIf_skip ?_).trans ?_
      · try simp only [true_and, and_true, false_and, and_false]
        try omega
        try decide
      refine (dirtyAt_markChunkDirtyIf_skip ?_).trans ?_
      · try simp only [true_and, and_true, false_and, and_false]
        try omega
        try decide
      refine (dirtyAt_markChunkDirtyIf_skip ?_).trans ?_
      · try simp only [true_and, and_true, false_and, and_false]
        try omega
        try decide
      refine (dirtyAt_markChunkDirtyIf_skip ?_).trans ?_
      · try simp only [true_and, and_true, false_and, and_false]
        try omega
        try decide
      refine (dirtyAt_markChunkDirtyIf_skip ?_).trans ?_
      · try simp only [true_and, and_true, false_and, and_false]
        try omega
        try decide
      refine (dirtyAt_markChunkDirtyIf_hit ?_).trans ?_
      · try simp only [true_and, and_true, false_and, and_false]
        try omega
        try decide
      repeat rw [dirtyAt_map_true_markChunkDirtyIf]
      rw [dirtyAt_map_true_update hi _ rfl]
    · intro x y z h1 h2 h3 h4 h5 h6 h7 h8
      simp only [setVoxel, hc, hl, hi]
      refine (dirtyAt_markChunkDirtyIf_skip ?_).trans ?_
      · try simp only [true_and, and_true, false_and, and_false]
        try omega
        try decide
      refine (dirtyAt_markChunkDirtyIf_skip ?_).trans ?_
      · try simp only [true_and, and_true, false_and, and_false]
        try omega
        try decide
      refine (dirtyAt_markChunkDirtyIf_skip ?_).trans ?_
      · try simp only [true_and, and_true, false_and, and_false]
        try omega
        try decide
      refine (dirtyAt_markChunkDirtyIf_skip ?_).trans ?_
      · try simp only [true_and, and_true, false_and, and_false]
        try omega
        try decide
      refine (dirtyAt_markChunkDirtyIf_skip ?_).trans ?_
      · try simp only [true_and, and_true, false_and, and_false]
        try omega
        try decide
      refine (dirtyAt_markChunkDirtyIf_skip ?_).trans ?_
      · try simp only [true_and, and_true, false_and, and_false]
        try omega
        try decide
      refine (dirtyAt_markChunkDirtyIf_skip ?_).trans ?_
      · try simp only [true_and, and_true, false_and, and_false]
        try omega
        try decide
      refine (dirtyAt_markChunkDirtyIf_skip ?_).trans ?_
      · try simp only [true_and, and_true, false_and, and_false]
        try omega
        try decide
      refine (dirtyAt_markChunkDirtyIf_skip ?_).trans ?_
      · try simp only [true_and, and_true, false_and, and_false]
        try omega
        try decide
      refine (dirtyAt_markChunkDirtyIf_skip ?_).trans ?_
      · try simp only [true_and, and_true, false_and, and_false]
        try omega
        try decide
      refine (dirtyAt_markChunkDirtyIf_skip ?_).trans ?_
      · try simp only [true_and, and_true, false_and, and_false]
        try omega
        try decide
      refine (dirtyAt_markChunkDirtyIf_skip ?_).trans ?_
      · try simp only [true_and, and_true, false_and, and_false]
        try omega
        try decide
      refine (dirtyAt_markChunkDirtyIf_skip ?_).trans ?_
      · try simp only [true_and, and_true, false_and, and_false]
        try omega
        try decide
      refine (dirtyAt_markChunkDirtyIf_skip ?_).trans ?_
      · try simp only [true_and, and_true, false_and, and_false]
        try omega
        try decide
      refine (dirtyAt_markChunkDirtyIf_skip ?_).trans ?_
      · try simp only [true_and, and_true, false_and, and_false]
        try omega
        try decide
      refine (dirtyAt_markChunkDirtyIf_skip ?_).trans ?_
      · try simp only [true_and, and_true, false_and, and_false]
        try omega
        try decide
      refine (dirtyAt_markChunkDirtyIf_skip ?_).trans ?_
      · try simp only [true_and, and_true, false_and, and_false]
        try omega
        try decide
      refine (dirtyAt_markChunkDirtyIf_skip ?_).trans ?_
      · try simp only [true_and, and_true, false_and, and_false]
        try omega
        try decide
      refine (dirtyAt_markChunkDirtyIf_skip ?_).trans ?_
      · try simp only [true_and, and_true, false_and, and_false]
        try omega
        try decide
      refine (dirtyAt_markChunkDirtyIf_skip ?_).trans ?_
      · try simp only [true_and, and_true, false_and, and_false]
        try omega
        try decide
      refine (dirtyAt_markChunkDirtyIf_skip ?_).trans ?_
      · try simp only [true_and, and_true, false_and, and_false]
        try omega
        try decide
      refine (dirtyAt_markChunkDirtyIf_skip ?_).trans ?_
      · try simp only [true_and, and_true, false_and, and_false]
        try omega
        try decide
      refine (dirtyAt_markChunkDirtyIf_skip ?_).trans ?_
      · try simp only [true_and, and_true, false_and, and_false]
        try omega
        try decide
      refine (dirtyAt_markChunkDirtyIf_skip ?_).trans ?_
      · try simp only [true_and, and_true, false_and, and_false]
        try omega
        try decide
      refine (dirtyAt_markChunkDirtyIf_skip ?_).trans ?_
      · try simp only [true_and, and_true, false_and, and_false]
        try omega
        try decide
      refine (dirtyAt_markChunkDirtyIf_skip ?_).trans ?_
      · try simp only [true_and, and_true, false_and, and_false]
        try omega
        try decide
      refine dirtyAt_update_self_skip hi _ rfl ?_
      omega
  · rintro ⟨hly0, hly15, hlz0, hlz15⟩
    constructor
    · intro hE
      subst hE
      refine ⟨?_, ?_, ?_⟩
      · simp only [setVoxel, hc, hl, hi]
        refine (dirtyAt_markChunkDirtyIf_skip ?_).trans ?_
        · try simp only [true_and, and_true, false_and, and_false]
          try omega
          try decide
        refine (dirtyAt_markChunkDirtyIf_skip ?_).trans ?_
        · try simp only [true_and, and_true, false_and, and_false]
          try omega
          try decide
        refine (dirtyAt_markChunkDirtyIf_skip ?_).trans ?_
        · try simp only [true_and, and_true, false_and, and_false]
          try omega
          try decide
        refine (dirtyAt_markChunkDirtyIf_skip ?_).trans ?_
        · try simp only [true_and, and_true, false_and, and_false]
          try omega
          try decide
        refine (dirtyAt_markChunkDirtyIf_skip ?_).trans ?_
        · try simp only [true_and, and_true, false_and, and_false]
          try omega
          try decide
        refine (dirtyAt_markChunkDirtyIf_skip ?_).trans ?_
        · try simp only [true_and, and_true, false_and, and_false]
          try omega
          try decide
        refine (dirtyAt_markChunkDirtyIf_skip ?_).trans ?_
        · try simp only [true_and, and_true, false_and, and_false]
          try omega
          try decide
        refine (dirtyAt_markChunkDirtyIf_skip ?_).trans ?_
        · try simp only [true_and, and_true, false_and, and_false]
          try omega
          try decide
        refine (dirtyAt_markChunkDirtyIf_skip ?_).trans ?_
        · try simp only [true_and, and_true, false_and, and_false]
          try omega
          try decide
        refine (dirtyAt_markChunkDirtyIf_skip ?_).trans ?_
        · try simp only [true_and, and_true, false_and, and_false]
          try omega
          try decide
        refine (dirtyAt_markChunkDirtyIf_skip ?_).trans ?_
        · try simp only [true_and, and_true, false_and, and_false]
          try omega
          try decide
        refine (dirtyAt_markChunkDirtyIf_skip ?_).trans ?_
        · try simp only [true_and, and_true, false_and, and_false]
          try omega
          try decide
        refine (dirtyAt_markChunkDirtyIf_skip ?_).trans ?_
        · try simp only [true_and, and_true, false_and, and_false]
          try omega
          try decide
        refine (dirtyAt_markChunkDirtyIf_skip ?_).trans ?_
        · try simp only [true_and, and_true, false_and, and_false]
          try omega
          try decide
        refine (dirtyAt_markChunkDirtyIf_skip ?_).trans ?_
        · try simp only [true_and, and_true, false_and, and_false]
          try omega
          try decide
        refine (dirtyAt_markChunkDirtyIf_skip ?_).trans ?_
        · try simp only [true_and, and_true, false_and, and_false]
          try omega
          try decide
        refine (dirtyAt_markChunkDirtyIf_skip ?_).trans ?_
        · try simp only [true_and, and_true, false_and, and_false]
          try omega
          try decide
        refine (dirtyAt_markChunkDirtyIf_skip ?_).trans ?_
        · try simp only [true_and, and_true, false_and, and_false]
          try omega
          try decide
        refine (dirtyAt_markChunkDirtyIf_skip ?_).trans ?_
        · try simp only [true_and, and_true, false_and, and_false]
          try omega
          try decide
        refine (dirtyAt_markChunkDirtyIf_skip ?_).trans ?_
        · try simp only [true_and, and_true, false_and, and_false]
          try omega
          try decide
        refine (dirtyAt_markChunkDirtyIf_skip ?_).trans ?_
        · try simp only [true_and, and_true, false_and, and_false]
          try omega
          try decide
        refine (dirtyAt_markChunkDirtyIf_skip ?_).trans ?_
        · try simp only [true_and, and_true, false_and, and_false]
          try omega
          try decide
        refine (dirtyAt_markChunkDirtyIf_skip ?_).trans ?_
        · try simp only [true_and, and_true, false_and, and_false]
          try omega
          try decide
        refine (dirtyAt_markChunkDirtyIf_skip ?_).trans ?_
        · try simp only [true_and, and_true, false_and, and_false]
          try omega
          try decide
        refine (dirtyAt_markChunkDirtyIf_skip ?_).trans ?_
        · try simp only [true_and, and_true, false_and, and_false]
          try omega
          try decide
        refine (dirtyAt_markChunkDirtyIf_skip ?_).trans ?_
        · try simp only [true_and, and_true, false_and, and_false]
          try omega
          try decide
        refine dirtyAt_update_self_hit hi _ rfl ?_
        exact ⟨rfl, rfl, rfl⟩
      · simp only [setVoxel, hc, hl, hi]
        refine (dirtyAt_markChunkDirtyIf_skip ?_).trans ?_
        · try simp only [true_and, and_true, false_and, and_false]
          try omega
          try decide
        refine (dirtyAt_markChunkDirtyIf_skip ?_).trans ?_
        · try simp only [true_and, and_true, false_and, and_false]
          try omega
          try decide
        refine (dirtyAt_markChunkDirtyIf_skip ?_).trans ?_
        · try simp only [true_and, and_true, false_and, and_false]
          try omega
          try decide
        refine (dirtyAt_markChunkDirtyIf_skip ?_).trans ?_
        · try simp only [true_and, and_true, false_and, and_false]
          try omega
          try decide
        refine (dirtyAt_markChunkDirtyIf_skip ?_).trans ?_
        · try simp only [true_and, and_true, false_and, and_false]
          try omega
          try decide
        refine (dirtyAt_markChunkDirtyIf_skip ?_).trans ?_
        · try simp only [true_and, and_true, false_and, and_false]
          try omega
          try decide
        refine (dirtyAt_markChunkDirtyIf_skip ?_).trans ?_
        · try simp only [true_and, and_true, false_and, and_false]
          try omega
          try decide
        refine (dirtyAt_markChunkDirtyIf_skip ?_).trans ?_
        · try simp only [true_and, and_true, false_and, and_false]
          try omega
          try decide
        refine (dirtyAt_markChunkDirtyIf_skip ?_).trans ?_
        · try simp only [true_and, and_true, false_and, and_false]
          try omega
          try decide
        refine (dirtyAt_markChunkDirtyIf_skip ?_).trans ?_
        · try simp only [true_and, and_true, false_and, and_false]
          try omega
          try decide
        refine (dirtyAt_markChunkDirtyIf_skip ?_).trans ?_
        · try simp only [true_and, and_true, false_and, and_false]
          try omega
          try decide
        refine (dirtyAt_markChunkDirtyIf_skip ?_).trans ?_
        · try simp only [true_and, and_true, false_and, and_false]
          try omega
          try decide
        refine (dirtyAt_markChunkDirtyIf_skip ?_).trans ?_
        · try simp only [true_and, and_true, false_and, and_false]
          try omega
          try decide
        refine (dirtyAt_markChunkDirtyIf_skip ?_).trans ?_
        · try simp only [true_and, and_true, false_and, and_false]
          try omega
          try decide
        refine (dirtyAt_markChunkDirtyIf_skip ?_).trans ?_
        · try simp only [true_and, and_true, false_and, and_false]
          try omega
          try decide
        refine (dirtyAt_markChunkDirtyIf_skip ?_).trans ?_
        · try simp only [true_and, and_true, false_and, and_false]
          try omega
          try decide
        refine (dirtyAt_markChunkDirtyIf_skip ?_).trans ?_
        · try simp only [true_and, and_true, false_and, and_false]
          try omega
          try decide
        refine (dirtyAt_markChunkDirtyIf_skip ?_).trans ?_
        · try simp only [true_and, and_true, false_and, and_false]
          try omega
          try decide
        refine (dirtyAt_markChunkDirtyIf_skip ?_).trans ?_
        · try simp only [true_and, and_true, false_and, and_false]
          try omega
          try decide
        refine (dirtyAt_markChunkDirtyIf_skip ?_).trans ?_
        · try simp only [true_and, and_true, false_and, and_false]
          try omega
          try decide
        refine (dirtyAt_markChunkDirtyIf_skip ?_).trans ?_
        · try simp only [true_and, and_true, false_and, and_false]
          try omega
          try decide
        refine (dirtyAt_markChunkDirtyIf_skip ?_).trans ?_
        · try simp only [true_and, and_true, false_and, and_false]
          try omega
          try decide
        refine (dirtyAt_markChunkDirtyIf_skip ?_).trans ?_
        · try simp only [true_and, and_true, false_and, and_false]
          try omega
          try decide
        refine (dirtyAt_markChunkDirtyIf_skip ?_).trans ?_
        · try simp only [true_and, and_true, false_and, and_false]
          try omega
          try decide
        refine (dirtyAt_markChunkDirtyIf_skip ?_).trans ?_
        · try simp only [true_and, and_true, false_and, and_false]
          try omega
          try decide
        refine (dirtyAt_markChunkDirtyIf_hit ?_).trans ?_
        · try simp only [true_and, and_true, false_and, and_false]
          try omega
          try decide
        rw [dirtyAt_map_true_update hi _ rfl]
      · intro x y z h1 h2
        simp only [setVoxel, hc, hl, hi]
        refine (dirtyAt_markChunkDirtyIf_skip ?_).trans ?_
        · try simp only [true_and, and_true, false_and, and_false]
          try omega
          try decide
        refine (dirtyAt_markChunkDirtyIf_skip ?_).trans ?_
        · try simp only [true_and, and_true, false_and, and_false]
          try omega
          try decide
        refine (dirtyAt_markChunkDirtyIf_skip ?_).trans ?_
        · try simp only [true_and, and_true, false_and, and_false]
          try omega
          try decide
        refine (dirtyAt_markChunkDirtyIf_skip ?_).trans ?_
        · try simp only [true_and, and_true, false_and, and_false]
          try omega
          try decide
        refine (dirtyAt_markChunkDirtyIf_skip ?_).trans ?_
        · try simp only [true_and, and_true, false_and, and_false]
          try omega
          try decide
        refine (dirtyAt_markChunkDirtyIf_skip ?_).trans ?_
        · try simp only [true_and, and_true, false_and, and_false]
          try omega
          try decide
        refine (dirtyAt_markChunkDirtyIf_skip ?_).trans ?_
        · try simp only [true_and, and_true, false_and, and_false]
          try omega
          try decide
        refine (dirtyAt_markChunkDirtyIf_skip ?_).trans ?_
        · try simp only [true_and, and_true, false_and, and_false]
          try omega
          try decide
        refine (dirtyAt_markChunkDirtyIf_skip ?_).trans ?_
        · try simp only [true_and, and_true, false_and, and_false]
          try omega
          try decide
        refine (dirtyAt_markChunkDirtyIf_skip ?_).trans ?_
        · try simp only [true_and, and_true, false_and, and_false]
          try omega
          try decide
        refine (dirtyAt_markChunkDirtyIf_skip ?_).trans ?_
        · try simp only [true_and, and_true, false_and, and_false]
          try omega
          try decide
        refine (dirtyAt_markChunkDirtyIf_skip ?_).trans ?_
        · try simp only [true_and, and_true, false_and, and_false]
          try omega
          try decide
        refine (dirtyAt_markChunkDirtyIf_skip ?_).trans ?_
        · try simp only [true_and, and_true, false_and, and_false]
          try omega
          try decide
        refine (dirtyAt_markChunkDirtyIf_skip ?_).trans ?_
        · try simp only [true_and, and_true, false_and, and_false]
          try omega
          try decide
        refine (dirtyAt_markChunkDirtyIf_skip ?_).trans ?_
        · try simp only [true_and, and_true, false_and, and_false]
          try omega
          try decide
        refine (dirtyAt_markChunkDirtyIf_skip ?_).trans ?_
        · try simp only [true_and, and_true, false_and, and_false]
          try omega
          try decide
        refine (dirtyAt_markChunkDirtyIf_skip ?_).trans ?_
        · try simp only [true_and, and_true, false_and, and_false]
          try omega
          try decide
        refine (dirtyAt_markChunkDirtyIf_skip ?_).trans ?_
        · try simp only [true_and, and_true, false_and, and_false]
          try omega
          try decide
        refine (dirtyAt_markChunkDirtyIf_skip ?_).trans ?_
        · try simp only [true_and, and_true, false_and, and_false]
          try omega
          try decide
        refine (dirtyAt_markChunkDirtyIf_skip ?_).trans ?_
        · try simp only [true_and, and_true, false_and, and_false]
          try omega
          try decide
        refine (dirtyAt_markChunkDirtyIf_skip ?_).trans ?_
        · try simp only [true_and, and_true, false_and, and_false]
          try omega
          try decide
        refine (dirtyAt_markChunkDirtyIf_skip ?_).trans ?_
        · try simp only [true_and, and_true, false_and, and_false]
          try omega
          try decide
        refine (dirtyAt_markChunkDirtyIf_skip ?_).trans ?_
        · try simp only [true_and, and_true, false_and, and_false]
          try omega
          try decide
        refine (dirtyAt_markChunkDirtyIf_skip ?_).trans ?_
        · try simp only [true_and, and_true, false_and, and_false]
          try omega
          try decide
        refine (dirtyAt_markChunkDirtyIf_skip ?_).trans ?_
        · try simp only [true_and, and_true, false_and, and_false]
          try omega
          try decide
        refine (dirtyAt_markChunkDirtyIf_skip ?_).trans ?_
        · try simp only [true_and, and_true, false_and, and_false]
          try omega
          try decide
        refine dirtyAt_update_self_skip hi _ rfl ?_
        omega
    · intro hE
      subst hE
      refine ⟨?_, ?_, ?_⟩
      · simp only [setVoxel, hc, hl, hi]
        refine (dirtyAt_markChunkDirtyIf_skip ?_).trans ?_
        · try simp only [true_and, and_true, false_and, and_false]
          try omega
          try decide
        refine (dirtyAt_markChunkDirtyIf_skip ?_).trans ?_
        · try simp only [true_and, and_true, false_and, and_false]
          try omega
          try decide
        refine (dirtyAt_markChunkDirtyIf_skip ?_).trans ?_
        · try simp only [true_and, and_true, false_and, and_false]
          try omega
          try decide
        refine (dirtyAt_markChunkDirtyIf_skip ?_).trans ?_
        · try simp only [true_and, and_true, false_and, and_false]
          try omega
          try decide
        refine (dirtyAt_markChunkDirtyIf_skip ?_).trans ?_
        · try simp only [true_and, and_true, false_and, and_false]
          try omega
          try decide
        refine (dirtyAt_markChunkDirtyIf_skip ?_).trans ?_
        · try simp only [true_and, and_true, false_and, and_false]
          try omega
          try decide
        refine (dirtyAt_markChunkDirtyIf_skip ?_).trans ?_
        · try simp only [true_and, and_true, false_and, and_false]
          try omega
          try decide
        refine (dirtyAt_markChunkDirtyIf_skip ?_).trans ?_
        · try simp only [true_and, and_true, false_and, and_false]
          try omega
          try decide
        refine (dirtyAt_markChunkDirtyIf_skip ?_).trans ?_
        · try simp only [true_and, and_true, false_and, and_false]
          try omega
          try decide
        refine (dirtyAt_markChunkDirtyIf_skip ?_).trans ?_
        · try simp only [true_and, and_true, false_and, and_false]
          try omega
          try decide
        refine (dirtyAt_markChunkDirtyIf_skip ?_).trans ?_
        · try simp only [true_and, and_true, false_and, and_false]
          try omega
          try decide
        refine (dirtyAt_markChunkDirtyIf_skip ?_).trans ?_
        · try simp only [true_and, and_true, false_and, and_false]
          try omega
          try decide
        refine (dirtyAt_markChunkDirtyIf_skip ?_).trans ?_
        · try simp only [true_and, and_true, false_and, and_false]
          try omega
          try decide
        refine (dirtyAt_markChunkDirtyIf_skip ?_).trans ?_
        · try simp only [true_and, and_true, false_and, and_false]
          try omega
          try decide
        refine (dirtyAt_markChunkDirtyIf_skip ?_).trans ?_
        · try simp only [true_and, and_true, false_and, and_false]
          try omega
          try decide
        refine (dirtyAt_markChunkDirtyIf_skip ?_).trans ?_
        · try simp only [true_and, and_true, false_and, and_false]
          try omega
          try decide
        refine (dirtyAt_markChunkDirtyIf_skip ?_).trans ?_
        · try simp only [true_and, and_true, false_and, and_false]
          try omega
          try decide
        refine (dirtyAt_markChunkDirtyIf_skip ?_).trans ?_
        · try simp only [true_and, and_true, false_and, and_false]
          try omega
          try decide
        refine (dirtyAt_markChunkDirtyIf_skip ?_).trans ?_
        · try simp only [true_and, and_true, false_and, and_false]
          try omega
          try decide
        refine (dirtyAt_markChunkDirtyIf_skip ?_).trans ?_
        · try simp only [true_and, and_true, false_and, and_false]
          try omega
          try decide
        refine (dirtyAt_markChunkDirtyIf_skip ?_).trans ?_
        · try simp only [true_and, and_true, false_and, and_false]
          try omega
          try decide
        refine (dirtyAt_markChunkDirtyIf_skip ?_).trans ?_
        · try simp only [true_and, and_true, false_and, and_false]
          try omega
          try decide
        refine (dirtyAt_markChunkDirtyIf_skip ?_).trans ?_
        · try simp only [true_and, and_true, false_and, and_false]
          try omega
          try decide
        refine (dirtyAt_markChunkDirtyIf_skip ?_).trans ?_
        · try simp only [true_and, and_true, false_and, and_false]
          try omega
          try decide
        refine (dirtyAt_markChunkDirtyIf_skip ?_).trans ?_
        · try simp only [true_and, and_true, false_and, and_false]
          try omega
          try decide
        refine (dirtyAt_markChunkDirtyIf_skip ?_).trans ?_
        · try simp only [true_and, and_true, false_and, and_false]
          try omega
          try decide
        refine dirtyAt_update_self_hit hi _ rfl ?_
        exact ⟨rfl, rfl, rfl⟩
      · simp only [setVoxel, hc, hl, hi]
        refine (dirtyAt_markChunkDirtyIf_skip ?_).trans ?_
        · try simp only [true_and, and_true, false_and, and_false]
          try omega
          try decide
        refine (dirtyAt_markChunkDirtyIf_skip ?_).trans ?_
        · try simp only [true_and, and_true, false_and, and_false]
          try omega
          try decide
        refine (dirtyAt_markChunkDirtyIf_skip ?_).trans ?_
        · try simp only [true_and, and_true, false_and, and_false]
          try omega
          try decide
        refine (dirtyAt_markChunkDirtyIf_skip ?_).trans ?_
        · try simp only [true_and, and_true, false_and, and_false]
          try omega
          try decide
        refine (dirtyAt_markChunkDirtyIf_skip ?_).trans ?_
        · try simp only [true_and, and_true, false_and, and_false]
          try omega
          try decide
        refine (dirtyAt_markChunkDirtyIf_skip ?_).trans ?_
        · try simp only [true_and, and_true, false_and, and_false]
          try omega
          try decide
        refine (dirtyAt_markChunkDirtyIf_skip ?_).trans ?_
        · try simp only [true_and, and_true, false_and, and_false]
          try omega
          try decide
        refine (dirtyAt_markChunkDirtyIf_skip ?_).trans ?_
        · try simp only [true_and, and_true, false_and, and_false]
          try omega
          try decide
        refine (dirtyAt_markChunkDirtyIf_skip ?_).trans ?_
        · try simp only [true_and, and_true, false_and, and_false]
          try omega
          try decide
        refine (dirtyAt_markChunkDirtyIf_skip ?_).trans ?_
        · try simp only [true_and, and_true, false_and, and_false]
          try omega
          try decide
        refine (dirtyAt_markChunkDirtyIf_skip ?_).trans ?_
        · try simp only [true_and, and_true, false_and, and_false]
          try omega
          try decide
        refine (dirtyAt_markChunkDirtyIf_skip ?_).trans ?_
        · try simp only [true_and, and_true, false_and, and_false]
          try omega
          try decide
        refine (dirtyAt_markChunkDirtyIf_skip ?_).trans ?_
        · try simp only [true_and, and_true, false_and, and_false]
          try omega
          try decide
        refine (dirtyAt_markChunkDirtyIf_skip ?_).trans ?_
        · try simp only [true_and, and_true, false_and, and_false]
          try omega
          try decide
        refine (dirtyAt_markChunkDirtyIf_skip ?_).trans ?_
        · try simp only [true_and, and_true, false_and, and_false]
          try omega
          try decide
        refine (dirtyAt_markChunkDirtyIf_skip ?_).trans ?_
        · try simp only [true_and, and_true, false_and, and_false]
          try omega
          try decide
        refine (dirtyAt_markChunkDirtyIf_skip ?_).trans ?_
        · try simp only [true_and, and_true, false_and, and_false]
          try omega
          try decide
        refine (dirtyAt_markChunkDirtyIf_skip ?_).trans ?_
        · try simp only [true_and, and_true, false_and, and_false]
          try omega
          try decide
        refine (dirtyAt_markChunkDirtyIf_skip ?_).trans ?_
        · try simp only [true_and, and_true, false_and, and_false]
          try omega
          try decide
        refine (dirtyAt_markChunkDirtyIf_skip ?_).trans ?_
        · try simp only [true_and, and_true, false_and, and_false]
          try omega
          try decide
        refine (dirtyAt_markChunkDirtyIf_skip ?_).trans ?_
        · try simp only [true_and, and_true, false_and, and_false]
          try omega
          try decide
        refine (dirtyAt_markChunkDirtyIf_skip ?_).trans ?_
        · try simp only [true_and, and_true, false_and, and_false]
          try omega
          try decide
        refine (dirtyAt_markChunkDirtyIf_skip ?_).trans ?_
        · try simp only [true_and, and_true, false_and, and_false]
          try omega
          try decide
        refine (dirtyAt_markChunkDirtyIf_skip ?_).trans ?_
        · try simp only [true_and, and_true, false_and, and_false]
          try omega
          try decide
        refine (dirtyAt_markChunkDirtyIf_hit ?_).trans ?_
        · try simp only [true_and, and_true, false_and, and_false]
          try omega
          try decide
        repeat rw [dirtyAt_map_true_markChunkDirtyIf]
        rw [dirtyAt_map_true_update hi _ rfl]
      · intro x y z h1 h2
        simp only [setVoxel, hc, hl, hi]
        refine (dirtyAt_markChunkDirtyIf_skip ?_).trans ?_
        · try simp only [true_and, and_true, false_and, and_false]
          try omega
          try decide
        refine (dirtyAt_markChunkDirtyIf_skip ?_).trans ?_
        · try simp only [true_and, and_true, false_and, and_false]
          try omega
          try decide
        refine (dirtyAt_markChunkDirtyIf_skip ?_).trans ?_
        · try simp only [true_and, and_true, false_and, and_false]
          try omega
          try decide
        refine (dirtyAt_markChunkDirtyIf_skip ?_).trans ?_
        · try simp only [true_and, and_true, false_and, and_false]
          try omega
          try decide
        refine (dirtyAt_markChunkDirtyIf_skip ?_).trans ?_
        · try simp only [true_and, and_true, false_and, and_false]
          try omega
          try decide
        refine (dirtyAt_markChunkDirtyIf_skip ?_).trans ?_
        · try simp only [true_and, and_true, false_and, and_false]
          try omega
          try decide
        refine (dirtyAt_markChunkDirtyIf_skip ?_).trans ?_
        · try simp only [true_and, and_true, false_and, and_false]
          try omega
          try decide
        refine (dirtyAt_markChunkDirtyIf_skip ?_).trans ?_
        · try simp only [true_and, and_true, false_and, and_false]
          try omega
          try decide
        refine (dirtyAt_markChunkDirtyIf_skip ?_).trans ?_
        · try simp only [true_and, and_true, false_and, and_false]
          try omega
          try decide
        refine (dirtyAt_markChunkDirtyIf_skip ?_).trans ?_
        · try simp only [true_and, and_true, false_and, and_false]
          try omega
          try decide
        refine (dirtyAt_markChunkDirtyIf_skip ?_).trans ?_
        · try simp only [true_and, and_true, false_and, and_false]
          try omega
          try decide
        refine (dirtyAt_markChunkDirtyIf_skip ?_).trans ?_
        · try simp only [true_and, and_true, false_and, and_false]
          try omega
          try decide
        refine (dirtyAt_markChunkDirtyIf_skip ?_).trans ?_
        · try simp only [true_and, and_true, false_and, and_false]
          try omega
          try decide
        refine (dirtyAt_markChunkDirtyIf_skip ?_).trans ?_
        · try simp only [true_and, and_true, false_and, and_false]
          try omega
          try decide
        refine (dirtyAt_markChunkDirtyIf_skip ?_).trans ?_
        · try simp only [true_and, and_true, false_and, and_false]
          try omega
          try decide
        refine (dirtyAt_markChunkDirtyIf_skip ?_).trans ?_
        · try simp only [true_and, and_true, false_and, and_false]
          try omega
          try decide
        refine (dirtyAt_markChunkDirtyIf_skip ?_).trans ?_
        · try simp only [true_and, and_true, false_and, and_false]
          try omega
          try decide
        refine (dirtyAt_markChunkDirtyIf_skip ?_).trans ?_
        · try simp only [true_and, and_true, false_and, and_false]
          try omega
          try decide
        refine (dirtyAt_markChunkDirtyIf_skip ?_).trans ?_
        · try simp only [true_and, and_true, false_and, and_false]
          try omega
          try decide
        refine (dirtyAt_markChunkDirtyIf_skip ?_).trans ?_
        · try simp only [true_and, and_true, false_and, and_false]
          try omega
          try decide
        refine (dirtyAt_markChunkDirtyIf_skip ?_).trans ?_
        · try simp only [true_and, and_true, false_and, and_false]
          try omega
          try decide
        refine (dirtyAt_markChunkDirtyIf_skip ?_).trans ?_
        · try simp only [true_and, and_true, false_and, and_false]
          try omega
          try decide
        refine (dirtyAt_markChunkDirtyIf_skip ?_).trans ?_
        · try simp only [true_and, and_true, false_and, and_false]
          try omega
          try decide
        refine (dirtyAt_markChunkDirtyIf_skip ?_).trans ?_
        · try simp only [true_and, and_true, false_and, and_false]
          try omega
          try decide
        refine (dirtyAt_markChunkDirtyIf_skip ?_).trans ?_
        · try simp only [true_and, and_true, false_and, and_false]
          try omega
          try decide
        refine (dirtyAt_markChunkDirtyIf_skip ?_).trans ?_
        · try simp only [true_and, and_true, false_and, and_false]
          try omega
          try decide
        refine dirtyAt_update_self_skip hi _ rfl ?_
        omega
  · rintro ⟨hlx0, hlx15, hlz0, hlz15⟩
    constructor
    · intro hE
      subst hE
      refine ⟨?_, ?_, ?_⟩
      · simp only [setVoxel, hc, hl, hi]
        refine (dirtyAt_markChunkDirtyIf_skip ?_).trans ?_
        · try simp only [true_and, and_true, false_and, and_false]
          try omega
          try decide
        refine (dirtyAt_markChunkDirtyIf_skip ?_).trans ?_
        · try simp only [true_and, and_true, false_and, and_false]
          try omega
          try decide
        refine (dirtyAt_markChunkDirtyIf_skip ?_).trans ?_
        · try simp only [true_and, and_true, false_and, and_false]
          try omega
          try decide
        refine (dirtyAt_markChunkDirtyIf_skip ?_).trans ?_
        · try simp only [true_and, and_true, false_and, and_false]
          try omega
          try decide
        refine (dirtyAt_markChunkDirtyIf_skip ?_).trans ?_
        · try simp only [true_and, and_true, false_and, and_false]
          try omega
          try decide
        refine (dirtyAt_markChunkDirtyIf_skip ?_).trans ?_
        · try simp only [true_and, and_true, false_and, and_false]
          try omega
          try decide
        refine (dirtyAt_markChunkDirtyIf_skip ?_).trans ?_
        · try simp only [true_and, and_true, false_and, and_false]
          try omega
          try decide
        refine (dirtyAt_markChunkDirtyIf_skip ?_).trans ?_
        · try simp only [true_and, and_true, false_and, and_false]
          try omega
          try decide
        refine (dirtyAt_markChunkDirtyIf_skip ?_).trans ?_
        · try simp only [true_and, and_true, false_and, and_false]
          try omega
          try decide
        refine (dirtyAt_markChunkDirtyIf_skip ?_).trans ?_
        · try simp only [true_and, and_true, false_and, and_false]
          try omega
          try decide
        refine (dirtyAt_markChunkDirtyIf_skip ?_).trans ?_
        · try simp only [true_and, and_true, false_and, and_false]
          try omega
          try decide
        refine (dirtyAt_markChunkDirtyIf_skip ?_).trans ?_
        · try simp only [true_and, and_true, false_and, and_false]
          try omega
          try decide
        refine (dirtyAt_markChunkDirtyIf_skip ?_).trans ?_
        · try simp only [true_and, and_true, false_and, and_false]
          try omega
          try decide
        refine (dirtyAt_markChunkDirtyIf_skip ?_).trans ?_
        · try simp only [true_and, and_true, false_and, and_false]
          try omega
          try decide
        refine (dirtyAt_markChunkDirtyIf_skip ?_).trans ?_
        · try simp only [true_and, and_true, false_and, and_false]
          try omega
          try decide
        refine (dirtyAt_markChunkDirtyIf_skip ?_).trans ?_
        · try simp only [true_and, and_true, false_and, and_false]
          try omega
          try decide
        refine (dirtyAt_markChunkDirtyIf_skip ?_).trans ?_
        · try simp only [true_and, and_true, false_and, and_false]
          try omega
          try decide
        refine (dirtyAt_markChunkDirtyIf_skip ?_).trans ?_
        · try simp only [true_and, and_true, false_and, and_false]
          try omega
          try decide
        refine (dirtyAt_markChunkDirtyIf_skip ?_).trans ?_
        · try simp only [true_and, and_true, false_and, and_false]
          try omega
          try decide
        refine (dirtyAt_markChunkDirtyIf_skip ?_).trans ?_
        · try simp only [true_and, and_true, false_and, and_false]
          try omega
          try decide
        refine (dirtyAt_markChunkDirtyIf_skip ?_).trans ?_
        · try simp only [true_and, and_true, false_and, and_false]
          try omega
          try decide
        refine (dirtyAt_markChunkDirtyIf_skip ?_).trans ?_
        · try simp only [true_and, and_true, false_and, and_false]
          try omega
          try decide
        refine (dirtyAt_markChunkDirtyIf_skip ?_).trans ?_
        · try simp only [true_and, and_true, false_and, and_false]
          try omega
          try decide
        refine (dirtyAt_markChunkDirtyIf_skip ?_).trans ?_
        · try simp only [true_and, and_true, false_and, and_false]
          try omega
          try decide
        refine (dirtyAt_markChunkDirtyIf_skip ?_).trans ?_
        · try simp only [true_and, and_true, false_and, and_false]
          try omega
          try decide
        refine (dirtyAt_markChunkDirtyIf_skip ?_).trans ?_
        · try simp only [true_and, and_true, false_and, and_false]
          try omega
          try decide
        refine dirtyAt_update_self_hit hi _ rfl ?_
        exact ⟨rfl, rfl, rfl⟩
      · simp only [setVoxel, hc, hl, hi]
        refine (dirtyAt_markChunkDirtyIf_skip ?_).trans ?_
        · try simp only [true_and, and_true, false_and, and_false]
          try omega
          try decide
        refine (dirtyAt_markChunkDirtyIf_skip ?_).trans ?_
        · try simp only [true_and, and_true, false_and, and_false]
          try omega
          try decide
        refine (dirtyAt_markChunkDirtyIf_skip ?_).trans ?_
        · try simp only [true_and, and_true, false_and, and_false]
          try omega
          try decide
        refine (dirtyAt_markChunkDirtyIf_skip ?_).trans ?_
        · try simp only [true_and, and_true, false_and, and_false]
          try omega
          try decide
        refine (dirtyAt_markChunkDirtyIf_skip ?_).trans ?_
        · try simp only [true_and, and_true, false_and, and_false]
          try omega
          try decide
        refine (dirtyAt_markChunkDirtyIf_skip ?_).trans ?_
        · try simp only [true_and, and_true, false_and, and_false]
          try omega
          try decide
        refine (dirtyAt_markChunkDirtyIf_skip ?_).trans ?_
        · try simp only [true_and, and_true, false_and, and_false]
          try omega
          try decide
        refine (dirtyAt_markChunkDirtyIf_skip ?_).trans ?_
        · try simp only [true_and, and_true, false_and, and_false]
          try omega
          try decide
        refine (dirtyAt_markChunkDirtyIf_skip ?_).trans ?_
        · try simp only [true_and, and_true, false_and, and_false]
          try omega
          try decide
        refine (dirtyAt_markChunkDirtyIf_skip ?_).trans ?_
        · try simp only [true_and, and_true, false_and, and_false]
          try omega
          try decide
        refine (dirtyAt_markChunkDirtyIf_skip ?_).trans ?_
        · try simp only [true_and, and_true, false_and, and_false]
          try omega
          try decide
        refine (dirtyAt_markChunkDirtyIf_skip ?_).trans ?_
        · try simp only [true_and, and_true, false_and, and_false]
          try omega
          try decide
        refine (dirtyAt_markChunkDirtyIf_skip ?_).trans ?_
        · try simp only [true_and, and_true, false_and, and_false]
          try omega
          try decide
        refine (dirtyAt_markChunkDirtyIf_skip ?_).trans ?_
        · try simp only [true_and, and_true, false_and, and_false]
          try omega
          try decide
        refine (dirtyAt_markChunkDirtyIf_skip ?_).trans ?_
        · try simp only [true_and, and_true, false_and, and_false]
          try omega
          try decide
        refine (dirtyAt_markChunkDirtyIf_skip ?_).trans ?_
        · try simp only [true_and, and_true, false_and, and_false]
          try omega
          try decide
        refine (dirtyAt_markChunkDirtyIf_skip ?_).trans ?_
        · try simp only [true_and, and_true, false_and, and_false]
          try omega
          try decide
        refine (dirtyAt_markChunkDirtyIf_skip ?_).trans ?_
        · try simp only [true_and, and_true, false_and, and_false]
          try omega
          try decide
        refine (dirtyAt_markChunkDirtyIf_skip ?_).trans ?_
        · try simp only [true_and, and_true, false_and, and_false]
          try omega
          try decide
        refine (dirtyAt_markChunkDirtyIf_skip ?_).trans ?_
        · try simp only [true_and, and_true, false_and, and_false]
          try omega
          try decide
        refine (dirtyAt_markChunkDirtyIf_skip ?_).trans ?_
        · try simp only [true_and, and_true, false_and, and_false]
          try omega
          try decide
        refine (dirtyAt_markChunkDirtyIf_skip ?_).trans ?_
        · try simp only [true_and, and_true, false_and, and_false]
          try omega
          try decide
        refine (dirtyAt_markChunkDirtyIf_skip ?_).trans ?_
        · try simp only [true_and, and_true, false_and, and_false]
          try omega
          try decide
        refine (dirtyAt_markChunkDirtyIf_hit ?_).trans ?_
        · try simp only [true_and, and_true, false_and, and_false]
          try omega
          try decide
        repeat rw [dirtyAt_map_true_markChunkDirtyIf]
        rw [dirtyAt_map_true_update hi _ rfl]
      · intro x y z h1 h2
        simp only [setVoxel, hc, hl, hi]
        refine (dirtyAt_markChunkDirtyIf_skip ?_).trans ?_
        · try simp only [true_and, and_true, false_and, and_false]
          try omega
          try decide
        refine (dirtyAt_markChunkDirtyIf_skip ?_).trans ?_
        · try simp only [true_and, and_true, false_and, and_false]
          try omega
          try decide
        refine (dirtyAt_markChunkDirtyIf_skip ?_).trans ?_
        · try simp only [true_and, and_true, false_and, and_false]
          try omega
          try decide
        refine (dirtyAt_markChunkDirtyIf_skip ?_).trans ?_
        · try simp only [true_and, and_true, false_and, and_false]
          try omega
          try decide
        refine (dirtyAt_markChunkDirtyIf_skip ?_).trans ?_
        · try simp only [true_and, and_true, false_and, and_false]
          try omega
          try decide
        refine (dirtyAt_markChunkDirtyIf_skip ?_).trans ?_
        · try simp only [true_and, and_true, false_and, and_false]
          try omega
          try decide
        refine (dirtyAt_markChunkDirtyIf_skip ?_).trans ?_
        · try simp only [true_and, and_true, false_and, and_false]
          try omega
          try decide
        refine (dirtyAt_markChunkDirtyIf_skip ?_).trans ?_
        · try simp only [true_and, and_true, false_and, and_false]
          try omega
          try decide
        refine (dirtyAt_markChunkDirtyIf_skip ?_).trans ?_
        · try simp only [true_and, and_true, false_and, and_false]
          try omega
          try decide
        refine (dirtyAt_markChunkDirtyIf_skip ?_).trans ?_
        · try simp only [true_and, and_true, false_and, and_false]
          try omega
          try decide
        refine (dirtyAt_markChunkDirtyIf_skip ?_).trans ?_
        · try simp only [true_and, and_true, false_and, and_false]
          try omega
          try decide
        refine (dirtyAt_markChunkDirtyIf_skip ?_).trans ?_
        · try simp only [true_and, and_true, false_and, and_false]
          try omega
          try decide
        refine (dirtyAt_markChunkDirtyIf_skip ?_).trans ?_
        · try simp only [true_and, and_true, false_and, and_false]
          try omega
          try decide
        refine (dirtyAt_markChunkDirtyIf_skip ?_).trans ?_
        · try simp only [true_and, and_true, false_and, and_false]
          try omega
          try decide
        refine (dirtyAt_markChunkDirtyIf_skip ?_).trans ?_
        · try simp only [true_and, and_true, false_and, and_false]
          try omega
          try decide
        refine (dirtyAt_markChunkDirtyIf_skip ?_).trans ?_
        · try simp only [true_and, and_true, false_and, and_false]
          try omega
          try decide
        refine (dirtyAt_markChunkDirtyIf_skip ?_).trans ?_
        · try simp only [true_and, and_true, false_and, and_false]
          try omega
          try decide
        refine (dirtyAt_markChunkDirtyIf_skip ?_).trans ?_
        · try simp only [true_and, and_true, false_and, and_false]
          try omega
          try decide
        refine (dirtyAt_markChunkDirtyIf_skip ?_).trans ?_
        · try simp only [true_and, and_true, false_and, and_false]
          try omega
          try decide
        refine (dirtyAt_markChunkDirtyIf_skip ?_).trans ?_
        · try simp only [true_and, and_true, false_and, and_false]
          try omega
          try decide
        refine (dirtyAt_markChunkDirtyIf_skip ?_).trans ?_
        · try simp only [true_and, and_true, false_and, and_false]
          try omega
          try decide
        refine (dirtyAt_markChunkDirtyIf_skip ?_).trans ?_
        · try simp only [true_and, and_true, false_and, and_false]
          try omega
          try decide
        refine (dirtyAt_markChunkDirtyIf_skip ?_).trans ?_
        · try simp only [true_and, and_true, false_and, and_false]
          try omega
          try decide
        refine (dirtyAt_markChunkDirtyIf_skip ?_).trans ?_
        · try simp only [true_and, and_true, false_and, and_false]
          try omega
          try decide
        refine (dirtyAt_markChunkDirtyIf_skip ?_).trans ?_
        · try simp only [true_and, and_true, false_and, and_false]
          try omega
          try decide
        refine (dirtyAt_markChunkDirtyIf_skip ?_).trans ?_
        · try simp only [true_and, and_true, false_and, and_false]
          try omega
          try decide
        refine dirtyAt_update_self_skip hi _ rfl ?_
        omega
    · intro hE
      subst hE
      refine ⟨?_, ?_, ?_⟩
      · simp only [setVoxel, hc, hl, hi]
        refine (dirtyAt_markChunkDirtyIf_skip ?_).trans ?_
        · try simp only [true_and, and_true, false_and, and_false]
          try omega
          try decide
        refine (dirtyAt_markChunkDirtyIf_skip ?_).trans ?_
        · try simp only [true_and, and_true, false_and, and_false]
          try omega
          try decide
        refine (dirtyAt_markChunkDirtyIf_skip ?_).trans ?_
        · try simp only [true_and, and_true, false_and, and_false]
          try omega
          try decide
        refine (dirtyAt_markChunkDirtyIf_skip ?_).trans ?_
        · try simp only [true_and, and_true, false_and, and_false]
          try omega
          try decide
        refine (dirtyAt_markChunkDirtyIf_skip ?_).trans ?_
        · try simp only [true_and, and_true, false_and, and_false]
          try omega
          try decide
        refine (dirtyAt_markChunkDirtyIf_skip ?_).trans ?_
        · try simp only [true_and, and_true, false_and, and_false]
          try omega
          try decide
        refine (dirtyAt_markChunkDirtyIf_skip ?_).trans ?_
        · try simp only [true_and, and_true, false_and, and_false]
          try omega
          try decide
        refine (dirtyAt_markChunkDirtyIf_skip ?_).trans ?_
        · try simp only [true_and, and_true, false_and, and_false]
          try omega
          try decide
        refine (dirtyAt_markChunkDirtyIf_skip ?_).trans ?_
        · try simp only [true_and, and_true, false_and, and_false]
          try omega
          try decide
        refine (dirtyAt_markChunkDirtyIf_skip ?_).trans ?_
        · try simp only [true_and, and_true, false_and, and_false]
          try omega
          try decide
        refine (dirtyAt_markChunkDirtyIf_skip ?_).trans ?_
        · try simp only [true_and, and_true, false_and, and_false]
          try omega
          try decide
        refine (dirtyAt_markChunkDirtyIf_skip ?_).trans ?_
        · try simp only [true_and, and_true, false_and, and_false]
          try omega
          try decide
        refine (dirtyAt_markChunkDirtyIf_skip ?_).trans ?_
        · try simp only [true_and, and_true, false_and, and_false]
          try omega
          try decide
        refine (dirtyAt_markChunkDirtyIf_skip ?_).trans ?_
        · try simp only [true_and, and_true, false_and, and_false]
          try omega
          try decide
        refine (dirtyAt_markChunkDirtyIf_skip ?_).trans ?_
        · try simp only [true_and, and_true, false_and, and_false]
          try omega
          try decide
        refine (dirtyAt_markChunkDirtyIf_skip ?_).trans ?_
        · try simp only [true_and, and_true, false_and, and_false]
          try omega
          try decide
        refine (dirtyAt_markChunkDirtyIf_skip ?_).trans ?_
        · try simp only [true_and, and_true, false_and, and_false]
          try omega
          try decide
        refine (dirtyAt_markChunkDirtyIf_skip ?_).trans ?_
        · try simp only [true_and, and_true, false_and, and_false]
          try omega
          try decide
        refine (dirtyAt_markChunkDirtyIf_skip ?_).trans ?_
        · try simp only [true_and, and_true, false_and, and_false]
          try omega
          try decide
        refine (dirtyAt_markChunkDirtyIf_skip ?_).trans ?_
        · try simp only [true_and, and_true, false_and, and_false]
          try omega
          try decide
        refine (dirtyAt_markChunkDirtyIf_skip ?_).trans ?_
        · try simp only [true_and, and_true, false_and, and_false]
          try omega
          try decide
        refine (dirtyAt_markChunkDirtyIf_skip ?_).trans ?_
        · try simp only [true_and, and_true, false_and, and_false]
          try omega
          try decide
        refine (dirtyAt_markChunkDirtyIf_skip ?_).trans ?_
        · try simp only [true_and, and_true, false_and, and_false]
          try omega
          try decide
        refine (dirtyAt_markChunkDirtyIf_skip ?_).trans ?_
        · try simp only [true_and, and_true, false_and, and_false]
          try omega
          try decide
        refine (dirtyAt_markChunkDirtyIf_skip ?_).trans ?_
        · try simp only [true_and, and_true, false_and, and_false]
          try omega
          try decide
        refine (dirtyAt_markChunkDirtyIf_skip ?_).trans ?_
        · try simp only [true_and, and_true, false_and, and_false]
          try omega
          try decide
        refine dirtyAt_update_self_hit hi _ rfl ?_
        exact ⟨rfl, rfl, rfl⟩
      · simp only [setVoxel, hc, hl, hi]
        refine (dirtyAt_markChunkDirtyIf_skip ?_).trans ?_
        · try simp only [true_and, and_true, false_and, and_false]
          try omega
          try decide
        refine (dirtyAt_markChunkDirtyIf_skip ?_).trans ?_
        · try simp only [true_and, and_true, false_and, and_false]
          try omega
          try decide
        refine (dirtyAt_markChunkDirtyIf_skip ?_).trans ?_
        · try simp only [true_and, and_true, false_and, and_false]
          try omega
          try decide
        refine (dirtyAt_markChunkDirtyIf_skip ?_).trans ?_
        · try simp only [true_and, and_true, false_and, and_false]
          try omega
          try decide
        refine (dirtyAt_markChunkDirtyIf_skip ?_).trans ?_
        · try simp only [true_and, and_true, false_and, and_false]
          try omega
          try decide
        refine (dirtyAt_markChunkDirtyIf_skip ?_).trans ?_
        · try simp only [true_and, and_true, false_and, and_false]
          try omega
          try decide
        refine (dirtyAt_markChunkDirtyIf_skip ?_).trans ?_
        · try simp only [true_and, and_true, false_and, and_false]
          try omega
          try decide
        refine (dirtyAt_markChunkDirtyIf_skip ?_).trans ?_
        · try simp only [true_and, and_true, false_and, and_false]
          try omega
          try decide
        refine (dirtyAt_markChunkDirtyIf_skip ?_).trans ?_
        · try simp only [true_and, and_true, false_and, and_false]
          try omega
          try decide
        refine (dirtyAt_markChunkDirtyIf_skip ?_).trans ?_
        · try simp only [true_and, and_true, false_and, and_false]
          try omega
          try decide
        refine (dirtyAt_markChunkDirtyIf_skip ?_).trans ?_
        · try simp only [true_and, and_true, false_and, and_false]
          try omega
          try decide
        refine (dirtyAt_markChunkDirtyIf_skip ?_).trans ?_
        · try simp only [true_and, and_true, false_and, and_false]
          try omega
          try decide
        refine (dirtyAt_markChunkDirtyIf_skip ?_).trans ?_
        · try simp only [true_and, and_true, false_and, and_false]
          try omega
          try decide
        refine (dirtyAt_markChunkDirtyIf_skip ?_).trans ?_
        · try simp only [true_and, and_true, false_and, and_false]
          try omega
          try decide
        refine (dirtyAt_markChunkDirtyIf_skip ?_).trans ?_
        · try simp only [true_and, and_true, false_and, and_false]
          try omega
          try decide
        refine (dirtyAt_markChunkDirtyIf_skip ?_).trans ?_
        · try simp only [true_and, and_true, false_and, and_false]
          try omega
          try decide
        refine (dirtyAt_markChunkDirtyIf_skip ?_).trans ?_
        · try simp only [true_and, and_true, false_and, and_false]
          try omega
          try decide
        refine (dirtyAt_markChunkDirtyIf_skip ?_).trans ?_
        · try simp only [true_and, and_true, false_and, and_false]
          try omega
          try decide
        refine (dirtyAt_markChunkDirtyIf_skip ?_).trans ?_
        · try simp only [true_and, and_true, false_and, and_false]
          try omega
          try decide
        refine (dirtyAt_markChunkDirtyIf_skip ?_).trans ?_
        · try simp only [true_and, and_true, false_and, and_false]
          try omega
          try decide
        refine (dirtyAt_markChunkDirtyIf_skip ?_).trans ?_
        · try simp only [true_and, and_true, false_and, and_false]
          try omega
          try decide
        refine (dirtyAt_markChunkDirtyIf_skip ?_).trans ?_
        · try simp only [true_and, and_true, false_and, and_false]
          try omega
          try decide
        refine (dirtyAt_markChunkDirtyIf_hit ?_).trans ?_
        · try simp only [true_and, and_true, false_and, and_false]
          try omega
          try decide
        repeat rw [dirtyAt_map_true_markChunkDirtyIf]
        rw [dirtyAt_map_true_update hi _ rfl]
      · intro x y z h1 h2
        simp only [setVoxel, hc, hl, hi]
        refine (dirtyAt_markChunkDirtyIf_skip ?_).trans ?_
        · try simp only [true_and, and_true, false_and, and_false]
          try omega
          try decide
        refine (dirtyAt_markChunkDirtyIf_skip ?_).trans ?_
        · try simp only [true_and, and_true, false_and, and_false]
          try omega
          try decide
        refine (dirtyAt_markChunkDirtyIf_skip ?_).trans ?_
        · try simp only [true_and, and_true, false_and, and_false]
          try omega
          try decide
        refine (dirtyAt_markChunkDirtyIf_skip ?_).trans ?_
        · try simp only [true_and, and_true, false_and, and_false]
          try omega
          try decide
        refine (dirtyAt_markChunkDirtyIf_skip ?_).trans ?_
        · try simp only [true_and, and_true, false_and, and_false]
          try omega
          try decide
        refine (dirtyAt_markChunkDirtyIf_skip ?_).trans ?_
        · try simp only [true_and, and_true, false_and, and_false]
          try omega
          try decide
        refine (dirtyAt_markChunkDirtyIf_skip ?_).trans ?_
        · try simp only [true_and, and_true, false_and, and_false]
          try omega
          try decide
        refine (dirtyAt_markChunkDirtyIf_skip ?_).trans ?_
        · try simp only [true_and, and_true, false_and, and_false]
          try omega
          try decide
        refine (dirtyAt_markChunkDirtyIf_skip ?_).trans ?_
        · try simp only [true_and, and_true, false_and, and_false]
          try omega
          try decide
        refine (dirtyAt_markChunkDirtyIf_skip ?_).trans ?_
        · try simp only [true_and, and_true, false_and, and_false]
          try omega
          try decide
        refine (dirtyAt_markChunkDirtyIf_skip ?_).trans ?_
        · try simp only [true_and, and_true, false_and, and_false]
          try omega
          try decide
        refine (dirtyAt_markChunkDirtyIf_skip ?_).trans ?_
        · try simp only [true_and, and_true, false_and, and_false]
          try omega
          try decide
        refine (dirtyAt_markChunkDirtyIf_skip ?_).trans ?_
        · try simp only [true_and, and_true, false_and, and_false]
          try omega
          try decide
        refine (dirtyAt_markChunkDirtyIf_skip ?_).trans ?_
        · try simp only [true_and, and_true, false_and, and_false]
          try omega
          try decide
        refine (dirtyAt_markChunkDirtyIf_skip ?_).trans ?_
        · try simp only [true_and, and_true, false_and, and_false]
          try omega
          try decide
        refine (dirtyAt_markChunkDirtyIf_skip ?_).trans ?_
        · try simp only [true_and, and_true, false_and, and_false]
          try omega
          try decide
        refine (dirtyAt_markChunkDirtyIf_skip ?_).trans ?_
        · try simp only [true_and, and_true, false_and, and_false]
          try omega
          try decide
        refine (dirtyAt_markChunkDirtyIf_skip ?_).trans ?_
        · try simp only [true_and, and_true, false_and, and_false]
          try omega
          try decide
        refine (dirtyAt_markChunkDirtyIf_skip ?_).trans ?_
        · try simp only [true_and, and_true, false_and, and_false]
          try omega
          try decide
        refine (dirtyAt_markChunkDirtyIf_skip ?_).trans ?_
        · try simp only [true_and, and_true, false_and, and_false]
          try omega
          try decide
        refine (dirtyAt_markChunkDirtyIf_skip ?_).trans ?_
        · try simp only [true_and, and_true, false_and, and_false]
          try omega
          try decide
        refine (dirtyAt_markChunkDirtyIf_skip ?_).trans ?_
        · try simp only [true_and, and_true, false_and, and_false]
          try omega
          try decide
        refine (dirtyAt_markChunkDirtyIf_skip ?_).trans ?_
        · try simp only [true_and, and_true, false_and, and_false]
          try omega
          try decide
        refine (dirtyAt_markChunkDirtyIf_skip ?_).trans ?_
        · try simp only [true_and, and_true, false_and, and_false]
          try omega
          try decide
        refine (dirtyAt_markChunkDirtyIf_skip ?_).trans ?_
        · try simp only [true_and, and_true, false_and, and_false]
          try omega
          try decide
        refine (dirtyAt_markChunkDirtyIf_skip ?_).trans ?_
        · try simp only [true_and, and_true, false_and, and_false]
          try omega
          try decide
        refine dirtyAt_update_self_skip hi _ rfl ?_
        omega
  · rintro ⟨hlx0, hlx15, hly0, hly15⟩
    constructor
    · intro hE
      subst hE
      refine ⟨?_, ?_, ?_⟩
      · simp only [setVoxel, hc, hl, hi]
        refine (dirtyAt_markChunkDirtyIf_skip ?_).trans ?_
        · try simp only [true_and, and_true, false_and, and_false]
          try omega
          try decide
        refine (dirtyAt_markChunkDirtyIf_skip ?_).trans ?_
        · try simp only [true_and, and_true, false_and, and_false]
          try omega
          try decide
        refine (dirtyAt_markChunkDirtyIf_skip ?_).trans ?_
        · try simp only [true_and, and_true, false_and, and_false]
          try omega
          try decide
        refine (dirtyAt_markChunkDirtyIf_skip ?_).trans ?_
        · try simp only [true_and, and_true, false_and, and_false]
          try omega
          try decide
        refine (dirtyAt_markChunkDirtyIf_skip ?_).trans ?_
        · try simp only [true_and, and_true, false_and, and_false]
          try omega
          try decide
        refine (dirtyAt_markChunkDirtyIf_skip ?_).trans ?_
        · try simp only [true_and, and_true, false_and, and_false]
          try omega
          try decide
        refine (dirtyAt_markChunkDirtyIf_skip ?_).trans ?_
        · try simp only [true_and, and_true, false_and, and_false]
          try omega
          try decide
        refine (dirtyAt_markChunkDirtyIf_skip ?_).trans ?_
        · try simp only [true_and, and_true, false_and, and_false]
          try omega
          try decide
        refine (dirtyAt_markChunkDirtyIf_skip ?_).trans ?_
        · try simp only [true_and, and_true, false_and, and_false]
          try omega
          try decide
        refine (dirtyAt_markChunkDirtyIf_skip ?_).trans ?_
        · try simp only [true_and, and_true, false_and, and_false]
          try omega
          try decide
        refine (dirtyAt_markChunkDirtyIf_skip ?_).trans ?_
        · try simp only [true_and, and_true, false_and, and_false]
          try omega
          try decide
        refine (dirtyAt_markChunkDirtyIf_skip ?_).trans ?_
        · try simp only [true_and, and_true, false_and, and_false]
          try omega
          try decide
        refine (dirtyAt_markChunkDirtyIf_skip ?_).trans ?_
        · try simp only [true_and, and_true, false_and, and_false]
          try omega
          try decide
        refine (dirtyAt_markChunkDirtyIf_skip ?_).trans ?_
        · try simp only [true_and, and_true, false_and, and_false]
          try omega
          try decide
        refine (dirtyAt_markChunkDirtyIf_skip ?_).trans ?_
        · try simp only [true_and, and_true, false_and, and_false]
          try omega
          try decide
        refine (dirtyAt_markChunkDirtyIf_skip ?_).trans ?_
        · try simp only [true_and, and_true, false_and, and_false]
          try omega
          try decide
        refine (dirtyAt_markChunkDirtyIf_skip ?_).trans ?_
        · try simp only [true_and, and_true, false_and, and_false]
          try omega
          try decide
        refine (dirtyAt_markChunkDirtyIf_skip ?_).trans ?_
        · try simp only [true_and, and_true, false_and, and_false]
          try omega
          try decide
        refine (dirtyAt_markChunkDirtyIf_skip ?_).trans ?_
        · try simp only [true_and, and_true, false_and, and_false]
          try omega
          try decide
        refine (dirtyAt_markChunkDirtyIf_skip ?_).trans ?_
        · try simp only [true_and, and_true, false_and, and_false]
          try omega
          try decide
        refine (dirtyAt_markChunkDirtyIf_skip ?_).trans ?_
        · try simp only [true_and, and_true, false_and, and_false]
          try omega
          try decide
        refine (dirtyAt_markChunkDirtyIf_skip ?_).trans ?_
        · try simp only [true_and, and_true, false_and, and_false]
          try omega
          try decide
        refine (dirtyAt_markChunkDirtyIf_skip ?_).trans ?_
        · try simp only [true_and, and_true, false_and, and_false]
          try omega
          try decide
        refine (dirtyAt_markChunkDirtyIf_skip ?_).trans ?_
        · try simp only [true_and, and_true, false_and, and_false]
          try omega
          try decide
        refine (dirtyAt_markChunkDirtyIf_skip ?_).trans ?_
        · try simp only [true_and, and_true, false_and, and_false]
          try omega
          try decide
        refine (dirtyAt_markChunkDirtyIf_skip ?_).trans ?_
        · try simp only [true_and, and_true, false_and, and_false]
          try omega
          try decide
        refine dirtyAt_update_self_hit hi _ rfl ?_
        exact ⟨rfl, rfl, rfl⟩
      · simp only [setVoxel, hc, hl, hi]
        refine (dirtyAt_markChunkDirtyIf_skip ?_).trans ?_
        · try simp only [true_and, and_true, false_and, and_false]
          try omega
          try decide
        refine (dirtyAt_markChunkDirtyIf_skip ?_).trans ?_
        · try simp only [true_and, and_true, false_and, and_false]
          try omega
          try decide
        refine (dirtyAt_markChunkDirtyIf_skip ?_).trans ?_
        · try simp only [true_and, and_true, false_and, and_false]
          try omega
          try decide
        refine (dirtyAt_markChunkDirtyIf_skip ?_).trans ?_
        · try simp only [true_and, and_true, false_and, and_false]
          try omega
          try decide
        refine (dirtyAt_markChunkDirtyIf_skip ?_).trans ?_
        · try simp only [true_and, and_true, false_and, and_false]
          try omega
          try decide
        refine (dirtyAt_markChunkDirtyIf_skip ?_).trans ?_
        · try simp only [true_and, and_true, false_and, and_false]
          try omega
          try decide
        refine (dirtyAt_markChunkDirtyIf_skip ?_).trans ?_
        · try simp only [true_and, and_true, false_and, and_false]
          try omega
          try decide
        refine (dirtyAt_markChunkDirtyIf_skip ?_).trans ?_
        · try simp only [true_and, and_true, false_and, and_false]
          try omega
          try decide
        refine (dirtyAt_markChunkDirtyIf_skip ?_).trans ?_
        · try simp only [true_and, and_true, false_and, and_false]
          try omega
          try decide
        refine (dirtyAt_markChunkDirtyIf_skip ?_).trans ?_
        · try simp only [true_and, and_true, false_and, and_false]
          try omega
          try decide
        refine (dirtyAt_markChunkDirtyIf_skip ?_).trans ?_
        · try simp only [true_and, and_true, false_and, and_false]
          try omega
          try decide
        refine (dirtyAt_markChunkDirtyIf_skip ?_).trans ?_
        · try simp only [true_and, and_true, false_and, and_false]
          try omega
          try decide
        refine (dirtyAt_markChunkDirtyIf_skip ?_).trans ?_
        · try simp only [true_and, and_true, false_and, and_false]
          try omega
          try decide
        refine (dirtyAt_markChunkDirtyIf_skip ?_).trans ?_
        · try simp only [true_and, and_true, false_and, and_false]
          try omega
          try decide
        refine (dirtyAt_markChunkDirtyIf_skip ?_).trans ?_
        · try simp only [true_and, and_true, false_and, and_false]
          try omega
          try decide
        refine (dirtyAt_markChunkDirtyIf_skip ?_).trans ?_
        · try simp only [true_and, and_true, false_and, and_false]
          try omega
          try decide
        refine (dirtyAt_markChunkDirtyIf_skip ?_).trans ?_
        · try simp only [true_and, and_true, false_and, and_false]
          try omega
          try decide
        refine (dirtyAt_markChunkDirtyIf_skip ?_).trans ?_
        · try simp only [true_and, and_true, false_and, and_false]
          try omega
          try decide
        refine (dirtyAt_markChunkDirtyIf_skip ?_).trans ?_
        · try simp only [true_and, and_true, false_and, and_false]
          try omega
          try decide
        refine (dirtyAt_markChunkDirtyIf_skip ?_).trans ?_
        · try simp only [true_and, and_true, false_and, and_false]
          try omega
          try decide
        refine (dirtyAt_markChunkDirtyIf_skip ?_).trans ?_
        · try simp only [true_and, and_true, false_and, and_false]
          try omega
          try decide
        refine (dirtyAt_markChunkDirtyIf_hit ?_).trans ?_
        · try simp only [true_and, and_true, false_and, and_false]
          try omega
          try decide
        repeat rw [dirtyAt_map_true_markChunkDirtyIf]
        rw [dirtyAt_map_true_update hi _ rfl]
      · intro x y z h1 h2
        simp only [setVoxel, hc, hl, hi]
        refine (dirtyAt_markChunkDirtyIf_skip ?_).trans ?_
        · try simp only [true_and, and_true, false_and, and_false]
          try omega
          try decide
        refine (dirtyAt_markChunkDirtyIf_skip ?_).trans ?_
        · try simp only [true_and, and_true, false_and, and_false]
          try omega
          try decide
        refine (dirtyAt_markChunkDirtyIf_skip ?_).trans ?_
        · try simp only [true_and, and_true, false_and, and_false]
          try omega
          try decide
        refine (dirtyAt_markChunkDirtyIf_skip ?_).trans ?_
        · try simp only [true_and, and_true, false_and, and_false]
          try omega
          try decide
        refine (dirtyAt_markChunkDirtyIf_skip ?_).trans ?_
        · try simp only [true_and, and_true, false_and, and_false]
          try omega
          try decide
        refine (dirtyAt_markChunkDirtyIf_skip ?_).trans ?_
        · try simp only [true_and, and_true, false_and, and_false]
          try omega
          try decide
        refine (dirtyAt_markChunkDirtyIf_skip ?_).trans ?_
        · try simp only [true_and, and_true, false_and, and_false]
          try omega
          try decide
        refine (dirtyAt_markChunkDirtyIf_skip ?_).trans ?_
        · try simp only [true_and, and_true, false_and, and_false]
          try omega
          try decide
        refine (dirtyAt_markChunkDirtyIf_skip ?_).trans ?_
        · try simp only [true_and, and_true, false_and, and_false]
          try omega
          try decide
        refine (dirtyAt_markChunkDirtyIf_skip ?_).trans ?_
        · try simp only [true_and, and_true, false_and, and_false]
          try omega
          try decide
        refine (dirtyAt_markChunkDirtyIf_skip ?_).trans ?_
        · try simp only [true_and, and_true, false_and, and_false]
          try omega
          try decide
        refine (dirtyAt_markChunkDirtyIf_skip ?_).trans ?_
        · try simp only [true_and, and_true, false_and, and_false]
          try omega
          try decide
        refine (dirtyAt_markChunkDirtyIf_skip ?_).trans ?_
        · try simp only [true_and, and_true, false_and, and_false]
          try omega
          try decide
        refine (dirtyAt_markChunkDirtyIf_skip ?_).trans ?_
        · try simp only [true_and, and_true, false_and, and_false]
          try omega
          try decide
        refine (dirtyAt_markChunkDirtyIf_skip ?_).trans ?_
        · try simp only [true_and, and_true, false_and, and_false]
          try omega
          try decide
        refine (dirtyAt_markChunkDirtyIf_skip ?_).trans ?_
        · try simp only [true_and, and_true, false_and, and_false]
          try omega
          try decide
        refine (dirtyAt_markChunkDirtyIf_skip ?_).trans ?_
        · try simp only [true_and, and_true, false_and, and_false]
          try omega
          try decide
        refine (dirtyAt_markChunkDirtyIf_skip ?_).trans ?_
        · try simp only [true_and, and_true, false_and, and_false]
          try omega
          try decide
        refine (dirtyAt_markChunkDirtyIf_skip ?_).trans ?_
        · try simp only [true_and, and_true, false_and, and_false]
          try omega
          try decide
        refine (dirtyAt_markChunkDirtyIf_skip ?_).trans ?_
        · try simp only [true_and, and_true, false_and, and_false]
          try omega
          try decide
        refine (dirtyAt_markChunkDirtyIf_skip ?_).trans ?_
        · try simp only [true_and, and_true, false_and, and_false]
          try omega
          try decide
        refine (dirtyAt_markChunkDirtyIf_skip ?_).trans ?_
        · try simp only [true_and, and_true, false_and, and_false]
          try omega
          try decide
        refine (dirtyAt_markChunkDirtyIf_skip ?_).trans ?_
        · try simp only [true_and, and_true, false_and, and_false]
          try omega
          try decide
        refine (dirtyAt_markChunkDirtyIf_skip ?_).trans ?_
        · try simp only [true_and, and_true, false_and, and_false]
          try omega
          try decide
        refine (dirtyAt_markChunkDirtyIf_skip ?_).trans ?_
        · try simp only [true_and, and_true, false_and, and_false]
          try omega
          try decide
        refine (dirtyAt_markChunkDirtyIf_skip ?_).trans ?_
        · try simp only [true_and, and_true, false_and, and_false]
          try omega
          try decide
        refine dirtyAt_update_self_skip hi _ rfl ?_
        omega
    · intro hE
      subst hE
      refine ⟨?_, ?_, ?_⟩
      · simp only [setVoxel, hc, hl, hi]
        refine (dirtyAt_markChunkDirtyIf_skip ?_).trans ?_
        · try simp only [true_and, and_true, false_and, and_false]
          try omega
          try decide
        refine (dirtyAt_markChunkDirtyIf_skip ?_).trans ?_
        · try simp only [true_and, and_true, false_and, and_false]
          try omega
          try decide
        refine (dirtyAt_markChunkDirtyIf_skip ?_).trans ?_
        · try simp only [true_and, and_true, false_and, and_false]
          try omega
          try decide
        refine (dirtyAt_markChunkDirtyIf_skip ?_).trans ?_
        · try simp only [true_and, and_true, false_and, and_false]
          try omega
          try decide
        refine (dirtyAt_markChunkDirtyIf_skip ?_).trans ?_
        · try simp only [true_and, and_true, false_and, and_false]
          try omega
          try decide
        refine (dirtyAt_markChunkDirtyIf_skip ?_).trans ?_
        · try simp only [true_and, and_true, false_and, and_false]
          try omega
          try decide
        refine (dirtyAt_markChunkDirtyIf_skip ?_).trans ?_
        · try simp only [true_and, and_true, false_and, and_false]
          try omega
          try decide
        refine (dirtyAt_markChunkDirtyIf_skip ?_).trans ?_
        · try simp only [true_and, and_true, false_and, and_false]
          try omega
          try decide
        refine (dirtyAt_markChunkDirtyIf_skip ?_).trans ?_
        · try simp only [true_and, and_true, false_and, and_false]
          try omega
          try decide
        refine (dirtyAt_markChunkDirtyIf_skip ?_).trans ?_
        · try simp only [true_and, and_true, false_and, and_false]
          try omega
          try decide
        refine (dirtyAt_markChunkDirtyIf_skip ?_).trans ?_
        · try simp only [true_and, and_true, false_and, and_false]
          try omega
          try decide
        refine (dirtyAt_markChunkDirtyIf_skip ?_).trans ?_
        · try simp only [true_and, and_true, false_and, and_false]
          try omega
          try decide
        refine (dirtyAt_markChunkDirtyIf_skip ?_).trans ?_
        · try simp only [true_and, and_true, false_and, and_false]
          try omega
          try decide
        refine (dirtyAt_markChunkDirtyIf_skip ?_).trans ?_
        · try simp only [true_and, and_true, false_and, and_false]
          try omega
          try decide
        refine (dirtyAt_markChunkDirtyIf_skip ?_).trans ?_
        · try simp only [true_and, and_true, false_and, and_false]
          try omega
          try decide
        refine (dirtyAt_markChunkDirtyIf_skip ?_).trans ?_
        · try simp only [true_and, and_true, false_and, and_false]
          try omega
          try decide
        refine (dirtyAt_markChunkDirtyIf_skip ?_).trans ?_
        · try simp only [true_and, and_true, false_and, and_false]
          try omega
          try decide
        refine (dirtyAt_markChunkDirtyIf_skip ?_).trans ?_
        · try simp only [true_and, and_true, false_and, and_false]
          try omega
          try decide
        refine (dirtyAt_markChunkDirtyIf_skip ?_).trans ?_
        · try simp only [true_and, and_true, false_and, and_false]
          try omega
          try decide
        refine (dirtyAt_markChunkDirtyIf_skip ?_).trans ?_
        · try simp only [true_and, and_true, false_and, and_false]
          try omega
          try decide
        refine (dirtyAt_markChunkDirtyIf_skip ?_).trans ?_
        · try simp only [true_and, and_true, false_and, and_false]
          try omega
          try decide
        refine (dirtyAt_markChunkDirtyIf_skip ?_).trans ?_
        · try simp only [true_and, and_true, false_and, and_false]
          try omega
          try decide
        refine (dirtyAt_markChunkDirtyIf_skip ?_).trans ?_
        · try simp only [true_and, and_true, false_and, and_false]
          try omega
          try decide
        refine (dirtyAt_markChunkDirtyIf_skip ?_).trans ?_
        · try simp only [true_and, and_true, false_and, and_false]
          try omega
          try decide
        refine (dirtyAt_markChunkDirtyIf_skip ?_).trans ?_
        · try simp only [true_and, and_true, false_and, and_false]
          try omega
          try decide
        refine (dirtyAt_markChunkDirtyIf_skip ?_).trans ?_
        · try simp only [true_and, and_true, false_and, and_false]
          try omega
          try decide
        refine dirtyAt_update_self_hit hi _ rfl ?_
        exact ⟨rfl, rfl, rfl⟩
      · simp only [setVoxel, hc, hl, hi]
        refine (dirtyAt_markChunkDirtyIf_skip ?_).trans ?_
        · try simp only [true_and, and_true, false_and, and_false]
          try omega
          try decide
        refine (dirtyAt_markChunkDirtyIf_skip ?_).trans ?_
        · try simp only [true_and, and_true, false_and, and_false]
          try omega
          try decide
        refine (dirtyAt_markChunkDirtyIf_skip ?_).trans ?_
        · try simp only [true_and, and_true, false_and, and_false]
          try omega
          try decide
        refine (dirtyAt_markChunkDirtyIf_skip ?_).trans ?_
        · try simp only [true_and, and_true, false_and, and_false]
          try omega
          try decide
        refine (dirtyAt_markChunkDirtyIf_skip ?_).trans ?_
        · try simp only [true_and, and_true, false_and, and_false]
          try omega
          try decide
        refine (dirtyAt_markChunkDirtyIf_skip ?_).trans ?_
        · try simp only [true_and, and_true, false_and, and_false]
          try omega
          try decide
        refine (dirtyAt_markChunkDirtyIf_skip ?_).trans ?_
        · try simp only [true_and, and_true, false_and, and_false]
          try omega
          try decide
        refine (dirtyAt_markChunkDirtyIf_skip ?_).trans ?_
        · try simp only [true_and, and_true, false_and, and_false]
          try omega
          try decide
        refine (dirtyAt_markChunkDirtyIf_skip ?_).trans ?_
        · try simp only [true_and, and_true, false_and, and_false]
          try omega
          try decide
        refine (dirtyAt_markChunkDirtyIf_skip ?_).trans ?_
        · try simp only [true_and, and_true, false_and, and_false]
          try omega
          try decide
        refine (dirtyAt_markChunkDirtyIf_skip ?_).trans ?_
        · try simp only [true_and, and_true, false_and, and_false]
          try omega
          try decide
        refine (dirtyAt_markChunkDirtyIf_skip ?_).trans ?_
        · try simp only [true_and, and_true, false_and, and_false]
          try omega
          try decide
        refine (dirtyAt_markChunkDirtyIf_skip ?_).trans ?_
        · try simp only [true_and, and_true, false_and, and_false]
          try omega
          try decide
        refine (dirtyAt_markChunkDirtyIf_skip ?_).trans ?_
        · try simp only [true_and, and_true, false_and, and_false]
          try omega
          try decide
        refine (dirtyAt_markChunkDirtyIf_skip ?_).trans ?_
        · try simp only [true_and, and_true, false_and, and_false]
          try omega
          try decide
        refine (dirtyAt_markChunkDirtyIf_skip ?_).trans ?_
        · try simp only [true_and, and_true, false_and, and_false]
          try omega
          try decide
        refine (dirtyAt_markChunkDirtyIf_skip ?_).trans ?_
        · try simp only [true_and, and_true, false_and, and_false]
          try omega
          try decide
        refine (dirtyAt_markChunkDirtyIf_skip ?_).trans ?_
        · try simp only [true_and, and_true, false_and, and_false]
          try omega
          try decide
        refine (dirtyAt_markChunkDirtyIf_skip ?_).trans ?_
        · try simp only [true_and, and_true, false_and, and_false]
          try omega
          try decide
        refine (dirtyAt_markChunkDirtyIf_skip ?_).trans ?_
        · try simp only [true_and, and_true, false_and, and_false]
          try omega
          try decide
        refine (dirtyAt_markChunkDirtyIf_hit ?_).trans ?_
        · try simp only [true_and, and_true, false_and, and_false]
          try omega
          try decide
        repeat rw [dirtyAt_map_true_markChunkDirtyIf]
        rw [dirtyAt_map_true_update hi _ rfl]
      · intro x y z h1 h2
        simp only [setVoxel, hc, hl, hi]
        refine (dirtyAt_markChunkDirtyIf_skip ?_).trans ?_
        · try simp only [true_and, and_true, false_and, and_false]
          try omega
          try decide
        refine (dirtyAt_markChunkDirtyIf_skip ?_).trans ?_
        · try simp only [true_and, and_true, false_and, and_false]
          try omega
          try decide
        refine (dirtyAt_markChunkDirtyIf_skip ?_).trans ?_
        · try simp only [true_and, and_true, false_and, and_false]
          try omega
          try decide
        refine (dirtyAt_markChunkDirtyIf_skip ?_).trans ?_
        · try simp only [true_and, and_true, false_and, and_false]
          try omega
          try decide
        refine (dirtyAt_markChunkDirtyIf_skip ?_).trans ?_
        · try simp only [true_and, and_true, false_and, and_false]
          try omega
          try decide
        refine (dirtyAt_markChunkDirtyIf_skip ?_).trans ?_
        · try simp only [true_and, and_true, false_and, and_false]
          try omega
          try decide
        refine (dirtyAt_markChunkDirtyIf_skip ?_).trans ?_
        · try simp only [true_and, and_true, false_and, and_false]
          try omega
          try decide
        refine (dirtyAt_markChunkDirtyIf_skip ?_).trans ?_
        · try simp only [true_and, and_true, false_and, and_false]
          try omega
          try decide
        refine (dirtyAt_markChunkDirtyIf_skip ?_).trans ?_
        · try simp only [true_and, and_true, false_and, and_false]
          try omega
          try decide
        refine (dirtyAt_markChunkDirtyIf_skip ?_).trans ?_
        · try simp only [true_and, and_true, false_and, and_false]
          try omega
          try decide
        refine (dirtyAt_markChunkDirtyIf_skip ?_).trans ?_
        · try simp only [true_and, and_true, false_and, and_false]
          try omega
          try decide
        refine (dirtyAt_markChunkDirtyIf_skip ?_).trans ?_
        · try simp only [true_and, and_true, false_and, and_false]
          try omega
          try decide
        refine (dirtyAt_markChunkDirtyIf_skip ?_).trans ?_
        · try simp only [true_and, and_true, false_and, and_false]
          try omega
          try decide
        refine (dirtyAt_markChunkDirtyIf_skip ?_).trans ?_
        · try simp only [true_and, and_true, false_and, and_false]
          try omega
          try decide
        refine (dirtyAt_markChunkDirtyIf_skip ?_).trans ?_
        · try simp only [true_and, and_true, false_and, and_false]
          try omega
          try decide
        refine (dirtyAt_markChunkDirtyIf_skip ?_).trans ?_
        · try simp only [true_and, and_true, false_and, and_false]
          try omega
          try decide
        refine (dirtyAt_markChunkDirtyIf_skip ?_).trans ?_
        · try simp only [true_and, and_true, false_and, and_false]
          try omega
          try decide
        refine (dirtyAt_markChunkDirtyIf_skip ?_).trans ?_
        · try simp only [true_and, and_true, false_and, and_false]
          try omega
          try decide
        refine (dirtyAt_markChunkDirtyIf_skip ?_).trans ?_
        · try simp only [true_and, and_true, false_and, and_false]
          try omega
          try decide
        refine (dirtyAt_markChunkDirtyIf_skip ?_).trans ?_
        · try simp only [true_and, and_true, false_and, and_false]
          try omega
          try decide
        refine (dirtyAt_markChunkDirtyIf_skip ?_).trans ?_
        · try simp only [true_and, and_true, false_and, and_false]
          try omega
          try decide
        refine (dirtyAt_markChunkDirtyIf_skip ?_).trans ?_
        · try simp only [true_and, and_true, false_and, and_false]
          try omega
          try decide
        refine (dirtyAt_markChunkDirtyIf_skip ?_).trans ?_
        · try simp only [true_and, and_true, false_and, and_false]
          try omega
          try decide
        refine (dirtyAt_markChunkDirtyIf_skip ?_).trans ?_
        · try simp only [true_and, and_true, false_and, and_false]
          try omega
          try decide
        refine (dirtyAt_markChunkDirtyIf_skip ?_).trans ?_
        · try simp only [true_and, and_true, false_and, and_false]
          try omega
          try decide
        refine (dirtyAt_markChunkDirtyIf_skip ?_).trans ?_
        · try simp only [true_and, and_true, false_and, and_false]
          try omega
          try decide
        refine dirtyAt_update_self_skip hi _ rfl ?_
        omega

/-- Witness for C2: editing world voxel (0,0,0) (local offset (0,0,0) of
chunk (0,0,0)) in the 8-chunk world over bounds [-1,0]³ marks the
corner-adjacent neighbor chunk (-1,-1,-1), which is present. -/
theorem setVoxel_dirty_propagation_witness :
    (worldPositionToChunkCoordinates 0 0 0 = (0, 0, 0) ∧
      worldPositionToChunkPosition 0 0 0 = (0, 0, 0) ∧
      chunkCoordinateToIndex 0 0 0 (initVoxels (-1) 0 (-1) 0 (-1) 0).bounds = some 7) ∧
      dirtyAt (setVoxel (initVoxels (-1) 0 (-1) 0 (-1) 0) 0 0 0 200 1 2 3)
          (0 - 1) (0 - 1) (0 - 1) =
        (dirtyAt (initVoxels (-1) 0 (-1) 0 (-1) 0) (0 - 1) (0 - 1) (0 - 1)).map
          (fun _ => true) :=
  ⟨⟨by decide, by decide, by decide⟩,
    (((setVoxel_dirty_propagation (initVoxels (-1) 0 (-1) 0 (-1) 0) 0 0 0 200 1 2 3
      0 0 0 0 0 0 7 (by decide) (by decide) (by decide)).1
        ⟨rfl, rfl, rfl⟩).1.2.2.2.2.2.2.2)⟩

/-! ## C1: empty-chunk skip versus naive DDA traversal -/

lemma setVoxel_bounds (w : Voxels) (wx wy wz : Int) (v r g b : Nat) :
    (setVoxel w wx wy wz v r g b).bounds = w.bounds := by
  cases h : chunkCoordinateToIndex (worldPositionToChunkCoordinates wx wy wz).1
      (worldPositionToChunkCoordinates wx wy wz).2.1
      (worldPositionToChunkCoordinates wx wy wz).2.2 w.bounds with
  | none => rw [setVoxel_absent h]
  | some i => exact (setVoxel_present_fields h).1

lemma fdiv_sixteen (a : Int) : Int.fdiv a 16 = a / 16 :=
  Int.fdiv_eq_ediv a (by norm_num)

lemma worldSkip_bounds (N : Nat) :
    (worldSkip N).bounds = ⟨0, 0, 0, 0, 0, (N : Int)⟩ := by
  unfold worldSkip
  rw [setVoxel_bounds]
  rfl

lemma skip_edit_cc (N : Nat) :
    worldPositionToChunkCoordinates 5 5 (16 * (N : Int) + 5) = (0, 0, (N : Int)) := by
  simp only [worldPositionToChunkCoordinates, fdiv_sixteen, Prod.mk.injEq]
  refine ⟨by omega, by omega, by omega⟩

lemma skip_edit_lp (N : Nat) :
    worldPositionToChunkPosition 5 5 (16 * (N : Int) + 5) = (5, 5, 5) := by
  simp only [worldPositionToChunkPosition, Prod.mk.injEq]
  refine ⟨by omega, by omega, by omega⟩

lemma skip_idx (N : Nat) (k : Nat) (hk : k ≤ N) :
    chunkCoordinateToIndex 0 0 (k : Int) (⟨0, 0, 0, 0, 0, (N : Int)⟩ : ChunkBounds) =
      some k := by
  rw [chunkCoordinateToIndex_of_mem (by show (0:Int) ≤ 0; norm_num)
    (by show (0:Int) ≤ 0; norm_num) (by show (0:Int) ≤ 0; norm_num)
    (by show (0:Int) ≤ 0; norm_num) (by show (0:Int) ≤ (k:Int); positivity)
    (by show (k:Int) ≤ (N:Int); exact_mod_cast hk)]
  simp

lemma skip_idx_neg (N : Nat) :
    chunkCoordinateToIndex 0 0 (-1) (⟨0, 0, 0, 0, 0, (N : Int)⟩ : ChunkBounds) =
      none := by
  simp only [chunkCoordinateToIndex]
  rw [if_pos]
  norm_num

lemma skip_idx_int (N : Nat) (jd : Int) (h0 : 0 ≤ jd) (h1 : jd ≤ (N : Int)) :
    chunkCoordinateToIndex 0 0 jd (⟨0, 0, 0, 0, 0, (N : Int)⟩ : ChunkBounds) =
      some jd.toNat := by
  rw [chunkCoordinateToIndex_of_mem (by show (0:Int) ≤ 0; norm_num)
    (by show (0:Int) ≤ 0; norm_num) (by show (0:Int) ≤ 0; norm_num)
    (by show (0:Int) ≤ 0; norm_num) (by show (0:Int) ≤ jd; exact h0)
    (by show jd ≤ (N:Int); exact h1)]
  simp

lemma worldSkip_edit_idx (N : Nat) :
    chunkCoordinateToIndex (worldPositionToChunkCoordinates 5 5 (16 * (N : Int) + 5)).1
      (worldPositionToChunkCoordinates 5 5 (16 * (N : Int) + 5)).2.1
      (worldPositionToChunkCoordinates 5 5 (16 * (N : Int) + 5)).2.2
      (initVoxels 0 0 0 0 0 (N : Int)).bounds = some N := by
  rw [skip_edit_cc N]
  exact skip_idx N N le_rfl

lemma worldSkip_chunk_other (N j : Nat) (hj : j ≠ N) :
    ((worldSkip N).chunks j).value = (fun _ => 0) ∧
      ((worldSkip N).chunks j).color = (fun _ => (0, 0, 0)) ∧
      ((worldSkip N).chunks j).sum = 0 := by
  have h := (@setVoxel_present_fields (initVoxels 0 0 0 0 0 (N : Int)) 5 5
    (16 * (N : Int) + 5) 255 0 0 0 N (worldSkip_edit_idx N)).2.1 j hj
  rw [worldSkip]
  exact ⟨h.1, h.2.1, h.2.2⟩

lemma worldSkip_value_N (N : Nat) :
    ((worldSkip N).chunks N).value = fun k => if k = 1365 then 255 else 0 := by
  have h := (@setVoxel_present_fields (initVoxels 0 0 0 0 0 (N : Int)) 5 5
    (16 * (N : Int) + 5) 255 0 0 0 N (worldSkip_edit_idx N)).2.2.1
  rw [worldSkip, h]
  funext k
  rw [skip_edit_lp]
  simp only [getVoxelIndex]
  have h1365 : Int.toNat 5 + Int.toNat 5 * 16 + Int.toNat 5 * 256 = 1365 := by decide
  simp only [h1365]
  by_cases hk : k = 1365 <;> simp [hk, initVoxels]

lemma worldSkip_color_N (N : Nat) :
    ((worldSkip N).chunks N).color = fun _ => (0, 0, 0) := by
  have h := (@setVoxel_present_fields (initVoxels 0 0 0 0 0 (N : Int)) 5 5
    (16 * (N : Int) + 5) 255 0 0 0 N (worldSkip_edit_idx N)).2.2.2.1
  rw [worldSkip, h]
  funext k
  by_cases hk : k = getVoxelIndex (worldPositionToChunkPosition 5 5 (16 * (N:Int) + 5)).1
      (worldPositionToChunkPosition 5 5 (16 * (N:Int) + 5)).2.1
      (worldPositionToChunkPosition 5 5 (16 * (N:Int) + 5)).2.2 <;>
    simp [hk, initVoxels]

lemma worldSkip_sum_N (N : Nat) :
    ((worldSkip N).chunks N).sum = 255 := by
  have h := (@setVoxel_present_fields (initVoxels 0 0 0 0 0 (N : Int)) 5 5
    (16 * (N : Int) + 5) 255 0 0 0 N (worldSkip_edit_idx N)).2.2.2.2
  rw [worldSkip, h]
  rfl

lemma worldSkip_getVoxel_miss (N : Nat) (j : Int) (h1 : -16 ≤ j)
    (h2 : j < 16 * (N : Int) + 16) (hne : j ≠ 16 * (N : Int) + 5) :
    getVoxel (worldSkip N) 5 5 j = (0, (0, 0, 0)) := by
  have hc : worldPositionToChunkCoordinates 5 5 j = (0, 0, j / 16) := by
    simp only [worldPositionToChunkCoordinates, fdiv_sixteen, Prod.mk.injEq]
    refine ⟨by decide, by decide, trivial⟩
  rcases lt_or_le j 0 with hneg | hpos
  · have hd : j / 16 = -1 := by omega
    simp [getVoxel, hc, worldSkip_bounds, hd, skip_idx_neg]
  · have hidx := skip_idx_int N (j / 16) (by omega) (by omega)
    have hlp : worldPositionToChunkPosition 5 5 j = (5, 5, j % 16) := by
      simp only [worldPositionToChunkPosition, Prod.mk.injEq]
      refine ⟨by decide, by decide, trivial⟩
    by_cases hjN : (j / 16).toNat = N
    · have hvidx : getVoxelIndex 5 5 (j % 16) = 1285 + 16 * (j % 16).toNat := by
        simp only [getVoxelIndex]
        omega
      have hne1365 : 1285 + 16 * (j % 16).toNat ≠ 1365 := by omega
      simp [getVoxel, hc, worldSkip_bounds, hidx, hjN, worldSkip_value_N,
        worldSkip_color_N, hlp, hvidx, hne1365]
    · obtain ⟨hval, hcol, -⟩ := worldSkip_chunk_other N (j / 16).toNat hjN
      simp [getVoxel, hc, worldSkip_bounds, hidx, hval, hcol]

lemma worldSkip_getVoxel_hit (N : Nat) :
    getVoxel (worldSkip N) 5 5 (16 * (N : Int) + 5) = (255, (0, 0, 0)) := by
  have hidx := skip_idx N N le_rfl
  simp [getVoxel, skip_edit_cc, worldSkip_bounds, hidx, worldSkip_value_N,
    worldSkip_color_N, skip_edit_lp, getVoxelIndex]

lemma naiveStep (N : Nat) (hN : N ≤ 2 ^ 24) (fuel : Nat) (j : Int)
    (hj1 : -16 ≤ j) (hj2 : j < 16 * (N : Int) + 5) :
    naiveRaycastLoop (worldSkip N) (11/2) (11/2) (-19/2) 0 0 1 (16*(N:ℚ)+100) 1 1 1
      FLOAT_MAX FLOAT_MAX 1 (fuel+1) 5 5 j FLOAT_MAX FLOAT_MAX ((j:ℚ)+21/2)
      0 0 (-1) ((j:ℚ)+19/2) =
    naiveRaycastLoop (worldSkip N) (11/2) (11/2) (-19/2) 0 0 1 (16*(N:ℚ)+100) 1 1 1
      FLOAT_MAX FLOAT_MAX 1 fuel 5 5 (j+1) FLOAT_MAX FLOAT_MAX (((j+1 : Int):ℚ)+21/2)
      0 0 (-1) (((j+1 : Int):ℚ)+19/2) := by
  have hcast : (j:ℚ) < 16*(N:ℚ)+5 := by exact_mod_cast hj2
  have hNq : (N:ℚ) ≤ 2^24 := by exact_mod_cast hN
  have hguard : ((j:ℚ)+19/2) < 16*(N:ℚ)+100 := by linarith
  have hv := worldSkip_getVoxel_miss N j (by omega) (by omega) (by omega)
  have hfm : ¬ (FLOAT_MAX < (j:ℚ)+21/2) := by
    rw [FLOAT_MAX]
    push_neg
    norm_num
    linarith
  simp only [naiveRaycastLoop]
  simp only [hguard, hv, ISOLEVEL]
  norm_num [hfm]
  ring_nf

lemma naiveFirst (N : Nat) (fuel : Nat) :
    naiveRaycastLoop (worldSkip N) (11/2) (11/2) (-19/2) 0 0 1 (16*(N:ℚ)+100) 1 1 1
      FLOAT_MAX FLOAT_MAX 1 (fuel+1) 5 5 (-10) FLOAT_MAX FLOAT_MAX (1/2) 0 0 0 0 =
    naiveRaycastLoop (worldSkip N) (11/2) (11/2) (-19/2) 0 0 1 (16*(N:ℚ)+100) 1 1 1
      FLOAT_MAX FLOAT_MAX 1 fuel 5 5 (-9) FLOAT_MAX FLOAT_MAX (((-9 : Int):ℚ)+21/2)
      0 0 (-1) (((-9 : Int):ℚ)+19/2) := by
  have hguard : (0:ℚ) < 16*(N:ℚ)+100 := by positivity
  have hv := worldSkip_getVoxel_miss N (-10) (by omega) (by omega) (by omega)
  have hfm : ¬ (FLOAT_MAX < (1/2 : ℚ)) := by
    rw [FLOAT_MAX]
    norm_num
  simp only [naiveRaycastLoop]
  simp only [hguard, hv, ISOLEVEL]
  norm_num [hfm]

lemma naiveHitStep (N : Nat) (fuel : Nat) :
    naiveRaycastLoop (worldSkip N) (11/2) (11/2) (-19/2) 0 0 1 (16*(N:ℚ)+100) 1 1 1
      FLOAT_MAX FLOAT_MAX 1 (fuel+1) 5 5 (16*(N:Int)+5) FLOAT_MAX FLOAT_MAX
      (((16*(N:Int)+5 : Int):ℚ)+21/2) 0 0 (-1) (((16*(N:Int)+5 : Int):ℚ)+19/2) =
    some (expectedSkipHit N) := by
  have hguard : (((16*(N:Int)+5 : Int):ℚ)+19/2) < 16*(N:ℚ)+100 := by
    push_cast
    linarith
  have hv := worldSkip_getVoxel_hit N
  simp only [naiveRaycastLoop]
  simp only [hguard, hv, ISOLEVEL]
  norm_num [expectedSkipHit]
  all_goals ring_nf
  all_goals exact ⟨trivial, trivial⟩

lemma naivePhase (N : Nat) (hN : N ≤ 2 ^ 24) :
    ∀ (m : Nat) (j : Int), j = 16*(N:Int)+5 - (m:Int) → -16 ≤ j →
      ∀ fuel : Nat, m + 1 ≤ fuel →
      naiveRaycastLoop (worldSkip N) (11/2) (11/2) (-19/2) 0 0 1 (16*(N:ℚ)+100) 1 1 1
        FLOAT_MAX FLOAT_MAX 1 fuel 5 5 j FLOAT_MAX FLOAT_MAX ((j:ℚ)+21/2)
        0 0 (-1) ((j:ℚ)+19/2) = some (expectedSkipHit N) := by
  intro m
  induction m with
  | zero =>
    intro j hj hj1 fuel hfuel
    obtain ⟨f, rfl⟩ : ∃ f, fuel = f + 1 := ⟨fuel - 1, by omega⟩
    obtain rfl : j = 16*(N:Int)+5 := by omega
    exact naiveHitStep N f
  | succ m ih =>
    intro j hj hj1 fuel hfuel
    obtain ⟨f, rfl⟩ : ∃ f, fuel = f + 1 := ⟨fuel - 1, by omega⟩
    have hstep := naiveStep N hN f j hj1 (by omega)
    rw [hstep]
    exact ih (j+1) (by omega) (by omega) f (by omega)

lemma naiveInit (world : Voxels) (fuel : Nat) (maxD : ℚ) :
    naiveRaycastVoxels fuel world 5 5 (-10) 0 0 1 maxD =
      naiveRaycastLoop world (11/2) (11/2) (-19/2) 0 0 1 maxD 1 1 1 FLOAT_MAX
        FLOAT_MAX 1 fuel 5 5 (-10) FLOAT_MAX FLOAT_MAX (1/2) 0 0 0 0 := by
  simp only [naiveRaycastVoxels]
  norm_num

lemma raycastInit (world : Voxels) (fuel : Nat) (maxD : ℚ) :
    raycastVoxels fuel world 5 5 (-10) 0 0 1 maxD =
      raycastLoop world (11/2) (11/2) (-19/2) 0 0 1 maxD 1 1 1 FLOAT_MAX
        FLOAT_MAX 1 fuel 5 5 (-10) FLOAT_MAX FLOAT_MAX (1/2) 0 0 0 0 := by
  simp only [raycastVoxels]
  norm_num

lemma voxStep (N : Nat) (hN : N ≤ 2 ^ 24) (fuel : Nat) (j : Int)
    (hj1 : 16 * (N : Int) ≤ j) (hj2 : j < 16 * (N : Int) + 5) :
    raycastLoop (worldSkip N) (11/2) (11/2) (-19/2) 0 0 1 (16*(N:ℚ)+100) 1 1 1
      FLOAT_MAX FLOAT_MAX 1 (fuel+1) 5 5 j FLOAT_MAX FLOAT_MAX ((j:ℚ)+21/2)
      0 0 (-1) ((j:ℚ)+19/2) =
    raycastLoop (worldSkip N) (11/2) (11/2) (-19/2) 0 0 1 (16*(N:ℚ)+100) 1 1 1
      FLOAT_MAX FLOAT_MAX 1 fuel 5 5 (j+1) FLOAT_MAX FLOAT_MAX (((j+1 : Int):ℚ)+21/2)
      0 0 (-1) (((j+1 : Int):ℚ)+19/2) := by
  have hcast : (j:ℚ) < 16*(N:ℚ)+5 := by exact_mod_cast hj2
  have hNq : (N:ℚ) ≤ 2^24 := by exact_mod_cast hN
  have hguard : ((j:ℚ)+19/2) < 16*(N:ℚ)+100 := by linarith
  have hc : worldPositionToChunkCoordinates 5 5 j = (0, 0, j / 16) := by
    simp only [worldPositionToChunkCoordinates, fdiv_sixteen, Prod.mk.injEq]
    refine ⟨by decide, by decide, trivial⟩
  have hd : j / 16 = (N : Int) := by omega
  have hidx := skip_idx N N le_rfl
  have hsum := worldSkip_sum_N N
  have hv := worldSkip_getVoxel_miss N j (by omega) (by omega) (by omega)
  have hfm : ¬ (FLOAT_MAX < (j:ℚ)+21/2) := by
    rw [FLOAT_MAX]
    push_neg
    norm_num
    linarith
  simp only [raycastLoop]
  simp only [hc, hd, worldSkip_bounds, hidx, hsum, hguard, hv, ISOLEVEL]
  norm_num [hfm]
  ring_nf

lemma voxHitStep (N : Nat) (fuel : Nat) :
    raycastLoop (worldSkip N) (11/2) (11/2) (-19/2) 0 0 1 (16*(N:ℚ)+100) 1 1 1
      FLOAT_MAX FLOAT_MAX 1 (fuel+1) 5 5 (16*(N:Int)+5) FLOAT_MAX FLOAT_MAX
      (((16*(N:Int)+5 : Int):ℚ)+21/2) 0 0 (-1) (((16*(N:Int)+5 : Int):ℚ)+19/2) =
    some (expectedSkipHit N) := by
  have hguard : (((16*(N:Int)+5 : Int):ℚ)+19/2) < 16*(N:ℚ)+100 := by
    push_cast
    linarith
  have hc : worldPositionToChunkCoordinates 5 5 (16*(N:Int)+5) = (0, 0, (N : Int)) :=
    skip_edit_cc N
  have hidx := skip_idx N N le_rfl
  have hsum := worldSkip_sum_N N
  have hv := worldSkip_getVoxel_hit N
  simp only [raycastLoop]
  simp only [hc, worldSkip_bounds, hidx, hsum, hguard, hv, ISOLEVEL]
  norm_num [expectedSkipHit]
  all_goals ring_nf
  all_goals exact ⟨trivial, trivial⟩

lemma skipChunk (N : Nat) (hN : N ≤ 2 ^ 24) (fuel : Nat) (k : Nat) (hk : k < N) :
    raycastLoop (worldSkip N) (11/2) (11/2) (-19/2) 0 0 1 (16*(N:ℚ)+100) 1 1 1
      FLOAT_MAX FLOAT_MAX 1 (fuel+1) 5 5 (16*((k:Nat):Int)) FLOAT_MAX FLOAT_MAX
      (16*((k:Nat):ℚ)+21/2) 0 0 (-1) (16*((k:Nat):ℚ)+19/2) =
    raycastLoop (worldSkip N) (11/2) (11/2) (-19/2) 0 0 1 (16*(N:ℚ)+100) 1 1 1
      FLOAT_MAX FLOAT_MAX 1 fuel 5 5 (16*((k+1:Nat):Int)) FLOAT_MAX FLOAT_MAX
      (16*((k+1:Nat):ℚ)+21/2) 0 0 (-1) (16*((k+1:Nat):ℚ)+19/2) := by
  have hkq : (k:ℚ) + 1 ≤ (N:ℚ) := by exact_mod_cast hk
  have hNq : (N:ℚ) ≤ 2^24 := by exact_mod_cast hN
  have hguard : (16*(k:ℚ)+19/2) < 16*(N:ℚ)+100 := by linarith
  have hc : worldPositionToChunkCoordinates 5 5 (16*((k:Nat):Int)) =
      (0, 0, ((k:Nat):Int)) := by
    simp only [worldPositionToChunkCoordinates, fdiv_sixteen, Prod.mk.injEq]
    refine ⟨by decide, by decide, by omega⟩
  have hidx := skip_idx N k hk.le
  have hsum := (worldSkip_chunk_other N k (Nat.ne_of_lt hk)).2.2
  simp only [raycastLoop]
  simp only [hc, worldSkip_bounds, hidx, hsum, hguard, FLOAT_MAX]
  norm_num
  have h1 : (16 * (k:ℚ)) < (k:ℚ) * 16 + 16 := by linarith
  simp only [if_pos h1]
  have h2 : ¬ ((340282366920938463463374607431768211456 : ℚ) ≤
      (k:ℚ) * 16 + 16 + 19 / 2) := by
    push_neg
    linarith
  have h3 : ¬ ((16 * (N:ℚ) + 100) ≤ (k:ℚ) * 16 + 16 + 19 / 2) := by
    push_neg
    linarith
  have h6 : ¬ (((16*(N:ℚ)+100 ≤ (340282366920938463463374607431768211456:ℚ)) ∧
      16*(N:ℚ)+100 ≤ (k:ℚ)*16+16+19/2) ∨
      (340282366920938463463374607431768211456:ℚ) ≤ (k:ℚ)*16+16+19/2) := by
    push_neg
    refine ⟨fun _ => ?_, ?_⟩ <;> linarith
  rw [if_neg h6]
  have h4 : (340282366920938463463374607431768211456:ℚ) ⊓ ((k:ℚ)*16+16+19/2) =
      (k:ℚ)*16+16+19/2 := min_eq_right (by linarith)
  simp only [h4]
  have h5 : ⌊-(19/2 : ℚ) + ((k:ℚ)*16+16+19/2 + 1/10000)⌋ = 16*(k:Int)+16 := by
    rw [Int.floor_eq_iff]
    constructor <;> push_cast <;> linarith
  simp only [h5, if_neg h2]
  norm_num
  ring_nf

lemma skipFirst (N : Nat) (fuel : Nat) :
    raycastLoop (worldSkip N) (11/2) (11/2) (-19/2) 0 0 1 (16*(N:ℚ)+100) 1 1 1
      FLOAT_MAX FLOAT_MAX 1 (fuel+1) 5 5 (-10) FLOAT_MAX FLOAT_MAX (1/2) 0 0 0 0 =
    raycastLoop (worldSkip N) (11/2) (11/2) (-19/2) 0 0 1 (16*(N:ℚ)+100) 1 1 1
      FLOAT_MAX FLOAT_MAX 1 fuel 5 5 (16*((0:Nat):Int)) FLOAT_MAX FLOAT_MAX
      (16*((0:Nat):ℚ)+21/2) 0 0 (-1) (16*((0:Nat):ℚ)+19/2) := by
  have hguard : (0:ℚ) < 16*(N:ℚ)+100 := by positivity
  have hc : worldPositionToChunkCoordinates 5 5 (-10) = (0, 0, -1) := by
    simp only [worldPositionToChunkCoordinates, fdiv_sixteen, Prod.mk.injEq]
    refine ⟨by decide, by decide, by decide⟩
  have hmaxd : ¬ ((16*(N:ℚ)+100) ≤ 19/2) := by
    push_neg
    have h0 : (0:ℚ) ≤ (N:ℚ) := Nat.cast_nonneg N
    linarith
  simp only [raycastLoop]
  simp only [hc, worldSkip_bounds, skip_idx_neg, hguard, FLOAT_MAX]
  norm_num
  intro h
  exact absurd h hmaxd

lemma voxPhase (N : Nat) (hN : N ≤ 2 ^ 24) :
    ∀ (d : Nat) (j : Int), j = 16*(N:Int)+5 - (d:Int) → 16*(N:Int) ≤ j →
      ∀ fuel : Nat, d + 1 ≤ fuel →
      raycastLoop (worldSkip N) (11/2) (11/2) (-19/2) 0 0 1 (16*(N:ℚ)+100) 1 1 1
        FLOAT_MAX FLOAT_MAX 1 fuel 5 5 j FLOAT_MAX FLOAT_MAX ((j:ℚ)+21/2)
        0 0 (-1) ((j:ℚ)+19/2) = some (expectedSkipHit N) := by
  intro d
  induction d with
  | zero =>
    intro j hj hj0 fuel hfuel
    obtain ⟨f, rfl⟩ : ∃ f, fuel = f + 1 := ⟨fuel - 1, by omega⟩
    obtain rfl : j = 16*(N:Int)+5 := by omega
    exact voxHitStep N f
  | succ d ih =>
    intro j hj hj0 fuel hfuel
    obtain ⟨f, rfl⟩ : ∃ f, fuel = f + 1 := ⟨fuel - 1, by omega⟩
    rw [voxStep N hN f j hj0 (by omega)]
    exact ih (j+1) (by omega) (by omega) f (by omega)

lemma skipPhase (N : Nat) (hN : N ≤ 2 ^ 24) :
    ∀ (m k : Nat), k + m = N →
      ∀ fuel : Nat, m + 7 ≤ fuel →
      raycastLoop (worldSkip N) (11/2) (11/2) (-19/2) 0 0 1 (16*(N:ℚ)+100) 1 1 1
        FLOAT_MAX FLOAT_MAX 1 fuel 5 5 (16*((k:Nat):Int)) FLOAT_MAX FLOAT_MAX
        (16*((k:Nat):ℚ)+21/2) 0 0 (-1) (16*((k:Nat):ℚ)+19/2) =
      some (expectedSkipHit N) := by
  intro m
  induction m with
  | zero =>
    intro k hk fuel hfuel
    obtain rfl : k = N := by omega
    have h := voxPhase k hN 5 (16*(k:Int)) (by omega) (by omega) fuel (by omega)
    convert h using 2 <;> push_cast <;> ring
  | succ m ih =>
    intro k hk fuel hfuel
    obtain ⟨f, rfl⟩ : ∃ f, fuel = f + 1 := ⟨fuel - 1, by omega⟩
    rw [skipChunk N hN f k (by omega)]
    exact ih (k+1) (by omega) f (by omega)

/-- C1, amended: for the axis-aligned ray from (5,5,-10) along (0,0,1) on the
world with chunk bounds 0..0 x 0..0 x 0..N whose only solid voxel is
(5,5,16N+5), the skipping raycaster crosses the N empty chunks and the absent
start chunk in N+1 iterations and returns exactly the same hit as the naive
per-voxel DDA, which needs 16N+15 iterations: voxel (5,5,16N+5), -z entry
face, distance 16N+14.5.  The bound on N keeps every traversal parameter
below the FLOAT_MAX sentinel, as the C int voxel coordinates require. -/
theorem raycast_skip_equivalence (N : Nat) (hN : N ≤ 2 ^ 24) :
    raycastVoxels (N + 20) (worldSkip N) 5 5 (-10) 0 0 1 (16*(N:ℚ)+100) =
        some (expectedSkipHit N) ∧
      naiveRaycastVoxels (16*N + 40) (worldSkip N) 5 5 (-10) 0 0 1 (16*(N:ℚ)+100) =
        some (expectedSkipHit N) := by
  constructor
  · rw [raycastInit]
    obtain ⟨f, hf⟩ : ∃ f, N + 20 = f + 1 := ⟨N + 19, by omega⟩
    rw [hf, skipFirst]
    exact skipPhase N hN N 0 (by omega) f (by omega)
  · rw [naiveInit]
    obtain ⟨f, hf⟩ : ∃ f, 16*N + 40 = f + 1 := ⟨16*N + 39, by omega⟩
    rw [hf, naiveFirst]
    exact naivePhase N hN (16*N + 14) (-9) (by omega) (by omega) f (by omega)

set_option maxRecDepth 40000 in
/-- C1, counterexample to the claim as stated: on the one-chunk world whose
only solid voxel is (2,5,0), the ray from (1.93747, 5, -1.25) along
(0.6, 0, 0.8) exits the absent chunk z < 0 a hair before crossing x = 3, so
the skipping raycaster's epsilon jump lands past that crossing and reports a
miss, while the naive per-voxel DDA tests voxel (2,5,0) and hits it: the two
traversals do not return identical results. -/
theorem raycast_skip_cex :
    raycastVoxels 300 worldCex (193747/100000) 5 (-125/100) (3/5) 0 (4/5) 10 =
        some missResult ∧
      (naiveRaycastVoxels 300 worldCex (193747/100000) 5 (-125/100) (3/5) 0 (4/5) 10).map
          (fun res => res.hit) = some true ∧
      missResult.hit = false := by
  refine ⟨?_, ?_, rfl⟩
  · with_unfolding_all rfl
  · with_unfolding_all rfl

/-- Witness for `raycast_skip_equivalence` at N = 1. -/
theorem raycast_skip_equivalence_witness :
    (1 : Nat) ≤ 2 ^ 24 ∧
      (raycastVoxels (1 + 20) (worldSkip 1) 5 5 (-10) 0 0 1 (16*((1:Nat):ℚ)+100) =
          some (expectedSkipHit 1) ∧
        naiveRaycastVoxels (16*1 + 40) (worldSkip 1) 5 5 (-10) 0 0 1 (16*((1:Nat):ℚ)+100) =
          some (expectedSkipHit 1)) :=
  ⟨by norm_num, raycast_skip_equivalence 1 (by norm_num)⟩

/-- Witness for `generateChunk_density` at the stale chunk (2,13,1), seed 0,
local voxel (8,0,8): the solidity there is below the cutoff, so the voxel
keeps its stale density. -/
theorem generateChunk_density_witness :
    (8 : Nat) < 16 ∧ (0 : Nat) < 16 ∧
      (generateChunk staleChunk 2 13 1 0).value (8 + 8 * 16 + 0 * 256) =
        (if generateSolidity (2 * 16 + ((8 : Nat) : Int)) (13 * 16 + ((0 : Nat) : Int))
            (1 * 16 + ((8 : Nat) : Int)) 0 > 1 / 100 then
          (⌊generateSolidity (2 * 16 + ((8 : Nat) : Int)) (13 * 16 + ((0 : Nat) : Int))
            (1 * 16 + ((8 : Nat) : Int)) 0 * 255⌋).toNat
        else staleChunk.value (8 + 8 * 16 + 0 * 256)) :=
  ⟨by decide, by decide,
    (generateChunk_density staleChunk 2 13 1 0 8 0 8 (by decide) (by decide)
      (by decide)).1⟩
